import Mathlib

/-!
# Twilio provider: resource reconciliation engine

A shallow embedding of `plugin/providers/twilio` (lookups, attribute codec,
lifecycle of phone numbers and subaccounts) together with the properties
checked against it.

Conventions of the embedding:

* a Go `error` is an `Option String` (`none` is `nil`, `some msg` carries
  `err.Error()`);
* `interface{}` values handed to and returned by the configuration store are
  `Value`s, the entries of a `map[string]interface{}` are `Prim`s;
* `url.Values` and the `map[string][]string` filter maps are association
  lists in insertion order;
* a function that mutates `*schema.ResourceData` takes the record and
  returns the new record; every `d.Set` attempt is appended to the ghost
  field `trace`;
* a lifecycle function returns an `Outcome`: the record it leaves behind, the
  error it returns and the remote calls it issued, in order;
* the provider API client is a record of answers, one function per remote
  operation; no lifecycle function issues the same operation twice.
-/

namespace Twilio

/-! ## Values held by the configuration store -/

/-- A primitive Go value held in an `interface{}`. -/
inductive Prim where
  | nil
  | str (s : String)
  | bool (b : Bool)
  | int (n : Int)
  deriving DecidableEq, Repr

/-- An element of a composite field: `map[string]interface{}`. -/
abbrev Item := List (String × Prim)

/-- A value passed to `d.Set` or returned by `d.Get`: a primitive, the
instances of a composite field (`[]map[string]interface{}`, `*schema.Set`), or
a Go struct of the named type, which no field type of the store accepts. -/
inductive Value where
  | nil
  | str (s : String)
  | bool (b : Bool)
  | int (n : Int)
  | set (items : List Item)
  | struct (typeName : String)
  deriving DecidableEq, Repr

/-- A primitive seen as a value. -/
def Prim.toValue : Prim → Value
  | .nil => .nil
  | .str s => .str s
  | .bool b => .bool b
  | .int n => .int n

/-- Library function `cast.ToString` (spf13/cast): a string is returned as it
is, a boolean renders as `true` / `false`, an integer in decimal, `nil` and
every value it cannot convert as the empty string. -/
def castToString : Value → String
  | .nil => ""
  | .str s => s
  | .bool b => if b then "true" else "false"
  | .int n => toString n
  | .set _ => ""
  | .struct _ => ""

/-- Type assertion `v.(string)` on a field the schema types as a string. -/
def Value.asString : Value → String
  | .str s => s
  | _ => ""

/-- Type assertion `v.(*schema.Set)` on a composite field, as its list of
instances. -/
def Value.asSet : Value → List Item
  | .set items => items
  | _ => []

/-- Index expression `m[key]` on a `map[string]interface{}`: `nil` when the key
is absent. -/
def Item.get (m : Item) (key : String) : Value :=
  match m.lookup key with
  | some p => p.toValue
  | none => .nil

/-- Library function `strings.Contains`. -/
def stringsContains (s substr : String) : Bool :=
  decide (substr.toList <:+: s.toList)

/-! ## `url.Values` -/

/-- Go `url.Values` / `map[string][]string`. -/
abbrev Values := List (String × List String)

/-- The values stored under `key` (`nil` slice when absent). -/
def Values.get (params : Values) (key : String) : Option (List String) :=
  params.lookup key

/-- Whether `key` is a key of the map. -/
def Values.hasKey (params : Values) (key : String) : Bool :=
  (params.lookup key).isSome

/-- Method `url.Values.Add`: appends `value` to the values of `key`. -/
def Values.Add : Values → String → String → Values
  | [], key, value => [(key, [value])]
  | (k, vs) :: rest, key, value =>
    if k = key then (k, vs ++ [value]) :: rest
    else (k, vs) :: Values.Add rest key value

/-- Method `url.Values.Set`: replaces the values of `key` by `[value]`. -/
def Values.Set : Values → String → String → Values
  | [], key, value => [(key, [value])]
  | (k, vs) :: rest, key, value =>
    if k = key then (k, [value]) :: rest
    else (k, vs) :: Values.Set rest key value

/-! ## The configuration store (`schema.ResourceData`) -/

/-- The value types of the schema fields used by this provider. -/
inductive ValueType where
  | TypeString
  | TypeBool
  | TypeInt
  | TypeSet
  deriving DecidableEq, Repr

/-- Zero value of a schema type, returned by `d.Get` for an unset field. -/
def ValueType.zero : ValueType → Value
  | .TypeString => .str ""
  | .TypeBool => .bool false
  | .TypeInt => .int 0
  | .TypeSet => .set []

/-- Whether the store accepts `v` for a field of type `t`. -/
def ValueType.accepts : ValueType → Value → Bool
  | .TypeString, .str _ => true
  | .TypeBool, .bool _ => true
  | .TypeInt, .int _ => true
  | .TypeSet, .set _ => true
  | _, _ => false

/-- One `d.Set` attempt, as recorded in the trace. -/
structure SetAttempt where
  key : String
  ok : Bool
  deriving DecidableEq, Repr

/-- The declared resource record, `*schema.ResourceData`: the field types of
its schema, its identifier, the values it holds (latest first), the trace of
the assignments attempted on it, and the values held before the pending
change (what `d.GetChange` reports as the old value). -/
structure ResourceData where
  schema : List (String × ValueType)
  id : String := ""
  state : List (String × Value) := []
  trace : List SetAttempt := []
  prior : List (String × Value) := []
  deriving DecidableEq, Repr

/-- The pair `(d, err)` threaded through a decoder: the record and the error
of the latest assignment. -/
structure SetResult where
  d : ResourceData
  err : Option String
  deriving DecidableEq, Repr

namespace ResourceData

/-- Accessor `d.Id()`. -/
def Id (d : ResourceData) : String := d.id

/-- Mutator `d.SetId(v)`. -/
def SetId (d : ResourceData) (v : String) : ResourceData := { d with id := v }

/-- Accessor `d.Get(key)`: the held value, the zero value of the field type
when the field is unset, `nil` for a key the schema does not declare. -/
def Get (d : ResourceData) (key : String) : Value :=
  match d.schema.lookup key with
  | none => .nil
  | some t =>
    match d.state.lookup key with
    | some v => v
    | none => t.zero

/-- Accessor `d.GetOkExists(key)`: the value of `d.Get` and whether the field
has been set. -/
def GetOkExists (d : ResourceData) (key : String) : Value × Bool :=
  (d.Get key, (d.schema.lookup key).isSome && (d.state.lookup key).isSome)

/-- Accessor `d.GetChange(key)`: the value before the pending change and the
value `d.Get` reports now. -/
def GetChange (d : ResourceData) (key : String) : Value × Value :=
  let old :=
    match d.schema.lookup key with
    | none => Value.nil
    | some t =>
      match d.prior.lookup key with
      | some v => v
      | none => t.zero
  (old, d.Get key)

/-- Accessor `d.HasChange(key)`: whether the two values of `d.GetChange`
differ. -/
def HasChange (d : ResourceData) (key : String) : Bool :=
  decide ((d.GetChange key).1 ≠ (d.GetChange key).2)

/-- Message of the error `d.Set` returns for `key`. -/
def setError (d : ResourceData) (key : String) (value : Value) : Option String :=
  match d.schema.lookup key with
  | none => some ("Invalid address to set: " ++ key)
  | some t => if t.accepts value then none else some (key ++ ": unconvertible type")

/-- Mutator `d.Set(key, value)`: fails, leaving the values untouched, when the
schema does not declare `key` or declares it with another type; otherwise the
field holds `value` afterwards. Returns the record and the error. -/
def Set (d : ResourceData) (key : String) (value : Value) : SetResult :=
  match d.setError key value with
  | some e => { d := { d with trace := d.trace ++ [⟨key, false⟩] }, err := some e }
  | none =>
    { d := { d with state := (key, value) :: d.state, trace := d.trace ++ [⟨key, true⟩] },
      err := none }

end ResourceData

namespace SetResult

/-- Statement `if err == nil { err = d.Set(key, value) }`. -/
def thenSet (r : SetResult) (key : String) (value : Value) : SetResult :=
  if r.err = none then r.d.Set key value else r

/-- Statement `if err == nil && cond { err = d.Set(key, value) }`. -/
def thenSetIf (r : SetResult) (cond : Bool) (key : String) (value : Value) : SetResult :=
  if r.err = none ∧ cond = true then r.d.Set key value else r

/-- Statement `if cond { err = d.Set(key, value) }`, without a guard on
`err`. -/
def alwaysSetIf (r : SetResult) (cond : Bool) (key : String) (value : Value) : SetResult :=
  if cond = true then r.d.Set key value else r

end SetResult

/-! ## Remote objects (`twilio-go`) -/

/-- Go `time.Time`, as far as formatting reads it: the civil date and time and
the zone offset in seconds east of UTC. -/
structure Time where
  year : Nat := 1
  month : Nat := 1
  day : Nat := 1
  hour : Nat := 0
  minute : Nat := 0
  second : Nat := 0
  offset : Int := 0
  deriving DecidableEq, Repr

/-- Decimal rendering of `n`, zero-padded on the left to `width` digits. -/
def zeroPad (width n : Nat) : String :=
  let s := toString n
  String.mk (List.replicate (width - s.length) '0') ++ s

/-- The layout every decoder passes to `Time.Format`. -/
def timeLayout : String := "2006-01-02T15:04:05-07:00"

/-- Call `t.Format("2006-01-02T15:04:05-07:00")`: date, `T`, time, then the
zone as a sign and `hh:mm`. -/
def Time.Format (t : Time) : String :=
  let zone := t.offset.natAbs / 60
  let sign := if t.offset < 0 ∧ 0 < zone then "-" else "+"
  zeroPad 4 t.year ++ "-" ++ zeroPad 2 t.month ++ "-" ++ zeroPad 2 t.day ++ "T" ++
    zeroPad 2 t.hour ++ ":" ++ zeroPad 2 t.minute ++ ":" ++ zeroPad 2 t.second ++
    sign ++ zeroPad 2 (zone / 60) ++ ":" ++ zeroPad 2 (zone % 60)

/-- Type `twilio.TwilioTime`: a timestamp that may be absent or invalid. -/
structure TwilioTime where
  Time : Time := {}
  Valid : Bool := false
  deriving DecidableEq, Repr

/-- Type `types.NullString`. -/
structure NullString where
  String : String := ""
  Valid : Bool := false
  deriving DecidableEq, Repr

/-- Type `twilio.NumberCapability`. -/
structure NumberCapability where
  MMS : Bool := false
  SMS : Bool := false
  Voice : Bool := false
  deriving DecidableEq, Repr

/-- Type `twilio.IncomingPhoneNumber`, with the fields the provider reads. -/
structure IncomingPhoneNumber where
  Sid : String := ""
  PhoneNumber : String := ""
  FriendlyName : String := ""
  TrunkSid : String := ""
  DateCreated : TwilioTime := {}
  DateUpdated : TwilioTime := {}
  AddressRequirements : String := ""
  Beta : Bool := false
  Capabilities : NumberCapability := {}
  VoiceApplicationSid : String := ""
  VoiceFallbackURL : String := ""
  VoiceFallbackMethod : String := ""
  VoiceURL : String := ""
  VoiceMethod : String := ""
  VoiceCallerIDLookup : Bool := false
  SMSApplicationSid : String := ""
  SMSFallbackURL : String := ""
  SMSFallbackMethod : String := ""
  SMSURL : String := ""
  SMSMethod : String := ""
  StatusCallback : String := ""
  StatusCallbackMethod : String := ""
  EmergencyAddressSid : NullString := {}
  EmergencyStatus : String := ""
  deriving DecidableEq, Repr

/-- Type `twilio.Service` (a messaging service), with the fields the provider
reads. -/
structure Service where
  Sid : String := ""
  AccountSid : String := ""
  FriendlyName : String := ""
  DateCreated : TwilioTime := {}
  DateUpdated : TwilioTime := {}
  InboundRequestURL : Option String := none
  InboundMethod : String := ""
  FallbackURL : String := ""
  FallbackMethod : String := ""
  StatusCallback : String := ""
  StickySender : Bool := false
  MMSConverter : Bool := false
  SmartEncoding : Bool := false
  FallbackToLongCode : Bool := false
  AreaCodeGeomatch : Bool := false
  ValidityPeriod : Int := 0
  SynchronousValidation : Bool := false
  deriving DecidableEq, Repr

/-- Type `twilio.Account`, with the fields the provider reads. -/
structure Account where
  Sid : String := ""
  FriendlyName : String := ""
  Status : String := ""
  AuthToken : String := ""
  OwnerAccountSid : String := ""
  DateCreated : TwilioTime := {}
  DateUpdated : TwilioTime := {}
  deriving DecidableEq, Repr

/-- Type `twilio.Key` (an API key). -/
structure Key where
  Sid : String := ""
  FriendlyName : String := ""
  Secret : String := ""
  DateCreated : TwilioTime := {}
  DateUpdated : TwilioTime := {}
  deriving DecidableEq, Repr

/-- Type `twilio.AvailableNumber`, with the field the provider reads. -/
structure AvailableNumber where
  PhoneNumber : String := ""
  deriving DecidableEq, Repr

/-! ## The provider API client -/

/-- A remote call issued through the provider API client. -/
inductive Call where
  | IncomingNumbersGetPage (query : Values)
  | MessageServicesGetPage (query : Values)
  | AccountsGetPage (query : Values)
  | AvailableNumbersLocalGetPage (countryCode : String) (params : Values)
  | IncomingNumbersCreate (params : Values)
  | IncomingNumbersUpdate (sid : String) (params : Values)
  | IncomingNumbersRelease (sid : String)
  | MessageServicesCreatePhoneNumber (serviceSid phoneSid : String)
  | MessageServicesDeletePhoneNumber (serviceSid phoneSid : String)
  | AccountsUpdate (sid : String) (params : Values)
  | IncomingNumbersGet (sid : String)
  | MessageServicesCreate (params : Values)
  | MessageServicesGet (sid : String)
  | MessageServicesUpdate (sid : String) (params : Values)
  | MessageServicesDelete (sid : String)
  | AccountsCreate (params : Values)
  | AccountsGet (sid : String)
  | KeysCreate (params : Values)
  | KeysGet (sid : String)
  | KeysDelete (sid : String)
  deriving DecidableEq, Repr

/-- The provider API client: what each remote operation answers. -/
structure Client where
  IncomingNumbersGetPage : Values → Except String (List IncomingPhoneNumber)
  MessageServicesGetPage : Values → Except String (List Service)
  AccountsGetPage : Values → Except String (List Account)
  AvailableNumbersLocalGetPage : String → Values → Except String (List AvailableNumber) :=
    fun _ _ => .error "no answer"
  IncomingNumbersCreate : Values → Except String IncomingPhoneNumber :=
    fun _ => .error "no answer"
  IncomingNumbersUpdate : String → Values → Except String IncomingPhoneNumber :=
    fun _ _ => .error "no answer"
  IncomingNumbersRelease : String → Option String := fun _ => some "no answer"
  MessageServicesCreatePhoneNumber : String → String → Option String :=
    fun _ _ => some "no answer"
  MessageServicesDeletePhoneNumber : String → String → Option String :=
    fun _ _ => some "no answer"
  AccountsUpdate : String → Values → Except String Account := fun _ _ => .error "no answer"
  IncomingNumbersGet : String → Except String IncomingPhoneNumber :=
    fun _ => .error "no answer"
  MessageServicesCreate : Values → Except String Service := fun _ => .error "no answer"
  MessageServicesGet : String → Except String Service := fun _ => .error "no answer"
  MessageServicesUpdate : String → Values → Except String Service :=
    fun _ _ => .error "no answer"
  MessageServicesDelete : String → Option String := fun _ => some "no answer"
  AccountsCreate : Values → Except String Account := fun _ => .error "no answer"
  AccountsGet : String → Except String Account := fun _ => .error "no answer"
  KeysCreate : Values → Except String Key := fun _ => .error "no answer"
  /-- `Keys.Get` answers the pair `(key, err)`; the provider reads `key` also when `err`
  is not nil. -/
  KeysGet : String → Key × Option String := fun _ => ({}, some "no answer")
  KeysDelete : String → Option String := fun _ => some "no answer"

/-- What a lifecycle function leaves behind: the record, the returned error
and the remote calls issued, in order. -/
structure Outcome where
  d : ResourceData
  err : Option String
  calls : List Call := []
  deriving DecidableEq, Repr

/-! ## Schemas (field name and type), from the resource declarations -/

/-- Fields of `resourceTwilioPhoneNumber().Schema`. -/
def phoneNumberSchema : List (String × ValueType) :=
  [("sid", .TypeString), ("search", .TypeString), ("area_code", .TypeString),
   ("country_code", .TypeString), ("number", .TypeString), ("friendly_name", .TypeString),
   ("date_created", .TypeString), ("date_updated", .TypeString), ("service_sid", .TypeString),
   ("address_requirements", .TypeString), ("is_beta", .TypeBool), ("is_mms_capable", .TypeBool),
   ("is_sms_capable", .TypeBool), ("is_voice_capable", .TypeBool), ("sms", .TypeSet),
   ("status_callback", .TypeSet), ("voice", .TypeSet), ("address_sid", .TypeString),
   ("trunk_sid", .TypeString), ("identity_sid", .TypeString), ("emergency", .TypeSet)]

/-- Fields of `resourceTwilioMessagingService().Schema`. -/
def messagingServiceSchema : List (String × ValueType) :=
  [("sid", .TypeString), ("friendly_name", .TypeString), ("date_created", .TypeString),
   ("date_updated", .TypeString), ("inbound_request_url", .TypeString),
   ("inbound_method", .TypeString), ("fallback_url", .TypeString),
   ("fallback_method", .TypeString), ("status_callback", .TypeString),
   ("sticky_sender", .TypeBool), ("mms_converter", .TypeBool), ("smart_encoding", .TypeBool),
   ("fallback_to_long_code", .TypeBool), ("area_code_geomatch", .TypeBool),
   ("synchronous_validation", .TypeBool), ("validity_period", .TypeInt)]

/-- Fields of `resourceTwilioSubaccount().Schema`. -/
def subaccountSchema : List (String × ValueType) :=
  [("parent_account_sid", .TypeString), ("friendly_name", .TypeString), ("status", .TypeString),
   ("auth_token", .TypeString), ("date_created", .TypeString), ("date_updated", .TypeString)]

/-- Fields of `resourceTwilioApiKey().Schema`. -/
def apiKeySchema : List (String × ValueType) :=
  [("sid", .TypeString), ("friendly_name", .TypeString), ("secret", .TypeString),
   ("date_created", .TypeString), ("date_updated", .TypeString)]

/-! ## Attribute codec: encode -/

/-- Function `addIfNotEmpty`. -/
def addIfNotEmpty (params : Values) (key : String) (value : Value) : Values :=
  let s := castToString value
  if s ≠ "" then params.Add key s else params

/-- The first instance of a composite field, `set.List()[0]`, when
`set.Len() > 0`. -/
def firstItem (v : Value) : Option Item := v.asSet.head?

/-- Function `makeCreateRequestPayload`. -/
def makeCreateRequestPayload (d : ResourceData) : Values :=
  let p : Values := []
  let p := addIfNotEmpty p "FriendlyName" (d.Get "friendly_name")
  let p := addIfNotEmpty p "AddressSid" (d.Get "address_sid")
  let p := addIfNotEmpty p "TrunkSid" (d.Get "trunk_sid")
  let p := addIfNotEmpty p "IdentitySid" (d.Get "identity_sid")
  let p := match firstItem (d.Get "sms") with
    | some sms =>
      let p := addIfNotEmpty p "SmsApplicationSid" (sms.get "application_sid")
      let p := addIfNotEmpty p "SmsFallbackUrl" (sms.get "fallback_url")
      let p := addIfNotEmpty p "SmsFallbackMethod" (sms.get "fallback_http_method")
      let p := addIfNotEmpty p "SmsMethod" (sms.get "primary_http_method")
      addIfNotEmpty p "SmsUrl" (sms.get "primary_url")
    | none => p
  let p := match firstItem (d.Get "voice") with
    | some voice =>
      let p := addIfNotEmpty p "VoiceApplicationSid" (voice.get "application_sid")
      let p := addIfNotEmpty p "VoiceFallbackUrl" (voice.get "fallback_url")
      let p := addIfNotEmpty p "VoiceFallbackMethod" (voice.get "fallback_http_method")
      let p := addIfNotEmpty p "VoiceMethod" (voice.get "primary_http_method")
      let p := addIfNotEmpty p "VoiceUrl" (voice.get "primary_url")
      let p := addIfNotEmpty p "VoiceCallerIdLookup" (voice.get "caller_id_enabled")
      addIfNotEmpty p "VoiceReceiveMode" (voice.get "receive_mode")
    | none => p
  let p := match firstItem (d.Get "status_callback") with
    | some statusCallback =>
      let p := addIfNotEmpty p "StatusCallbackMethod" (statusCallback.get "http_method")
      addIfNotEmpty p "StatusCallback" (statusCallback.get "url")
    | none => p
  let p := match firstItem (d.Get "emergency") with
    | some emergency =>
      let p := addIfNotEmpty p "EmergencyStatus" (emergency.get "status")
      addIfNotEmpty p "EmergencyAddressSid" (emergency.get "address_sid")
    | none => p
  p

/-- Function `makeCreateServiceRequestPayload`. -/
def makeCreateServiceRequestPayload (d : ResourceData) : Values :=
  let p : Values := []
  let p := addIfNotEmpty p "FriendlyName" (d.Get "friendly_name")
  let p := addIfNotEmpty p "InboundRequestUrl" (d.Get "inbound_request_url")
  let p := addIfNotEmpty p "InboundMethod" (d.Get "inbound_method")
  let p := addIfNotEmpty p "FallbackUrl" (d.Get "fallback_url")
  let p := addIfNotEmpty p "FallbackMethod" (d.Get "fallback_method")
  let p := addIfNotEmpty p "StatusCallback" (d.Get "status_callback")
  let p := addIfNotEmpty p "StickySender" (d.Get "sticky_sender")
  let p := addIfNotEmpty p "MmsConverter" (d.Get "mms_converter")
  let p := addIfNotEmpty p "SmartEncoding" (d.Get "smart_encoding")
  let p := addIfNotEmpty p "FallbackToLongCode" (d.Get "fallback_to_long_code")
  let p := addIfNotEmpty p "AreaCodeGeomatch" (d.Get "area_code_geomatch")
  let p := addIfNotEmpty p "ValidityPeriod" (d.Get "validity_period")
  let p := addIfNotEmpty p "SynchronousValidation" (d.Get "synchronous_validation")
  p

/-- Function `flattenKeyForCreate`. -/
def flattenKeyForCreate (d : ResourceData) : Values :=
  let v : Values := []
  v.Add "FriendlyName" (d.Get "friendly_name").asString

/-- Function `flattenSubaccountForCreate`. -/
def flattenSubaccountForCreate (d : ResourceData) : Values :=
  let v : Values := []
  v.Add "FriendlyName" (d.Get "friendly_name").asString

/-! ## Attribute codec: decode -/

/-- Function `mapTwilioPhoneNumberToTerraform`. -/
def mapTwilioPhoneNumberToTerraform (ph : IncomingPhoneNumber) (d : ResourceData) : SetResult :=
  let r := d.Set "sid" (.str ph.Sid)
  let r := r.thenSet "number" (.str ph.PhoneNumber)
  let r := r.thenSet "friendly_name" (.str ph.FriendlyName)
  let r := r.thenSet "trunk_sid" (.str ph.TrunkSid)
  let r := r.thenSetIf ph.DateCreated.Valid "date_created" (.str ph.DateCreated.Time.Format)
  let r := r.alwaysSetIf ph.DateUpdated.Valid "date_updated" (.str ph.DateUpdated.Time.Format)
  let r := r.thenSet "address_requirements" (.str ph.AddressRequirements)
  let r := r.thenSet "is_beta" (.bool ph.Beta)
  let r := r.thenSet "is_mms_capable" (.bool ph.Capabilities.MMS)
  let r := r.thenSet "is_sms_capable" (.bool ph.Capabilities.SMS)
  let r := r.thenSet "is_voice_capable" (.bool ph.Capabilities.Voice)
  let voiceMap : Item :=
    [("application_sid", .str ph.VoiceApplicationSid),
     ("fallback_url", .str ph.VoiceFallbackURL),
     ("fallback_http_method", .str ph.VoiceFallbackMethod),
     ("primary_url", .str ph.VoiceURL),
     ("primary_http_method", .str ph.VoiceMethod),
     ("caller_id_enabled", .bool ph.VoiceCallerIDLookup)]
  let r := r.thenSet "voice" (.set [voiceMap])
  let smsMap : Item :=
    [("application_sid", .str ph.SMSApplicationSid),
     ("fallback_url", .str ph.SMSFallbackURL),
     ("fallback_http_method", .str ph.SMSFallbackMethod),
     ("primary_url", .str ph.SMSURL),
     ("primary_http_method", .str ph.SMSMethod)]
  let r := r.thenSet "sms" (.set [smsMap])
  let statusCallbackMap : Item :=
    [("url", .str ph.SMSFallbackURL),
     ("http_method", .str ph.SMSFallbackMethod)]
  let r := r.thenSet "status_callback" (.set [statusCallbackMap])
  let emergencyMap : Item :=
    (if ph.EmergencyAddressSid.Valid then [("address_sid", .str ph.EmergencyAddressSid.String)]
     else []) ++ [("status", .str ph.EmergencyStatus)]
  let r := r.thenSet "emergency" (.set [emergencyMap])
  r

/-- Function `mapTwilioMessagingServiceToTerraform`. -/
def mapTwilioMessagingServiceToTerraform (ms : Service) (d : ResourceData) : SetResult :=
  let r := d.Set "sid" (.str ms.Sid)
  let r := r.thenSet "account_sid" (.str ms.AccountSid)
  let r := r.thenSetIf (ms.FriendlyName != "") "friendly_name" (.str ms.FriendlyName)
  let r := r.thenSetIf ms.DateCreated.Valid "date_created" (.str ms.DateCreated.Time.Format)
  let r := r.alwaysSetIf ms.DateUpdated.Valid "date_updated" (.str ms.DateUpdated.Time.Format)
  let r := r.thenSetIf ms.InboundRequestURL.isSome "inbound_request_url"
    (.str (ms.InboundRequestURL.getD ""))
  let r := r.thenSet "inbound_method" (.str ms.InboundMethod)
  let r := r.thenSet "fallback_url" (.str ms.FallbackURL)
  let r := r.thenSet "fallback_method" (.str ms.FallbackMethod)
  let r := r.thenSet "status_callback" (.str ms.StatusCallback)
  let r := r.thenSet "mms_converter" (.bool ms.MMSConverter)
  let r := r.thenSet "smart_encoding" (.bool ms.SmartEncoding)
  let r := r.thenSet "sticky_sender" (.bool ms.StickySender)
  let r := r.thenSet "fallback_to_long_code" (.bool ms.FallbackToLongCode)
  let r := r.thenSet "area_code_geomatch" (.bool ms.AreaCodeGeomatch)
  let r := r.thenSet "validity_period" (.int ms.ValidityPeriod)
  let r := r.thenSet "synchronous_validation" (.bool ms.SynchronousValidation)
  r

/-- Function `mapTwilioSubaccountToTerraform`. -/
def mapTwilioSubaccountToTerraform (account : Account) (d : ResourceData) : SetResult :=
  let r := d.Set "status" (.str account.Status)
  let r := r.thenSet "auth_token" (.str account.AuthToken)
  let r := r.thenSet "friendly_name" (.str account.FriendlyName)
  let r := r.thenSetIf account.DateCreated.Valid "date_created"
    (.str account.DateCreated.Time.Format)
  let r := r.thenSetIf account.DateUpdated.Valid "date_updated"
    (.str account.DateUpdated.Time.Format)
  let r := r.thenSet "parent_account_sid" (.str account.OwnerAccountSid)
  r

/-! ## Lookup resolver (data sources) -/

/-- The criterion read by
`if f, ok := d.GetOkExists(key); ok && len(f.(string)) > 0 { v = f.(string) }`
on a variable initialised to the empty string. -/
def criterion (d : ResourceData) (key : String) : String :=
  let (f, ok) := d.GetOkExists key
  if ok = true ∧ f.asString.length > 0 then f.asString else ""

/-- The filter map `query` built by `dataTwilioPhoneNumberRead`. -/
def phoneNumberQuery (friendlyName number : String) : Values :=
  let query : Values := []
  let query := if friendlyName ≠ "" then query ++ [("FriendlyName", [friendlyName])] else query
  let query := if number ≠ "" then query ++ [("PhoneNumber", [number])] else query
  query

/-- The `for _, incNumber := range page.IncomingPhoneNumbers` loop of
`dataTwilioPhoneNumberRead`: `some` of what the body returns at the first
candidate passing the test, `none` when the loop runs to its end. -/
def phoneNumberLoop (friendlyName number : String) (d : ResourceData) :
    List IncomingPhoneNumber → Option SetResult
  | [] => none
  | incNumber :: rest =>
    if (friendlyName = "" ∨ incNumber.FriendlyName = friendlyName) ∧
        (number = "" ∨ incNumber.PhoneNumber = number) then
      let d := d.SetId incNumber.Sid
      some (mapTwilioPhoneNumberToTerraform incNumber d)
    else phoneNumberLoop friendlyName number d rest

/-- Function `dataTwilioPhoneNumberRead`. -/
def dataTwilioPhoneNumberRead (d : ResourceData) (client : Client) : Outcome :=
  let friendlyName := criterion d "friendly_name"
  let number := criterion d "number"
  let query := phoneNumberQuery friendlyName number
  if number = "" ∧ friendlyName = "" then
    { d := d, err := some "'number' and/or 'friendly_name' must be specified", calls := [] }
  else
    match client.IncomingNumbersGetPage query with
    | .error err =>
      { d := d,
        err := some ("unable to find IncomingPhoneNumber with friendlyName: " ++ friendlyName ++
          "\nerror: " ++ err),
        calls := [.IncomingNumbersGetPage query] }
    | .ok page =>
      match phoneNumberLoop friendlyName number d page with
      | some r => { d := r.d, err := r.err, calls := [.IncomingNumbersGetPage query] }
      | none =>
        let err :=
          if friendlyName = "" then
            "unable to find IncomingPhoneNumber with number: " ++ number
          else if number = "" then
            "unable to find IncomingPhoneNumber with friendlyName: " ++ friendlyName
          else
            "unable to find IncomingPhoneNumber with number: " ++ number ++
              " and friendlyName: " ++ friendlyName
        { d := d, err := some err, calls := [.IncomingNumbersGetPage query] }

/-- The filter map `query` built by `dataTwilioMessagingServiceRead`. -/
def messagingServiceQuery (friendlyName : String) : Values :=
  let query : Values := []
  if friendlyName ≠ "" then query ++ [("FriendlyName", [friendlyName])] else query

/-- Function `dataTwilioMessagingServiceRead`. -/
def dataTwilioMessagingServiceRead (d : ResourceData) (client : Client) : Outcome :=
  let friendlyName := criterion d "friendly_name"
  let query := messagingServiceQuery friendlyName
  if friendlyName = "" then
    { d := d, err := some "'friendly_name' must be specified", calls := [] }
  else
    match client.MessageServicesGetPage query with
    | .error err =>
      { d := d,
        err := some ("unable to find MessagingService with friendlyName: " ++ friendlyName ++
          "\nerror: " ++ err),
        calls := [.MessageServicesGetPage query] }
    | .ok page =>
      match page with
      | service :: _ =>
        let d := d.SetId service.Sid
        let r := mapTwilioMessagingServiceToTerraform service d
        { d := r.d, err := r.err, calls := [.MessageServicesGetPage query] }
      | [] =>
        { d := d,
          err := some ("unable to find MessagingService with friendlyName: " ++ friendlyName),
          calls := [.MessageServicesGetPage query] }

/-- The `for _, account := range page.Accounts` loop of
`dataTwilioSubaccountRead`: `some` of the record and the error returned at the
first account whose friendly name is the queried one, `none` when the loop
runs to its end. -/
def subaccountLoop (friendlyName : String) (d : ResourceData) :
    List Account → Option SetResult
  | [] => none
  | account :: rest =>
    if account.FriendlyName = friendlyName then
      let d := d.SetId account.Sid
      let r := mapTwilioSubaccountToTerraform account d
      match r.err with
      | none => some { d := r.d, err := none }
      | some err =>
        some { d := r.d,
               err := some ("unable to map subaccount attributes for number with sid: " ++
                 r.d.Id ++ "\nerror: " ++ err) }
    else subaccountLoop friendlyName d rest

/-- Function `dataTwilioSubaccountRead`. -/
def dataTwilioSubaccountRead (d : ResourceData) (client : Client) : Outcome :=
  let friendlyName := (d.Get "friendly_name").asString
  let query : Values := [("FriendlyName", [friendlyName])]
  match client.AccountsGetPage query with
  | .error err =>
    { d := d,
      err := some ("unable to find subaccount with friendlyName: " ++ friendlyName ++
        "\nerror: " ++ err),
      calls := [.AccountsGetPage query] }
  | .ok page =>
    match subaccountLoop friendlyName d page with
    | some r => { d := r.d, err := r.err, calls := [.AccountsGetPage query] }
    | none =>
      { d := d,
        err := some ("unable to find subaccount with friendlyName: " ++ friendlyName),
        calls := [.AccountsGetPage query] }

/-! ## Resource lifecycle controller: phone number -/

/-- The filter `searchParams` built by `resourceTwilioPhoneNumberCreate`. -/
def availabilitySearchParams (d : ResourceData) : Values :=
  let searchParams : Values := []
  let areaCode := (d.Get "area_code").asString
  let searchParams :=
    if areaCode.length > 0 then searchParams.Set "AreaCode" areaCode else searchParams
  let search := (d.Get "search").asString
  let searchParams :=
    if search.length > 0 then searchParams.Set "Contains" search else searchParams
  searchParams

/-- Function `resourceTwilioPhoneNumberCreate`. -/
def resourceTwilioPhoneNumberCreate (d : ResourceData) (client : Client) : Outcome :=
  let countryCode := (d.Get "country_code").asString
  let serviceSid := castToString (d.Get "service_sid")
  let searchParams := availabilitySearchParams d
  let searchCall := Call.AvailableNumbersLocalGetPage countryCode searchParams
  match client.AvailableNumbersLocalGetPage countryCode searchParams with
  | .error err => { d := d, err := some err, calls := [searchCall] }
  | .ok searchResult =>
    match searchResult with
    | [] =>
      { d := d, err := some "No numbers found that match your search", calls := [searchCall] }
    | number :: _ =>
      let e164Number := number.PhoneNumber
      let buyParams := (makeCreateRequestPayload d).Set "PhoneNumber" e164Number
      let buyCall := Call.IncomingNumbersCreate buyParams
      match client.IncomingNumbersCreate buyParams with
      | .error err => { d := d, err := some err, calls := [searchCall, buyCall] }
      | .ok buyResult =>
        let d := d.SetId buyResult.Sid
        let d := (d.Set "number" (.str e164Number)).d
        let r := mapTwilioPhoneNumberToTerraform buyResult d
        match r.err with
        | some err =>
          { d := r.d,
            err := some ("Encountered error while reading buy result for phone number SID " ++
              buyResult.Sid ++ " and mapping it to TF: " ++ err),
            calls := [searchCall, buyCall] }
        | none =>
          if serviceSid.length > 0 then
            let attachCall := Call.MessageServicesCreatePhoneNumber serviceSid buyResult.Sid
            match client.MessageServicesCreatePhoneNumber serviceSid buyResult.Sid with
            | some err =>
              { d := r.d,
                err := some ("Encountered error adding phone number with SID " ++
                  buyResult.Sid ++ " to messaging service with SID " ++ serviceSid ++ ": " ++
                  err),
                calls := [searchCall, buyCall, attachCall] }
            | none =>
              -- `err = d.Set("service_sid", serviceSid)` assigns the `err` declared inside
              -- the block; the function returns the outer one, which is nil here
              let d := (r.d.Set "service_sid" (.str serviceSid)).d
              { d := d, err := r.err, calls := [searchCall, buyCall, attachCall] }
          else
            { d := r.d, err := r.err, calls := [searchCall, buyCall] }

/-- The `if len(serviceIdBefore) > 0` block of `resourceTwilioPhoneNumberUpdate`
and the `if len(serviceId) > 0` block of `resourceTwilioPhoneNumberDelete`:
the error of the detach call, if the block returns, and the call issued. -/
def detachBlock (client : Client) (serviceId sid : String) : Option String × List Call :=
  if serviceId.length > 0 then
    match client.MessageServicesDeletePhoneNumber serviceId sid with
    | some err =>
      (some ("Encountered error removing phone number with SID " ++ sid ++
        " from messaging service with SID " ++ serviceId ++ ": " ++ err),
       [.MessageServicesDeletePhoneNumber serviceId sid])
    | none => (none, [.MessageServicesDeletePhoneNumber serviceId sid])
  else (none, [])

/-- The `if len(serviceIdAfter) > 0` block of `resourceTwilioPhoneNumberUpdate`:
the error it returns, if it returns, and the call issued. -/
def attachBlock (client : Client) (serviceIdAfter sid : String) : Option String × List Call :=
  if serviceIdAfter.length > 0 then
    match client.MessageServicesCreatePhoneNumber serviceIdAfter sid with
    | some err =>
      if ¬ stringsContains err "already in the Messaging Service" then
        (some ("Encountered error adding phone number with SID " ++ sid ++
          " to messaging service with SID " ++ serviceIdAfter ++ ": " ++ err),
         [.MessageServicesCreatePhoneNumber serviceIdAfter sid])
      else (none, [.MessageServicesCreatePhoneNumber serviceIdAfter sid])
    | none => (none, [.MessageServicesCreatePhoneNumber serviceIdAfter sid])
  else (none, [])

/-- Function `resourceTwilioPhoneNumberUpdate`. -/
def resourceTwilioPhoneNumberUpdate (d : ResourceData) (client : Client) : Outcome :=
  let sid := d.Id
  let updatePayload := makeCreateRequestPayload d
  let updateCall := Call.IncomingNumbersUpdate sid updatePayload
  match client.IncomingNumbersUpdate sid updatePayload with
  | .error err =>
    { d := d, err := some ("Failed to update phone number SID " ++ sid ++ ": " ++ err),
      calls := [updateCall] }
  | .ok _ =>
    if d.HasChange "service_sid" then
      let (before, after) := d.GetChange "service_sid"
      let serviceIdAfter := castToString after
      let serviceIdBefore := castToString before
      let detach := detachBlock client serviceIdBefore sid
      match detach.1 with
      | some err => { d := d, err := some err, calls := updateCall :: detach.2 }
      | none =>
        let attach := attachBlock client serviceIdAfter sid
        match attach.1 with
        | some err => { d := d, err := some err, calls := updateCall :: (detach.2 ++ attach.2) }
        | none => { d := d, err := none, calls := updateCall :: (detach.2 ++ attach.2) }
    else { d := d, err := none, calls := [updateCall] }

/-- Function `resourceTwilioPhoneNumberDelete`. -/
def resourceTwilioPhoneNumberDelete (d : ResourceData) (client : Client) : Outcome :=
  let sid := d.Id
  let serviceId := castToString (d.Get "service_id")
  let detach := detachBlock client serviceId sid
  match detach.1 with
  | some err => { d := d, err := some err, calls := detach.2 }
  | none =>
    match client.IncomingNumbersRelease sid with
    | some err =>
      { d := d, err := some ("Failed to delete/release number: " ++ err),
        calls := detach.2 ++ [.IncomingNumbersRelease sid] }
    | none => { d := d, err := none, calls := detach.2 ++ [.IncomingNumbersRelease sid] }

/-- Function `resourceTwilioPhoneNumberRead`. -/
def resourceTwilioPhoneNumberRead (d : ResourceData) (client : Client) : Outcome :=
  let sid := d.Id
  match client.IncomingNumbersGet sid with
  | .error err =>
    { d := d,
      err := some ("Encountered an error when getting phone number SID " ++ sid ++ ": " ++ err),
      calls := [.IncomingNumbersGet sid] }
  | .ok ph =>
    let r := mapTwilioPhoneNumberToTerraform ph d
    match r.err with
    | some err =>
      { d := r.d,
        err := some ("Encountered an error while mapping Twilio API result to terraform: " ++
          err),
        calls := [.IncomingNumbersGet sid] }
    | none => { d := r.d, err := none, calls := [.IncomingNumbersGet sid] }

/-! ## Resource lifecycle controller: messaging service -/

/-- Function `resourceTwilioMessagingServiceCreate`. -/
def resourceTwilioMessagingServiceCreate (d : ResourceData) (client : Client) : Outcome :=
  let params := makeCreateServiceRequestPayload d
  match client.MessageServicesCreate params with
  | .error err => { d := d, err := some err, calls := [.MessageServicesCreate params] }
  | .ok result =>
    let d := d.SetId result.Sid
    let r := mapTwilioMessagingServiceToTerraform result d
    match r.err with
    | some err =>
      { d := r.d,
        err := some ("Encountered error while reading result for create of messaging " ++
          "service SID " ++ result.Sid ++ " and mapping it to TF: " ++ err),
        calls := [.MessageServicesCreate params] }
    | none => { d := r.d, err := none, calls := [.MessageServicesCreate params] }

/-- Function `resourceTwilioMessagingServiceRead`. -/
def resourceTwilioMessagingServiceRead (d : ResourceData) (client : Client) : Outcome :=
  let sid := d.Id
  match client.MessageServicesGet sid with
  | .error err =>
    { d := d,
      err := some ("Encountered an error when getting messaging service SID " ++ sid ++ ": " ++
        err),
      calls := [.MessageServicesGet sid] }
  | .ok ph =>
    let r := mapTwilioMessagingServiceToTerraform ph d
    match r.err with
    | some err =>
      { d := r.d,
        err := some ("Encountered an error while mapping Twilio API result to terraform: " ++
          err),
        calls := [.MessageServicesGet sid] }
    | none => { d := r.d, err := none, calls := [.MessageServicesGet sid] }

/-- Function `resourceTwilioMessagingServiceUpdate`. -/
def resourceTwilioMessagingServiceUpdate (d : ResourceData) (client : Client) : Outcome :=
  let sid := d.Id
  let updatePayload := makeCreateServiceRequestPayload d
  match client.MessageServicesUpdate sid updatePayload with
  | .error err =>
    { d := d, err := some ("Failed to update messaging service SID " ++ sid ++ ": " ++ err),
      calls := [.MessageServicesUpdate sid updatePayload] }
  | .ok _ => { d := d, err := none, calls := [.MessageServicesUpdate sid updatePayload] }

/-- Function `resourceTwilioMessagingServiceDelete`. -/
def resourceTwilioMessagingServiceDelete (d : ResourceData) (client : Client) : Outcome :=
  let sid := d.Id
  match client.MessageServicesDelete sid with
  | some err =>
    { d := d, err := some ("Failed to delete messaging service: " ++ err),
      calls := [.MessageServicesDelete sid] }
  | none => { d := d, err := none, calls := [.MessageServicesDelete sid] }

/-! ## Resource lifecycle controller: subaccount -/

/-- Function `resourceTwilioSubaccountCreate`. -/
def resourceTwilioSubaccountCreate (d : ResourceData) (client : Client) : Outcome :=
  let createParams := flattenSubaccountForCreate d
  match client.AccountsCreate createParams with
  | .error err => { d := d, err := some err, calls := [.AccountsCreate createParams] }
  | .ok createResult =>
    let d := d.SetId createResult.Sid
    let r := mapTwilioSubaccountToTerraform createResult d
    { d := r.d, err := r.err, calls := [.AccountsCreate createParams] }

/-- Function `resourceTwilioSubaccountRead`. -/
def resourceTwilioSubaccountRead (d : ResourceData) (client : Client) : Outcome :=
  let sid := d.Id
  match client.AccountsGet sid with
  | .error err =>
    { d := d, err := some ("Failed to refresh account: " ++ err), calls := [.AccountsGet sid] }
  | .ok account =>
    let r := mapTwilioSubaccountToTerraform account d
    match r.err with
    | some err =>
      { d := r.d, err := some ("Failed to refresh account: " ++ err),
        calls := [.AccountsGet sid] }
    | none => { d := r.d, err := none, calls := [.AccountsGet sid] }

/-- Function `resourceTwilioSubaccountUpdate`. -/
def resourceTwilioSubaccountUpdate (d : ResourceData) (_client : Client) : Outcome :=
  { d := d, err := some "Not implemented", calls := [] }

/-- Function `flattenSubaccountForDelete`. -/
def flattenSubaccountForDelete (_d : ResourceData) : Values :=
  let v : Values := []
  v.Add "status" "closed"

/-- Function `resourceTwilioSubaccountDelete`. -/
def resourceTwilioSubaccountDelete (d : ResourceData) (client : Client) : Outcome :=
  let sid := d.Id
  let updateData := flattenSubaccountForDelete d
  match client.AccountsUpdate sid updateData with
  | .error err =>
    { d := d, err := some ("Failed to delete account: " ++ err),
      calls := [.AccountsUpdate sid updateData] }
  | .ok _ => { d := d, err := none, calls := [.AccountsUpdate sid updateData] }

/-! ## Resource lifecycle controller: API key -/

/-- The value `d.Set` receives for a `TwilioTime`: a struct, not a string. -/
def twilioTimeValue : Value := .struct "twilio.TwilioTime"

/-- Function `resourceTwilioApiKeyCreate`. The errors of its `d.Set` calls are
not looked at. -/
def resourceTwilioApiKeyCreate (d : ResourceData) (client : Client) : Outcome :=
  let createParams := flattenKeyForCreate d
  match client.KeysCreate createParams with
  | .error err => { d := d, err := some err, calls := [.KeysCreate createParams] }
  | .ok createResult =>
    let d := d.SetId createResult.Sid
    let d := (d.Set "sid" (.str createResult.Sid)).d
    let d := (d.Set "secret" (.str createResult.Secret)).d
    let d := (d.Set "friendly_name" (.str createResult.FriendlyName)).d
    let d := (d.Set "date_created" twilioTimeValue).d
    let d := (d.Set "date_updated" twilioTimeValue).d
    { d := d, err := none, calls := [.KeysCreate createParams] }

/-- Function `resourceTwilioApiKeyRead`. The fields are assigned from `key`
before `err` is looked at. -/
def resourceTwilioApiKeyRead (d : ResourceData) (client : Client) : Outcome :=
  let sid := d.Id
  let (key, err) := client.KeysGet sid
  let d := (d.Set "sid" (.str key.Sid)).d
  let d := (d.Set "friendly_name" (.str key.FriendlyName)).d
  let d := (d.Set "date_created" twilioTimeValue).d
  let d := (d.Set "date_updated" twilioTimeValue).d
  match err with
  | some err =>
    { d := d, err := some ("Failed to refresh key: " ++ err), calls := [.KeysGet sid] }
  | none => { d := d, err := none, calls := [.KeysGet sid] }

/-- Function `resourceTwilioApiKeyUpdate`. -/
def resourceTwilioApiKeyUpdate (d : ResourceData) (_client : Client) : Outcome :=
  { d := d, err := some "Not implemented", calls := [] }

/-- Function `resourceTwilioApiKeyDelete`. -/
def resourceTwilioApiKeyDelete (d : ResourceData) (client : Client) : Outcome :=
  let sid := d.Id
  match client.KeysDelete sid with
  | some err =>
    { d := d, err := some ("Failed to delete key: " ++ err), calls := [.KeysDelete sid] }
  | none => { d := d, err := none, calls := [.KeysDelete sid] }

/-! ## Predicates used in the statements -/

/-- Whether the text `pat` occurs in the message `msg`. -/
def mentions (msg pat : String) : Prop := pat.toList <:+: msg.toList

instance (msg pat : String) : Decidable (mentions msg pat) := by
  unfold mentions; infer_instance

/-- The field `key` is absent from the record or holds the empty string. -/
def absentOrEmpty (d : ResourceData) (key : String) : Prop :=
  (d.GetOkExists key).2 = false ∨ (d.GetOkExists key).1.asString = ""

instance (d : ResourceData) (key : String) : Decidable (absentOrEmpty d key) := by
  unfold absentOrEmpty; infer_instance

/-! ## Fixtures -/

/-- Three purchased numbers, in server order. -/
def threeNumbers : List IncomingPhoneNumber :=
  [{ Sid := "PN1", PhoneNumber := "+15550000001" },
   { Sid := "PN2", PhoneNumber := "+15550000002" },
   { Sid := "PN3", PhoneNumber := "+15550000003" }]

/-- A client whose listing calls answer with fixed pages. -/
def pageClient (numbers : List IncomingPhoneNumber) (services : List Service)
    (accounts : List Account) : Client :=
  { IncomingNumbersGetPage := fun _ => .ok numbers,
    MessageServicesGetPage := fun _ => .ok services,
    AccountsGetPage := fun _ => .ok accounts }

/-- A client whose every listing call fails with `msg`. -/
def failingClient (msg : String) : Client :=
  { IncomingNumbersGetPage := fun _ => .error msg,
    MessageServicesGetPage := fun _ => .error msg,
    AccountsGetPage := fun _ => .error msg }

/-- A phone-number lookup record with only `number` set. -/
def numberOnlyRecord : ResourceData :=
  { schema := phoneNumberSchema, state := [("number", .str "+15550000002")] }

/-- Two purchased numbers, neither of them the one `numberOnlyRecord` asks
for. -/
def twoOtherNumbers : List IncomingPhoneNumber :=
  [{ Sid := "PN1", PhoneNumber := "+15550000001" },
   { Sid := "PN3", PhoneNumber := "+15550000003" }]

/-- A phone-number record with no field set. -/
def emptyPhoneNumberRecord : ResourceData := { schema := phoneNumberSchema }

/-- A messaging-service record whose `friendly_name` is the empty string. -/
def emptyNameServiceRecord : ResourceData :=
  { schema := messagingServiceSchema, state := [("friendly_name", .str "")] }

/-- A subaccount record with no field set: `friendly_name` reads as the empty
string. -/
def emptySubaccountRecord : ResourceData := { schema := subaccountSchema }

/-- A subaccount lookup record whose `friendly_name` is the empty string. -/
def emptyNameSubaccountRecord : ResourceData :=
  { schema := subaccountSchema, state := [("friendly_name", .str "")] }

/-- A messaging-service lookup record asking for the name `wanted`. -/
def wantedServiceRecord : ResourceData :=
  { schema := messagingServiceSchema, state := [("friendly_name", .str "wanted")] }

/-- A messaging service named `other`, with a valid update timestamp. -/
def otherService : Service :=
  { Sid := "MG1", AccountSid := "AC1", FriendlyName := "other",
    DateUpdated :=
      { Valid := true,
        Time := { year := 2020, month := 3, day := 4, hour := 5, minute := 6, second := 7 } } }

/-- A phone-number lookup record with both `number` and `friendly_name` set. -/
def numberAndNameRecord : ResourceData :=
  { schema := phoneNumberSchema,
    state := [("number", .str "+15550000002"), ("friendly_name", .str "office")] }

/-- Every key of the map carries at least one value and none of its values is
the empty string. -/
def Values.sparse (p : Values) : Prop := ∀ kv ∈ p, kv.2 ≠ [] ∧ ∀ v ∈ kv.2, v ≠ ""

instance (p : Values) : Decidable (Values.sparse p) := by
  unfold Values.sparse; infer_instance

/-- A messaging-service record declaring `sticky_sender = false` and
`validity_period = 0`. -/
def falseZeroServiceRecord : ResourceData :=
  { schema := messagingServiceSchema,
    state := [("friendly_name", .str "svc"), ("sticky_sender", .bool false),
              ("validity_period", .int 0)] }

/-- A phone-number record whose `voice` composite declares
`caller_id_enabled = false`. -/
def callerIdOffRecord : ResourceData :=
  { schema := phoneNumberSchema,
    state := [("voice", .set [[("caller_id_enabled", .bool false)]])] }

/-- An API-key record with no field set: `friendly_name` reads as the empty
string. -/
def emptyApiKeyRecord : ResourceData := { schema := apiKeySchema }

/-- The assignments a decoder attempted on its way from the record `d` to the
result `r`: what it appended to the trace. -/
def attemptsSince (d : ResourceData) (r : SetResult) : List SetAttempt :=
  r.d.trace.drop d.trace.length

/-- A phone number as the API returns it when nothing is configured on it:
every sub-field of every composite is empty. -/
def bareNumber : IncomingPhoneNumber := { Sid := "PN1", PhoneNumber := "+15550000001" }

/-- A messaging-service record with no field set. -/
def emptyServiceRecord : ResourceData := { schema := messagingServiceSchema }

/-- A record of the phone-number resource declaring a country, an area code
and a friendly name, with no id yet. -/
def newNumberRecord : ResourceData :=
  { schema := phoneNumberSchema,
    state := [("country_code", .str "US"), ("area_code", .str "415"),
              ("friendly_name", .str "office")] }

/-- A client of the phone-number verbs: the availability search answers
`available`, the purchase answers `bought`, attach and detach answer the given
errors, update and release succeed. -/
def numberClient (available : List AvailableNumber) (bought : IncomingPhoneNumber)
    (attach detach : Option String) : Client :=
  { IncomingNumbersGetPage := fun _ => .ok [],
    MessageServicesGetPage := fun _ => .ok [],
    AccountsGetPage := fun _ => .ok [],
    AvailableNumbersLocalGetPage := fun _ _ => .ok available,
    IncomingNumbersCreate := fun _ => .ok bought,
    IncomingNumbersUpdate := fun _ _ => .ok bought,
    IncomingNumbersRelease := fun _ => none,
    MessageServicesCreatePhoneNumber := fun _ _ => attach,
    MessageServicesDeletePhoneNumber := fun _ _ => detach }

/-- Two numbers on offer, in server order. -/
def twoAvailable : List AvailableNumber :=
  [{ PhoneNumber := "+14155550001" }, { PhoneNumber := "+14155550002" }]

/-- The purchased number, as the purchase call returns it. -/
def boughtNumber : IncomingPhoneNumber :=
  { Sid := "PN9", PhoneNumber := "+14155550001", FriendlyName := "office" }

/-- A purchased number whose `service_sid` is being changed from `SVC1` to
`SVC2`. -/
def changedServiceRecord : ResourceData :=
  { schema := phoneNumberSchema, id := "PN9",
    state := [("service_sid", .str "SVC2"), ("country_code", .str "US")],
    prior := [("service_sid", .str "SVC1"), ("country_code", .str "US")] }

/-- A purchased number that starts to reference the messaging service `MG1`. -/
def newlyAttachedRecord : ResourceData :=
  { schema := phoneNumberSchema, id := "PN9",
    state := [("service_sid", .str "MG1"), ("country_code", .str "US")],
    prior := [("country_code", .str "US")] }

/-- A purchased number whose `service_sid` is currently `MG1`. -/
def attachedNumberRecord : ResourceData :=
  { schema := phoneNumberSchema, id := "PN9",
    state := [("service_sid", .str "MG1"), ("country_code", .str "US"),
              ("number", .str "+14155550001")],
    prior := [("service_sid", .str "MG1"), ("country_code", .str "US"),
              ("number", .str "+14155550001")] }

/-- A new record that declares the messaging service `MG1`. -/
def newNumberWithServiceRecord : ResourceData :=
  { schema := phoneNumberSchema,
    state := [("country_code", .str "US"), ("service_sid", .str "MG1")] }

/-- A subaccount record with an id. -/
def openSubaccountRecord : ResourceData :=
  { schema := subaccountSchema, id := "AC7",
    state := [("friendly_name", .str "team"), ("status", .str "active")] }

/-- The error the provider API answers when the number is already attached. -/
def alreadyAttachedError : String :=
  "Phone Number or Short Code is already in the Messaging Service."

/-- A remote phone number created on 4 March 2020 at 05:06:07, seven hours
west of UTC, whose update timestamp is absent. -/
def stampedNumber : IncomingPhoneNumber :=
  { Sid := "PN9", PhoneNumber := "+14155550001",
    DateCreated :=
      { Valid := true,
        Time := { year := 2020, month := 3, day := 4, hour := 5, minute := 6, second := 7,
                  offset := -25200 } } }

/-- A phone-number record that already holds an update timestamp. -/
def datedNumberRecord : ResourceData :=
  { schema := phoneNumberSchema, id := "PN9",
    state := [("date_updated", .str "2019-01-01T00:00:00+00:00")] }

/-- A remote account updated on 31 December 2021 at 23:59:59 UTC, whose
creation timestamp is absent. -/
def stampedAccount : Account :=
  { Sid := "AC7", FriendlyName := "team", Status := "active",
    DateUpdated :=
      { Valid := true,
        Time := { year := 2021, month := 12, day := 31, hour := 23, minute := 59,
                  second := 59 } } }

/-- A subaccount record that already holds a creation timestamp. -/
def datedSubaccountRecord : ResourceData :=
  { schema := subaccountSchema, id := "AC7",
    state := [("date_created", .str "2018-05-06T07:08:09+00:00")] }

/-- The keys a decoder tried to assign on its way from `d` to `r`, in order. -/
def assignedKeys (d : ResourceData) (r : SetResult) : List String :=
  (attemptsSince d r).map (fun a => a.key)

/-- The keys a schema declares. -/
def declaredKeys (S : List (String × ValueType)) : List String :=
  S.map (fun kv => kv.1)

/-- The field `k` is declared by the phone-number schema and is not one of the
six declared fields the remote phone number does not carry. -/
def decodedPhoneField (k : String) : Prop :=
  k ∈ declaredKeys phoneNumberSchema ∧
  k ∉ ["search", "area_code", "country_code", "service_sid", "address_sid", "identity_sid"]

instance (k : String) : Decidable (decodedPhoneField k) := by
  unfold decodedPhoneField; infer_instance

/-- A remote phone number with both timestamps valid. -/
def fullNumber : IncomingPhoneNumber :=
  { stampedNumber with DateUpdated := stampedAccount.DateUpdated }

/-- A remote messaging service carrying every optional part: a name, both
timestamps and an inbound request URL. -/
def fullService : Service :=
  { otherService with
    DateCreated := stampedNumber.DateCreated, InboundRequestURL := some "https://example.org/in" }

/-- A remote account with both timestamps valid. -/
def fullAccount : Account :=
  { stampedAccount with DateCreated := stampedNumber.DateCreated }

/-- A remote messaging service named `X` whose timestamps are not valid. -/
def undatedService : Service := { Sid := "MG1", AccountSid := "AC1", FriendlyName := "X" }

/-- An API-key record with an id and a name. -/
def storedApiKeyRecord : ResourceData :=
  { schema := apiKeySchema, id := "SK1",
    state := [("sid", .str "SK1"), ("friendly_name", .str "ci")] }

/-- A client of the API-key verbs whose `Keys.Get` answers the pair
`(key, err)` and whose `Keys.Create` answers `key`. -/
def keyClient (key : Key) (err : Option String) : Client :=
  { IncomingNumbersGetPage := fun _ => .ok [],
    MessageServicesGetPage := fun _ => .ok [],
    AccountsGetPage := fun _ => .ok [],
    KeysCreate := fun _ => .ok key,
    KeysGet := fun _ => (key, err) }

/-- A client that remembers what it created: each create call answers the
given object and each fetch answers the same object. -/
def roundTripClient (number : IncomingPhoneNumber) (service : Service) (account : Account)
    (key : Key) : Client :=
  { IncomingNumbersGetPage := fun _ => .ok [],
    MessageServicesGetPage := fun _ => .ok [],
    AccountsGetPage := fun _ => .ok [],
    AvailableNumbersLocalGetPage := fun _ _ => .ok [{ PhoneNumber := number.PhoneNumber }],
    IncomingNumbersCreate := fun _ => .ok number,
    IncomingNumbersGet := fun _ => .ok number,
    MessageServicesCreate := fun _ => .ok service,
    MessageServicesGet := fun _ => .ok service,
    AccountsCreate := fun _ => .ok account,
    AccountsGet := fun _ => .ok account,
    KeysCreate := fun _ => .ok key,
    KeysGet := fun _ => (key, none) }

/-- A remote messaging service named `X`, with a valid update timestamp. -/
def serviceX : Service := { otherService with FriendlyName := "X" }

/-- A remote account named `X`. -/
def accountX : Account := { stampedAccount with FriendlyName := "X" }

/-- A remote API key named `X`. -/
def keyX : Key := { Sid := "SK1", FriendlyName := "X", Secret := "s3cret" }

/-- A remote phone number named `X`. -/
def numberX : IncomingPhoneNumber := { stampedNumber with FriendlyName := "X" }

/-- A new messaging-service record declaring the name `X`. -/
def newServiceRecordX : ResourceData :=
  { schema := messagingServiceSchema, state := [("friendly_name", .str "X")] }

/-- A new subaccount record declaring the name `X`. -/
def newSubaccountRecordX : ResourceData :=
  { schema := subaccountSchema, state := [("friendly_name", .str "X")] }

/-- A new API-key record declaring the name `X`. -/
def newApiKeyRecordX : ResourceData :=
  { schema := apiKeySchema, state := [("friendly_name", .str "X")] }

/-- A new phone-number record declaring the name `X`. -/
def newNumberRecordX : ResourceData :=
  { schema := phoneNumberSchema,
    state := [("friendly_name", .str "X"), ("country_code", .str "US")] }

/-- A remote phone number whose SMS fallback and status callback differ. -/
def callbackNumber : IncomingPhoneNumber :=
  { Sid := "PN9", PhoneNumber := "+14155550001",
    SMSFallbackURL := "https://example.org/sms-fallback", SMSFallbackMethod := "GET",
    StatusCallback := "https://example.org/status", StatusCallbackMethod := "POST" }

/-- A purchased number whose `service_sid` is being removed. -/
def detachingRecord : ResourceData :=
  { schema := phoneNumberSchema, id := "PN9",
    state := [("service_sid", .str ""), ("country_code", .str "US")],
    prior := [("service_sid", .str "MG1"), ("country_code", .str "US")] }

/-! ## Remote calls and their answers -/

/-- The remote operation a call invokes. -/
def Call.operation : Call → String
  | .IncomingNumbersGetPage _ => "IncomingNumbers.GetPage"
  | .MessageServicesGetPage _ => "MessageServices.GetPage"
  | .AccountsGetPage _ => "Accounts.GetPage"
  | .AvailableNumbersLocalGetPage _ _ => "AvailableNumbers.Local.GetPage"
  | .IncomingNumbersCreate _ => "IncomingNumbers.Create"
  | .IncomingNumbersUpdate _ _ => "IncomingNumbers.Update"
  | .IncomingNumbersRelease _ => "IncomingNumbers.Release"
  | .MessageServicesCreatePhoneNumber _ _ => "MessageServices.CreatePhoneNumber"
  | .MessageServicesDeletePhoneNumber _ _ => "MessageServices.DeletePhoneNumber"
  | .AccountsUpdate _ _ => "Accounts.Update"
  | .IncomingNumbersGet _ => "IncomingNumbers.Get"
  | .MessageServicesCreate _ => "MessageServices.Create"
  | .MessageServicesGet _ => "MessageServices.Get"
  | .MessageServicesUpdate _ _ => "MessageServices.Update"
  | .MessageServicesDelete _ => "MessageServices.Delete"
  | .AccountsCreate _ => "Accounts.Create"
  | .AccountsGet _ => "Accounts.Get"
  | .KeysCreate _ => "Keys.Create"
  | .KeysGet _ => "Keys.Get"
  | .KeysDelete _ => "Keys.Delete"

/-- Whether an answer `(object, err)` of the client has `err != nil`. -/
def failedAnswer {α : Type} : Except String α → Bool
  | .error _ => true
  | .ok _ => false

/-- Whether the client answers the call with an error. -/
def Call.failed (client : Client) : Call → Bool
  | .IncomingNumbersGetPage query => failedAnswer (client.IncomingNumbersGetPage query)
  | .MessageServicesGetPage query => failedAnswer (client.MessageServicesGetPage query)
  | .AccountsGetPage query => failedAnswer (client.AccountsGetPage query)
  | .AvailableNumbersLocalGetPage countryCode params =>
    failedAnswer (client.AvailableNumbersLocalGetPage countryCode params)
  | .IncomingNumbersCreate params => failedAnswer (client.IncomingNumbersCreate params)
  | .IncomingNumbersUpdate sid params => failedAnswer (client.IncomingNumbersUpdate sid params)
  | .IncomingNumbersRelease sid => (client.IncomingNumbersRelease sid).isSome
  | .MessageServicesCreatePhoneNumber serviceSid phoneSid =>
    (client.MessageServicesCreatePhoneNumber serviceSid phoneSid).isSome
  | .MessageServicesDeletePhoneNumber serviceSid phoneSid =>
    (client.MessageServicesDeletePhoneNumber serviceSid phoneSid).isSome
  | .AccountsUpdate sid params => failedAnswer (client.AccountsUpdate sid params)
  | .IncomingNumbersGet sid => failedAnswer (client.IncomingNumbersGet sid)
  | .MessageServicesCreate params => failedAnswer (client.MessageServicesCreate params)
  | .MessageServicesGet sid => failedAnswer (client.MessageServicesGet sid)
  | .MessageServicesUpdate sid params => failedAnswer (client.MessageServicesUpdate sid params)
  | .MessageServicesDelete sid => (client.MessageServicesDelete sid).isSome
  | .AccountsCreate params => failedAnswer (client.AccountsCreate params)
  | .AccountsGet sid => failedAnswer (client.AccountsGet sid)
  | .KeysCreate params => failedAnswer (client.KeysCreate params)
  | .KeysGet sid => (client.KeysGet sid).2.isSome
  | .KeysDelete sid => (client.KeysDelete sid).isSome

/-- The call is an attach that the client answers with an error whose text
contains "already in the Messaging Service". -/
def Call.alreadyAssociated (client : Client) : Call → Bool
  | .MessageServicesCreatePhoneNumber serviceSid phoneSid =>
    match client.MessageServicesCreatePhoneNumber serviceSid phoneSid with
    | some err => stringsContains err "already in the Messaging Service"
    | none => false
  | _ => false

/-- Along the calls of one invocation that returned `err`: the first call the
client answers with an error is the last call issued, and the invocation
returned an error unless the call is `excused`. -/
def surfaced (client : Client) (excused : Call → Bool) (err : Option String) :
    List Call → Bool
  | [] => true
  | c :: rest =>
    if c.failed client then rest.isEmpty && (err.isSome || excused c)
    else surfaced client excused err rest

/-- No retry and no swallowed failure in an outcome: no remote operation is
invoked twice, and a failing remote call is the last one issued and makes the
outcome an error. -/
def Outcome.failFast (o : Outcome) (client : Client) : Prop :=
  (o.calls.map Call.operation).Nodup ∧ surfaced client (fun _ => false) o.err o.calls = true

instance (o : Outcome) (client : Client) : Decidable (o.failFast client) := by
  unfold Outcome.failFast; infer_instance

/-- As `Outcome.failFast`, but a failing attach answered with "already in the
Messaging Service" need not make the outcome an error. -/
def Outcome.failFastButAlreadyAssociated (o : Outcome) (client : Client) : Prop :=
  (o.calls.map Call.operation).Nodup ∧
    surfaced client (Call.alreadyAssociated client) o.err o.calls = true

instance (o : Outcome) (client : Client) :
    Decidable (o.failFastButAlreadyAssociated client) := by
  unfold Outcome.failFastButAlreadyAssociated; infer_instance

/-! ## Schema declarations and `makeComputed` -/

mutual
/-- The attributes of a terraform `schema.Schema` that `makeComputed` reads or
writes. `ValidateFunc` and `DefaultFunc` are functions, here `none` for `nil`
and `some name` for a function; `Default` is an `interface{}`, `Value.nil`
for `nil`. -/
inductive Schema where
  | mk (type : ValueType) (Optional Required Computed : Bool) (MaxItems MinItems : Int)
      (ValidateFunc DefaultFunc : Option String) (Default : Value) (Elem : Elem)
/-- The value of `Elem`: nothing, a `*schema.Schema` (the element is a simple
value) or a `*schema.Resource` (the element is a composite with a schema map of
its own). -/
inductive Elem where
  | none
  | schema (s : Schema)
  | resource (fields : List (String × Schema))
end

/-- Attribute `Type`. -/
def Schema.type : Schema → ValueType
  | .mk type _ _ _ _ _ _ _ _ _ => type

/-- Attribute `Optional`. -/
def Schema.Optional : Schema → Bool
  | .mk _ optional _ _ _ _ _ _ _ _ => optional

/-- Attribute `Required`. -/
def Schema.Required : Schema → Bool
  | .mk _ _ required _ _ _ _ _ _ _ => required

/-- Attribute `Computed`. -/
def Schema.Computed : Schema → Bool
  | .mk _ _ _ computed _ _ _ _ _ _ => computed

/-- Attribute `MaxItems`. -/
def Schema.MaxItems : Schema → Int
  | .mk _ _ _ _ maxItems _ _ _ _ _ => maxItems

/-- Attribute `MinItems`. -/
def Schema.MinItems : Schema → Int
  | .mk _ _ _ _ _ minItems _ _ _ _ => minItems

/-- Attribute `ValidateFunc`. -/
def Schema.ValidateFunc : Schema → Option String
  | .mk _ _ _ _ _ _ validateFunc _ _ _ => validateFunc

/-- Attribute `DefaultFunc`. -/
def Schema.DefaultFunc : Schema → Option String
  | .mk _ _ _ _ _ _ _ defaultFunc _ _ => defaultFunc

/-- Attribute `Default`. -/
def Schema.Default : Schema → Value
  | .mk _ _ _ _ _ _ _ _ default _ => default

/-- Attribute `Elem`. -/
def Schema.Elem : Schema → Elem
  | .mk _ _ _ _ _ _ _ _ _ elem => elem

/-- The schema map of a composite element: `resource.Schema` when `Elem` is a
`*schema.Resource`, no entry otherwise. -/
def Schema.elemFields (p : Schema) : List (String × Schema) :=
  match p.Elem with
  | .resource fields => fields
  | _ => []

mutual
/-- The body of the loop of `makeComputed`, on one entry `p`. -/
def makeComputedEntry : Schema → Schema
  | .mk type _ _ _ _ _ _ _ _ elem =>
    .mk type false false true 0 0 none none .nil (makeComputedElem elem)
/-- The statement `if resource, ok := p.Elem.(*schema.Resource); ok` of
`makeComputed`. -/
def makeComputedElem : Elem → Elem
  | .none => .none
  | .schema s => .schema s
  | .resource fields => .resource (makeComputed fields)
/-- Function `makeComputed`. -/
def makeComputed : List (String × Schema) → List (String × Schema)
  | [] => []
  | (key, p) :: rest => (key, makeComputedEntry p) :: makeComputed rest
end

/-- The entry found from a schema map by following `key`, then each key of
`path` in the schema map of the composite element reached. -/
def entryAt : List (String × Schema) → String → List String → Option Schema
  | s, key, [] => s.lookup key
  | s, key, next :: path =>
    match s.lookup key with
    | some p => entryAt p.elemFields next path
    | none => none

mutual
/-- An entry is read-only, and so is every entry of its composite element, at
every depth. -/
def Schema.readOnly : Schema → Bool
  | .mk _ optional required computed maxItems minItems validateFunc defaultFunc default elem =>
    computed && !optional && !required && maxItems == 0 && minItems == 0 &&
      validateFunc.isNone && defaultFunc.isNone && default == .nil && elem.readOnly
/-- Every entry of a composite element is read-only, at every depth. -/
def Elem.readOnly : Elem → Bool
  | .none => true
  | .schema _ => true
  | .resource fields => readOnlyMap fields
/-- Every entry of a schema map is read-only, at every depth. -/
def readOnlyMap : List (String × Schema) → Bool
  | [] => true
  | (_, p) :: rest => p.readOnly && readOnlyMap rest
end

mutual
/-- What `makeComputed` does not write in an entry: its type and its element,
with the attributes it writes erased. -/
def Schema.layout : Schema → Schema
  | .mk type _ _ _ _ _ _ _ _ elem => .mk type false false false 0 0 none none .nil elem.layout
/-- What `makeComputed` does not write in an element: a `*schema.Schema`
whole, the keys and the layout of the entries of a `*schema.Resource`. -/
def Elem.layout : Elem → Elem
  | .none => .none
  | .schema s => .schema s
  | .resource fields => .resource (layoutMap fields)
/-- The keys of a schema map and the layout of its entries. -/
def layoutMap : List (String × Schema) → List (String × Schema)
  | [] => []
  | (key, p) :: rest => (key, p.layout) :: layoutMap rest
end

/-- The `status_callback` entry of `resourceTwilioPhoneNumber().Schema`. -/
def statusCallbackEntry : Schema :=
  .mk .TypeSet true false true 1 0 none none .nil
    (.resource
      [("url", .mk .TypeString true false true 0 0 none none .nil .none),
       ("http_method",
        .mk .TypeString true false true 0 0 (some "validation.StringInSlice") none
          (.str "POST") .none)])

/-- Four entries of `resourceTwilioPhoneNumber().Schema`. -/
def phoneNumberDeclarations : List (String × Schema) :=
  [("sid", .mk .TypeString false false true 0 0 none none .nil .none),
   ("country_code", .mk .TypeString false true false 0 0 none none .nil .none),
   ("friendly_name", .mk .TypeString true false false 0 0 none none .nil .none),
   ("status_callback", statusCallbackEntry)]

/-- A lookup record with only `number` set, to the text `friendly_name`. -/
def friendlyNumberRecord : ResourceData :=
  { schema := phoneNumberSchema, state := [("number", .str "friendly_name")] }

/-- A remote API key with both timestamps valid. -/
def stampedKey : Key :=
  { Sid := "SK1", FriendlyName := "ci", Secret := "s3cret",
    DateCreated := stampedNumber.DateCreated, DateUpdated := stampedAccount.DateUpdated }

/-- A messaging-service record that holds the name `old` for the service
`MG1`. -/
def staleServiceRecord : ResourceData :=
  { schema := messagingServiceSchema, id := "MG1", state := [("friendly_name", .str "old")] }

/-! # Properties -/

/-! ## Basic facts about the store -/

theorem Set_id (d : ResourceData) (key : String) (value : Value) :
    (d.Set key value).d.id = d.id := by
  unfold ResourceData.Set
  split <;> rfl

theorem thenSet_id (r : SetResult) (key : String) (value : Value) :
    (r.thenSet key value).d.id = r.d.id := by
  unfold SetResult.thenSet
  split
  · exact Set_id _ _ _
  · rfl

theorem thenSetIf_id (r : SetResult) (cond : Bool) (key : String) (value : Value) :
    (r.thenSetIf cond key value).d.id = r.d.id := by
  unfold SetResult.thenSetIf
  split
  · exact Set_id _ _ _
  · rfl

theorem alwaysSetIf_id (r : SetResult) (cond : Bool) (key : String) (value : Value) :
    (r.alwaysSetIf cond key value).d.id = r.d.id := by
  unfold SetResult.alwaysSetIf
  split
  · exact Set_id _ _ _
  · rfl

theorem mapTwilioPhoneNumberToTerraform_id (ph : IncomingPhoneNumber) (d : ResourceData) :
    (mapTwilioPhoneNumberToTerraform ph d).d.id = d.id := by
  simp only [mapTwilioPhoneNumberToTerraform, thenSet_id, thenSetIf_id, alwaysSetIf_id, Set_id]

/-- The loop returns at the first candidate passing the test. -/
theorem phoneNumberLoop_first (friendlyName number : String) (d : ResourceData)
    (pre post : List IncomingPhoneNumber) (c : IncomingPhoneNumber)
    (hpre : ∀ x ∈ pre, ¬ ((friendlyName = "" ∨ x.FriendlyName = friendlyName) ∧
      (number = "" ∨ x.PhoneNumber = number)))
    (hc : (friendlyName = "" ∨ c.FriendlyName = friendlyName) ∧
      (number = "" ∨ c.PhoneNumber = number)) :
    phoneNumberLoop friendlyName number d (pre ++ c :: post) =
      some (mapTwilioPhoneNumberToTerraform c (d.SetId c.Sid)) := by
  induction pre with
  | nil => simp [phoneNumberLoop, hc]
  | cons x xs ih =>
    have hx := hpre x (List.mem_cons_self x xs)
    have hxs : ∀ y ∈ xs, ¬ ((friendlyName = "" ∨ y.FriendlyName = friendlyName) ∧
        (number = "" ∨ y.PhoneNumber = number)) :=
      fun y hy => hpre y (List.mem_cons_of_mem x hy)
    simp only [List.cons_append, phoneNumberLoop, if_neg hx]
    exact ih hxs

/-- The loop runs to its end when no candidate passes the test. -/
theorem phoneNumberLoop_none (friendlyName number : String) (d : ResourceData)
    (page : List IncomingPhoneNumber)
    (hnone : ∀ x ∈ page, ¬ ((friendlyName = "" ∨ x.FriendlyName = friendlyName) ∧
      (number = "" ∨ x.PhoneNumber = number))) :
    phoneNumberLoop friendlyName number d page = none := by
  induction page with
  | nil => rfl
  | cons x xs ih =>
    have hx := hnone x (List.mem_cons_self x xs)
    simp only [phoneNumberLoop, if_neg hx]
    exact ih (fun y hy => hnone y (List.mem_cons_of_mem x hy))

/-- C1. Phone-number lookup: when at least one criterion is given and the
listing call returns a page, the record ends up as the decode of the first
candidate, in page order, whose friendly name and number pass the test, with
that candidate's Sid as its id. -/
theorem dataTwilioPhoneNumberRead_selects_first (d : ResourceData) (client : Client)
    (pre post : List IncomingPhoneNumber) (c : IncomingPhoneNumber)
    (hq : criterion d "number" ≠ "" ∨ criterion d "friendly_name" ≠ "")
    (hpage : client.IncomingNumbersGetPage
      (phoneNumberQuery (criterion d "friendly_name") (criterion d "number")) =
        .ok (pre ++ c :: post))
    (hpre : ∀ x ∈ pre, ¬ ((criterion d "friendly_name" = "" ∨
        x.FriendlyName = criterion d "friendly_name") ∧
      (criterion d "number" = "" ∨ x.PhoneNumber = criterion d "number")))
    (hc : (criterion d "friendly_name" = "" ∨ c.FriendlyName = criterion d "friendly_name") ∧
      (criterion d "number" = "" ∨ c.PhoneNumber = criterion d "number")) :
    (dataTwilioPhoneNumberRead d client).d.id = c.Sid ∧
    (dataTwilioPhoneNumberRead d client).d =
      (mapTwilioPhoneNumberToTerraform c (d.SetId c.Sid)).d ∧
    (dataTwilioPhoneNumberRead d client).err =
      (mapTwilioPhoneNumberToTerraform c (d.SetId c.Sid)).err := by
  have hnot : ¬ (criterion d "number" = "" ∧ criterion d "friendly_name" = "") := by
    rintro ⟨h1, h2⟩
    rcases hq with h | h
    · exact h h1
    · exact h h2
  have hloop := phoneNumberLoop_first (criterion d "friendly_name") (criterion d "number") d
    pre post c hpre hc
  have hrun : dataTwilioPhoneNumberRead d client =
      { d := (mapTwilioPhoneNumberToTerraform c (d.SetId c.Sid)).d,
        err := (mapTwilioPhoneNumberToTerraform c (d.SetId c.Sid)).err,
        calls := [.IncomingNumbersGetPage
          (phoneNumberQuery (criterion d "friendly_name") (criterion d "number"))] } := by
    simp only [dataTwilioPhoneNumberRead, if_neg hnot, hpage, hloop]
  rw [hrun]
  refine ⟨?_, rfl, rfl⟩
  simp only [mapTwilioPhoneNumberToTerraform_id]
  rfl

/-- Witness for C1: only `number` is set and, of three candidates, only the
second carries it; the second is selected. -/
theorem dataTwilioPhoneNumberRead_selects_first_witness :
    (criterion numberOnlyRecord "number" ≠ "" ∨ criterion numberOnlyRecord "friendly_name" ≠ "") ∧
    (pageClient threeNumbers [] []).IncomingNumbersGetPage
      (phoneNumberQuery (criterion numberOnlyRecord "friendly_name")
        (criterion numberOnlyRecord "number")) =
      .ok ([{ Sid := "PN1", PhoneNumber := "+15550000001" }] ++
        { Sid := "PN2", PhoneNumber := "+15550000002" } ::
        [{ Sid := "PN3", PhoneNumber := "+15550000003" }]) ∧
    ((dataTwilioPhoneNumberRead numberOnlyRecord (pageClient threeNumbers [] [])).d.id = "PN2" ∧
     (dataTwilioPhoneNumberRead numberOnlyRecord (pageClient threeNumbers [] [])).d =
       (mapTwilioPhoneNumberToTerraform { Sid := "PN2", PhoneNumber := "+15550000002" }
         (numberOnlyRecord.SetId "PN2")).d ∧
     (dataTwilioPhoneNumberRead numberOnlyRecord (pageClient threeNumbers [] [])).err =
       (mapTwilioPhoneNumberToTerraform { Sid := "PN2", PhoneNumber := "+15550000002" }
         (numberOnlyRecord.SetId "PN2")).err) :=
  ⟨by decide, by rfl,
    dataTwilioPhoneNumberRead_selects_first numberOnlyRecord (pageClient threeNumbers [] [])
      [{ Sid := "PN1", PhoneNumber := "+15550000001" }]
      [{ Sid := "PN3", PhoneNumber := "+15550000003" }]
      { Sid := "PN2", PhoneNumber := "+15550000002" }
      (by decide) (by rfl) (by decide) (by decide)⟩

/-- The fixed text of the number-only message does not contain `friendly`;
neither does the message, unless the queried number itself does. -/
theorem not_mentions_number_only (number : String) (h : ¬ mentions number "friendly") :
    ¬ mentions ("unable to find IncomingPhoneNumber with number: " ++ number) "friendly" := by
  unfold mentions at *
  have e : ("unable to find IncomingPhoneNumber with number: " ++ number).toList =
      "unable to find IncomingPhoneNumber with number: ".toList ++ number.toList := by
    simp [String.toList]
  have e2 : "unable to find IncomingPhoneNumber with number: ".toList =
      ['u', 'n', 'a', 'b', 'l', 'e', ' ', 't', 'o', ' ', 'f', 'i', 'n', 'd', ' ', 'I', 'n', 'c',
       'o', 'm', 'i', 'n', 'g', 'P', 'h', 'o', 'n', 'e', 'N', 'u', 'm', 'b', 'e', 'r', ' ', 'w',
       'i', 't', 'h', ' ', 'n', 'u', 'm', 'b', 'e', 'r', ':', ' '] := by decide
  have e3 : "friendly".toList = ['f', 'r', 'i', 'e', 'n', 'd', 'l', 'y'] := by decide
  rw [e, e2]
  rw [e3] at h ⊢
  simp only [List.cons_append, List.nil_append, List.infix_cons_iff, List.cons_prefix_cons]
  simp
  exact h

/-- The number-only message names the criterion and the queried number. -/
theorem mentions_number_only (number : String) :
    mentions ("unable to find IncomingPhoneNumber with number: " ++ number)
      ("number: " ++ number) := by
  unfold mentions
  refine ⟨"unable to find IncomingPhoneNumber with ".toList, [], ?_⟩
  have e : "unable to find IncomingPhoneNumber with number: " =
      "unable to find IncomingPhoneNumber with " ++ "number: " := by decide
  rw [e]
  simp [String.toList]

/-- The criterion is empty for a field that is absent or empty. -/
theorem criterion_eq_empty (d : ResourceData) (key : String) (h : absentOrEmpty d key) :
    criterion d key = "" := by
  unfold absentOrEmpty at h
  unfold criterion
  rcases h with h | h
  · simp [h]
  · simp [h]

/-- C2, as the claim states it, fails: the queried number is echoed into the
message, so a number-only query for the text `friendly_name` that nothing
matches gives a message that mentions `friendly_name`. -/
theorem dataTwilioPhoneNumberRead_no_match_echoes_number :
    criterion friendlyNumberRecord "number" = "friendly_name" ∧
    criterion friendlyNumberRecord "friendly_name" = "" ∧
    (dataTwilioPhoneNumberRead friendlyNumberRecord (pageClient twoOtherNumbers [] [])).calls =
      [.IncomingNumbersGetPage [("PhoneNumber", ["friendly_name"])]] ∧
    (dataTwilioPhoneNumberRead friendlyNumberRecord (pageClient twoOtherNumbers [] [])).err =
      some "unable to find IncomingPhoneNumber with number: friendly_name" ∧
    mentions "unable to find IncomingPhoneNumber with number: friendly_name" "friendly_name" ∧
    (dataTwilioPhoneNumberRead friendlyNumberRecord (pageClient twoOtherNumbers [] [])).d.id =
      "" := by
  decide

/-- C2, amended. Phone-number lookup, no candidate passes the test: the record
is left as it was (its id stays unset) and the error takes one of three forms,
by the criteria given: number only, friendly name only, both. With only
`number` given the message is the text
`unable to find IncomingPhoneNumber with number: ` followed by the queried
number: it names `number` with the queried number, and has no occurrence of
`friendly` (so none of `friendly_name` or `friendlyName`) unless the queried
number itself contains one. -/
theorem dataTwilioPhoneNumberRead_no_match (d : ResourceData) (client : Client)
    (page : List IncomingPhoneNumber)
    (hq : criterion d "number" ≠ "" ∨ criterion d "friendly_name" ≠ "")
    (hpage : client.IncomingNumbersGetPage
      (phoneNumberQuery (criterion d "friendly_name") (criterion d "number")) = .ok page)
    (hnone : ∀ x ∈ page, ¬ ((criterion d "friendly_name" = "" ∨
        x.FriendlyName = criterion d "friendly_name") ∧
      (criterion d "number" = "" ∨ x.PhoneNumber = criterion d "number"))) :
    (dataTwilioPhoneNumberRead d client).d = d ∧
    (criterion d "friendly_name" = "" →
      (dataTwilioPhoneNumberRead d client).err =
        some ("unable to find IncomingPhoneNumber with number: " ++ criterion d "number") ∧
      mentions ("unable to find IncomingPhoneNumber with number: " ++ criterion d "number")
        ("number: " ++ criterion d "number") ∧
      (¬ mentions (criterion d "number") "friendly" →
        ¬ mentions ("unable to find IncomingPhoneNumber with number: " ++ criterion d "number")
          "friendly")) ∧
    (criterion d "friendly_name" ≠ "" → criterion d "number" = "" →
      (dataTwilioPhoneNumberRead d client).err =
        some ("unable to find IncomingPhoneNumber with friendlyName: " ++
          criterion d "friendly_name")) ∧
    (criterion d "friendly_name" ≠ "" → criterion d "number" ≠ "" →
      (dataTwilioPhoneNumberRead d client).err =
        some ("unable to find IncomingPhoneNumber with number: " ++ criterion d "number" ++
          " and friendlyName: " ++ criterion d "friendly_name")) := by
  have hnot : ¬ (criterion d "number" = "" ∧ criterion d "friendly_name" = "") := by
    rintro ⟨h1, h2⟩
    rcases hq with h | h
    · exact h h1
    · exact h h2
  have hloop := phoneNumberLoop_none (criterion d "friendly_name") (criterion d "number") d
    page hnone
  refine ⟨?_, ?_, ?_, ?_⟩
  · simp only [dataTwilioPhoneNumberRead, if_neg hnot, hpage, hloop]
  · intro hf
    refine ⟨?_, mentions_number_only _, not_mentions_number_only _⟩
    simp only [dataTwilioPhoneNumberRead, if_neg hnot, hpage, hloop, if_pos hf]
  · intro hf hn
    simp only [dataTwilioPhoneNumberRead, if_neg hnot, hpage, hloop, if_neg hf, if_pos hn]
  · intro hf hn
    simp only [dataTwilioPhoneNumberRead, if_neg hnot, hpage, hloop, if_neg hf, if_neg hn]

/-- Witness for C2, amended: only `number` is set and neither of the two candidates
carries it. -/
theorem dataTwilioPhoneNumberRead_no_match_witness :
    (criterion numberOnlyRecord "number" ≠ "" ∨ criterion numberOnlyRecord "friendly_name" ≠ "") ∧
    (pageClient twoOtherNumbers [] []).IncomingNumbersGetPage
      (phoneNumberQuery (criterion numberOnlyRecord "friendly_name")
        (criterion numberOnlyRecord "number")) = .ok twoOtherNumbers ∧
    (dataTwilioPhoneNumberRead numberOnlyRecord (pageClient twoOtherNumbers [] [])).d =
      numberOnlyRecord ∧
    (dataTwilioPhoneNumberRead numberOnlyRecord (pageClient twoOtherNumbers [] [])).err =
      some "unable to find IncomingPhoneNumber with number: +15550000002" ∧
    ¬ mentions "unable to find IncomingPhoneNumber with number: +15550000002" "friendly" :=
  have h := dataTwilioPhoneNumberRead_no_match numberOnlyRecord
    (pageClient twoOtherNumbers [] []) twoOtherNumbers (by decide) (by rfl) (by decide)
  ⟨by decide, by rfl, h.1, (h.2.1 (by decide)).1, (h.2.1 (by decide)).2.2 (by decide)⟩

/-- C3. The phone-number and the messaging-service lookups validate before any
remote call: when both `number` and `friendly_name` (phone number),
respectively `friendly_name` (messaging service), are absent or empty, the
lookup returns its validation error, issues no remote call and leaves the
record as it was. -/
theorem lookups_validate_before_remote_call (d : ResourceData) (client : Client) :
    (absentOrEmpty d "number" → absentOrEmpty d "friendly_name" →
      (dataTwilioPhoneNumberRead d client).err =
        some "'number' and/or 'friendly_name' must be specified" ∧
      (dataTwilioPhoneNumberRead d client).calls = [] ∧
      (dataTwilioPhoneNumberRead d client).d = d) ∧
    (absentOrEmpty d "friendly_name" →
      (dataTwilioMessagingServiceRead d client).err =
        some "'friendly_name' must be specified" ∧
      (dataTwilioMessagingServiceRead d client).calls = [] ∧
      (dataTwilioMessagingServiceRead d client).d = d) := by
  constructor
  · intro hn hf
    have h1 := criterion_eq_empty d "number" hn
    have h2 := criterion_eq_empty d "friendly_name" hf
    simp [dataTwilioPhoneNumberRead, h1, h2]
  · intro hf
    have h2 := criterion_eq_empty d "friendly_name" hf
    simp [dataTwilioMessagingServiceRead, h2]

/-- Witness for C3: a phone-number record with no field set and a
messaging-service record whose `friendly_name` is the empty string, against a
client that would answer. -/
theorem lookups_validate_before_remote_call_witness :
    (absentOrEmpty emptyPhoneNumberRecord "number" ∧
     absentOrEmpty emptyPhoneNumberRecord "friendly_name" ∧
     (dataTwilioPhoneNumberRead emptyPhoneNumberRecord (pageClient threeNumbers [] [])).err =
       some "'number' and/or 'friendly_name' must be specified" ∧
     (dataTwilioPhoneNumberRead emptyPhoneNumberRecord (pageClient threeNumbers [] [])).calls = [] ∧
     (dataTwilioPhoneNumberRead emptyPhoneNumberRecord (pageClient threeNumbers [] [])).d =
       emptyPhoneNumberRecord) ∧
    (absentOrEmpty emptyNameServiceRecord "friendly_name" ∧
     (dataTwilioMessagingServiceRead emptyNameServiceRecord (pageClient [] [] [])).err =
       some "'friendly_name' must be specified" ∧
     (dataTwilioMessagingServiceRead emptyNameServiceRecord (pageClient [] [] [])).calls = [] ∧
     (dataTwilioMessagingServiceRead emptyNameServiceRecord (pageClient [] [] [])).d =
       emptyNameServiceRecord) :=
  ⟨⟨by decide, by decide,
      (lookups_validate_before_remote_call emptyPhoneNumberRecord
        (pageClient threeNumbers [] [])).1 (by decide) (by decide)⟩,
    ⟨by decide,
      (lookups_validate_before_remote_call emptyNameServiceRecord
        (pageClient [] [] [])).2 (by decide)⟩⟩

/-- The subaccount lookup issues `Accounts.GetPage` exactly once, on every
record. -/
theorem dataTwilioSubaccountRead_calls (d : ResourceData) (client : Client) :
    (dataTwilioSubaccountRead d client).calls =
      [.AccountsGetPage [("FriendlyName", [(d.Get "friendly_name").asString])]] := by
  unfold dataTwilioSubaccountRead
  dsimp only
  split
  · rfl
  · split <;> rfl

/-- C4. The subaccount lookup has no validation step: on a record whose
`friendly_name` is the empty string, and on one where it is absent, it issues
`Accounts.GetPage` once, with the filter `FriendlyName = ""`, whatever the
client answers. -/
theorem dataTwilioSubaccountRead_calls_remote_without_name (client : Client) :
    (emptyNameSubaccountRecord.Get "friendly_name").asString = "" ∧
    (dataTwilioSubaccountRead emptyNameSubaccountRecord client).calls =
      [.AccountsGetPage [("FriendlyName", [""])]] ∧
    (emptySubaccountRecord.Get "friendly_name").asString = "" ∧
    (dataTwilioSubaccountRead emptySubaccountRecord client).calls =
      [.AccountsGetPage [("FriendlyName", [""])]] :=
  ⟨by decide, dataTwilioSubaccountRead_calls emptyNameSubaccountRecord client,
    by decide, dataTwilioSubaccountRead_calls emptySubaccountRecord client⟩

/-- C5. The messaging-service lookup applies no test to the candidates: asked
for the name `wanted`, with a page whose only service is named `other`, it
succeeds and selects that service. -/
theorem dataTwilioMessagingServiceRead_selects_other_name :
    criterion wantedServiceRecord "friendly_name" = "wanted" ∧
    otherService.FriendlyName ≠ "wanted" ∧
    (dataTwilioMessagingServiceRead wantedServiceRecord (pageClient [] [otherService] [])).err =
      none ∧
    (dataTwilioMessagingServiceRead wantedServiceRecord (pageClient [] [otherService] [])).d.id =
      otherService.Sid := by
  decide

/-- C6. Phone-number lookup when the listing call fails: the message is built
from the friendly name alone. With only `number` given it reads
`with friendlyName: ` followed by nothing and does not name the number; with
both criteria given it has the same form and does not name the number either. -/
theorem dataTwilioPhoneNumberRead_listing_error_message :
    (dataTwilioPhoneNumberRead numberOnlyRecord (failingClient "boom")).err =
      some "unable to find IncomingPhoneNumber with friendlyName: \nerror: boom" ∧
    ¬ mentions "unable to find IncomingPhoneNumber with friendlyName: \nerror: boom"
      "+15550000002" ∧
    (dataTwilioPhoneNumberRead numberAndNameRecord (failingClient "boom")).err =
      some "unable to find IncomingPhoneNumber with friendlyName: office\nerror: boom" ∧
    ¬ mentions "unable to find IncomingPhoneNumber with friendlyName: office\nerror: boom"
      "+15550000002" := by
  decide

/-! ## Facts about `url.Values` and the encoders -/

theorem lookup_cons_eq {β : Type} (k : String) (b : β) (es : List (String × β)) :
    List.lookup k ((k, b) :: es) = some b := by
  simp [List.lookup]

theorem lookup_cons_ne {β : Type} (k k2 : String) (b : β) (es : List (String × β))
    (h : k2 ≠ k) : List.lookup k2 ((k, b) :: es) = List.lookup k2 es := by
  have hb : (k2 == k) = false := beq_eq_false_iff_ne.mpr h
  simp [List.lookup, hb]

theorem Values.get_Add (p : Values) (k k2 v : String) :
    (p.Add k v).get k2 =
      if k2 = k then some ((p.get k).getD [] ++ [v]) else p.get k2 := by
  unfold Values.get
  induction p with
  | nil =>
    by_cases h : k2 = k
    · subst h; simp [Values.Add, lookup_cons_eq]
    · simp [Values.Add, lookup_cons_ne _ _ _ _ h, h]
  | cons kv rest ih =>
    obtain ⟨k1, vs⟩ := kv
    by_cases h1 : k1 = k
    · subst h1
      by_cases h : k2 = k1
      · subst h; simp [Values.Add, lookup_cons_eq]
      · simp [Values.Add, lookup_cons_ne _ _ _ _ h, h]
    · have h1b : k ≠ k1 := fun e => h1 e.symm
      by_cases h : k2 = k
      · subst h
        simp [Values.Add, h1, lookup_cons_ne _ _ _ _ h1b, ih]
      · by_cases h2 : k2 = k1
        · subst h2; simp [Values.Add, h1, lookup_cons_eq, h]
        · simp [Values.Add, h1, lookup_cons_ne _ _ _ _ h2, ih, h]

theorem get_addIfNotEmpty (p : Values) (k k2 : String) (v : Value) :
    (addIfNotEmpty p k v).get k2 =
      if k2 = k ∧ castToString v ≠ "" then some ((p.get k).getD [] ++ [castToString v])
      else p.get k2 := by
  unfold addIfNotEmpty
  by_cases hv : castToString v = ""
  · simp [hv]
  · simp only [ne_eq, hv, not_false_eq_true, if_true, and_true, Values.get_Add]


theorem get_nil (k : String) : Values.get [] k = none := rfl

theorem hasKey_eq_false (p : Values) (k : String) (h : p.get k = none) :
    p.hasKey k = false := by
  unfold Values.hasKey
  unfold Values.get at h
  simp [h]

theorem toDigitsCore_ne_nil (b fuel n : Nat) (ds : List Char) (h : ds ≠ [] ∨ 0 < fuel) :
    Nat.toDigitsCore b fuel n ds ≠ [] := by
  induction fuel generalizing n ds with
  | zero =>
    rcases h with h | h
    · simpa [Nat.toDigitsCore] using h
    · exact absurd h (Nat.lt_irrefl 0)
  | succ fuel ih =>
    unfold Nat.toDigitsCore
    dsimp only
    split
    · exact List.cons_ne_nil _ _
    · exact ih _ _ (Or.inl (List.cons_ne_nil _ _))

theorem natRepr_ne_empty (n : Nat) : Nat.repr n ≠ "" := by
  unfold Nat.repr Nat.toDigits
  intro h
  have h2 := congrArg String.data h
  exact toDigitsCore_ne_nil 10 (n + 1) n [] (Or.inr (Nat.succ_pos n)) h2

theorem castToString_int_ne_empty (n : Int) : castToString (.int n) ≠ "" := by
  unfold castToString
  cases n with
  | ofNat m => exact natRepr_ne_empty m
  | negSucc m =>
    intro h
    have h2 := congrArg String.data h
    change "-".data ++ (Nat.repr (Nat.succ m)).data = [] at h2
    simp at h2

theorem castToString_bool_ne_empty (b : Bool) : castToString (.bool b) ≠ "" := by
  cases b <;> decide

theorem sparse_nil : Values.sparse [] := by
  intro kv h
  cases h

theorem sparse_Add (p : Values) (k v : String) (hp : p.sparse) (hv : v ≠ "") :
    (p.Add k v).sparse := by
  induction p with
  | nil =>
    intro kv h
    simp only [Values.Add, List.mem_singleton] at h
    subst h
    simp [hv]
  | cons kv rest ih =>
    obtain ⟨k1, vs⟩ := kv
    have hhead := hp (k1, vs) (List.mem_cons_self _ _)
    have hrest : Values.sparse rest := fun x hx => hp x (List.mem_cons_of_mem _ hx)
    by_cases h1 : k1 = k
    · intro x hx
      simp only [Values.Add, h1, if_true, List.mem_cons] at hx
      rcases hx with hx | hx
      · subst hx
        refine ⟨by simp, ?_⟩
        intro w hw
        simp only [List.mem_append, List.mem_singleton] at hw
        rcases hw with hw | hw
        · exact hhead.2 w hw
        · subst hw; exact hv
      · exact hrest x hx
    · intro x hx
      simp only [Values.Add, h1, if_false, List.mem_cons] at hx
      rcases hx with hx | hx
      · subst hx; exact hhead
      · exact ih hrest x hx

theorem sparse_addIfNotEmpty (p : Values) (k : String) (v : Value) (hp : p.sparse) :
    (addIfNotEmpty p k v).sparse := by
  unfold addIfNotEmpty
  dsimp only
  split
  · rename_i h
    exact sparse_Add p k _ hp h
  · exact hp

theorem makeCreateServiceRequestPayload_sparse (d : ResourceData) :
    (makeCreateServiceRequestPayload d).sparse := by
  unfold makeCreateServiceRequestPayload
  dsimp only
  repeat apply sparse_addIfNotEmpty
  exact sparse_nil

theorem makeCreateRequestPayload_sparse (d : ResourceData) :
    (makeCreateRequestPayload d).sparse := by
  unfold makeCreateRequestPayload
  dsimp only
  repeat' first
    | exact sparse_nil
    | apply sparse_addIfNotEmpty
    | split

theorem makeCreateRequestPayload_no_FriendlyName (d : ResourceData)
    (h : d.Get "friendly_name" = .str "") :
    (makeCreateRequestPayload d).get "FriendlyName" = none := by
  unfold makeCreateRequestPayload
  dsimp only
  repeat' split
  all_goals simp [get_addIfNotEmpty, get_nil, h, castToString]

theorem makeCreateServiceRequestPayload_no_FriendlyName (d : ResourceData)
    (h : d.Get "friendly_name" = .str "") :
    (makeCreateServiceRequestPayload d).get "FriendlyName" = none := by
  simp [makeCreateServiceRequestPayload, get_addIfNotEmpty, get_nil, h, castToString]

theorem makeCreateRequestPayload_VoiceCallerIdLookup (d : ResourceData) (voice : Item)
    (b : Bool) (hv : firstItem (d.Get "voice") = some voice)
    (hb : voice.get "caller_id_enabled" = .bool b) :
    (makeCreateRequestPayload d).get "VoiceCallerIdLookup" =
      some [if b then "true" else "false"] := by
  unfold makeCreateRequestPayload
  dsimp only
  rw [hv]
  dsimp only
  cases b
  all_goals first
    | rw [if_pos rfl]
    | rw [if_neg (by decide)]
  all_goals repeat' split
  all_goals simp [get_addIfNotEmpty, get_nil, hb, castToString]


/-- C7, as the claim states it, fails: `sticky_sender = false`,
`validity_period = 0` and `voice.caller_id_enabled = false` are not omitted,
they are sent as `false`, `0` and `false`. -/
theorem encode_false_and_zero_not_omitted :
    falseZeroServiceRecord.Get "sticky_sender" = .bool false ∧
    (makeCreateServiceRequestPayload falseZeroServiceRecord).get "StickySender" =
      some ["false"] ∧
    falseZeroServiceRecord.Get "validity_period" = .int 0 ∧
    (makeCreateServiceRequestPayload falseZeroServiceRecord).get "ValidityPeriod" =
      some ["0"] ∧
    (firstItem (callerIdOffRecord.Get "voice")).map (fun voice => voice.get "caller_id_enabled") =
      some (.bool false) ∧
    (makeCreateRequestPayload callerIdOffRecord).get "VoiceCallerIdLookup" = some ["false"] := by
  decide

/-- C7, amended. Emptiness at encode is that of the string `cast.ToString`
renders: `addIfNotEmpty` leaves the parameters as they are exactly when the
rendering is empty. So an empty `friendly_name` gives no `FriendlyName` key in
either encoder, while a boolean is always sent as `true` or `false` and an
integer in decimal: `sticky_sender = false` gives `StickySender = false`,
`validity_period = 0` gives `ValidityPeriod = 0`, and
`voice.caller_id_enabled = false` gives `VoiceCallerIdLookup = false`. -/
theorem encode_omits_only_empty_rendering (d : ResourceData) :
    (∀ (p : Values) (key : String) (v : Value),
      (castToString v = "" → addIfNotEmpty p key v = p) ∧
      (castToString v ≠ "" → addIfNotEmpty p key v = p.Add key (castToString v))) ∧
    (d.Get "friendly_name" = .str "" →
      (makeCreateRequestPayload d).hasKey "FriendlyName" = false ∧
      (makeCreateServiceRequestPayload d).hasKey "FriendlyName" = false) ∧
    (∀ b : Bool, d.Get "sticky_sender" = .bool b →
      (makeCreateServiceRequestPayload d).get "StickySender" =
        some [if b then "true" else "false"]) ∧
    (∀ n : Int, d.Get "validity_period" = .int n →
      (makeCreateServiceRequestPayload d).get "ValidityPeriod" = some [toString n]) ∧
    (∀ (voice : Item) (b : Bool), firstItem (d.Get "voice") = some voice →
      voice.get "caller_id_enabled" = .bool b →
      (makeCreateRequestPayload d).get "VoiceCallerIdLookup" =
        some [if b then "true" else "false"]) := by
  refine ⟨?_, ?_, ?_, ?_, ?_⟩
  · intro p key v
    constructor
    · intro h
      simp [addIfNotEmpty, h]
    · intro h
      simp [addIfNotEmpty, h]
  · intro h
    exact ⟨hasKey_eq_false _ _ (makeCreateRequestPayload_no_FriendlyName d h),
      hasKey_eq_false _ _ (makeCreateServiceRequestPayload_no_FriendlyName d h)⟩
  · intro b h
    have hb := castToString_bool_ne_empty b
    cases b <;>
      simp [makeCreateServiceRequestPayload, get_addIfNotEmpty, get_nil, h, castToString]
  · intro n h
    have hn := castToString_int_ne_empty n
    simp only [castToString] at hn
    simp [makeCreateServiceRequestPayload, get_addIfNotEmpty, get_nil, h, castToString, hn]
  · intro voice b hv hb
    exact makeCreateRequestPayload_VoiceCallerIdLookup d voice b hv hb

/-- Witness for C7, amended: the record declaring `sticky_sender = false` and
`validity_period = 0`, and the one declaring `caller_id_enabled = false`. -/
theorem encode_omits_only_empty_rendering_witness :
    (emptyNameServiceRecord.Get "friendly_name" = .str "" ∧
      (makeCreateRequestPayload emptyNameServiceRecord).hasKey "FriendlyName" = false ∧
      (makeCreateServiceRequestPayload emptyNameServiceRecord).hasKey "FriendlyName" = false) ∧
    (falseZeroServiceRecord.Get "sticky_sender" = .bool false ∧
      (makeCreateServiceRequestPayload falseZeroServiceRecord).get "StickySender" =
        some [if false then "true" else "false"]) ∧
    (falseZeroServiceRecord.Get "validity_period" = .int 0 ∧
      (makeCreateServiceRequestPayload falseZeroServiceRecord).get "ValidityPeriod" =
        some [toString (0 : Int)]) ∧
    (firstItem (callerIdOffRecord.Get "voice") = some [("caller_id_enabled", .bool false)] ∧
      Item.get [("caller_id_enabled", .bool false)] "caller_id_enabled" = .bool false ∧
      (makeCreateRequestPayload callerIdOffRecord).get "VoiceCallerIdLookup" =
        some [if false then "true" else "false"]) :=
  ⟨⟨by decide, (encode_omits_only_empty_rendering emptyNameServiceRecord).2.1 (by decide)⟩,
    ⟨by decide,
      (encode_omits_only_empty_rendering falseZeroServiceRecord).2.2.1 false (by decide)⟩,
    ⟨by decide,
      (encode_omits_only_empty_rendering falseZeroServiceRecord).2.2.2.1 0 (by decide)⟩,
    ⟨by decide, by decide,
      (encode_omits_only_empty_rendering callerIdOffRecord).2.2.2.2
        [("caller_id_enabled", .bool false)] false (by decide) (by decide)⟩⟩

/-- C8, as the claim states it, fails: for an API key and for a subaccount
whose `friendly_name` is empty the encoder still emits the key `FriendlyName`,
with the empty string as its value. -/
theorem flatten_emits_empty_FriendlyName :
    emptyApiKeyRecord.Get "friendly_name" = .str "" ∧
    (flattenKeyForCreate emptyApiKeyRecord).get "FriendlyName" = some [""] ∧
    emptySubaccountRecord.Get "friendly_name" = .str "" ∧
    (flattenSubaccountForCreate emptySubaccountRecord).get "FriendlyName" = some [""] := by
  decide

/-- C8, amended. Every key in the parameters built by
`makeCreateRequestPayload` and `makeCreateServiceRequestPayload` has a
non-empty value, and an empty `friendly_name` contributes no `FriendlyName`
key to them; `flattenKeyForCreate` and `flattenSubaccountForCreate` emit
exactly the key `FriendlyName`, carrying the record's `friendly_name` whatever
it is. -/
theorem encoders_sparse_or_unconditional (d : ResourceData) :
    (makeCreateRequestPayload d).sparse ∧
    (makeCreateServiceRequestPayload d).sparse ∧
    (d.Get "friendly_name" = .str "" →
      (makeCreateRequestPayload d).get "FriendlyName" = none ∧
      (makeCreateServiceRequestPayload d).get "FriendlyName" = none) ∧
    flattenKeyForCreate d = [("FriendlyName", [(d.Get "friendly_name").asString])] ∧
    flattenSubaccountForCreate d = [("FriendlyName", [(d.Get "friendly_name").asString])] :=
  ⟨makeCreateRequestPayload_sparse d, makeCreateServiceRequestPayload_sparse d,
    fun h => ⟨makeCreateRequestPayload_no_FriendlyName d h,
      makeCreateServiceRequestPayload_no_FriendlyName d h⟩,
    rfl, rfl⟩

/-- Witness for C8, amended: a phone-number record with no field set. -/
theorem encoders_sparse_or_unconditional_witness :
    emptyPhoneNumberRecord.Get "friendly_name" = .str "" ∧
    (makeCreateRequestPayload emptyPhoneNumberRecord).sparse ∧
    (makeCreateServiceRequestPayload emptyPhoneNumberRecord).sparse ∧
    ((makeCreateRequestPayload emptyPhoneNumberRecord).get "FriendlyName" = none ∧
      (makeCreateServiceRequestPayload emptyPhoneNumberRecord).get "FriendlyName" = none) ∧
    flattenKeyForCreate emptyPhoneNumberRecord = [("FriendlyName", [""])] ∧
    flattenSubaccountForCreate emptyPhoneNumberRecord = [("FriendlyName", [""])] :=
  have h := encoders_sparse_or_unconditional emptyPhoneNumberRecord
  ⟨by decide, h.1, h.2.1, h.2.2.1 (by decide), h.2.2.2.1, h.2.2.2.2⟩

/-! ## Facts about the decoders -/

theorem Set_get_self (d : ResourceData) (key : String) (value : Value)
    (h : (d.Set key value).err = none) : (d.Set key value).d.Get key = value := by
  unfold ResourceData.Set at h ⊢
  unfold ResourceData.setError at h ⊢
  cases hs : d.schema.lookup key with
  | none => simp [hs] at h
  | some t =>
    by_cases ha : t.accepts value = true
    · simp [hs, ha, ResourceData.Get, lookup_cons_eq]
    · simp [hs, ha] at h

theorem Set_get_ne (d : ResourceData) (key key2 : String) (value : Value) (h : key2 ≠ key) :
    (d.Set key value).d.Get key2 = d.Get key2 := by
  unfold ResourceData.Set
  split
  · rfl
  · simp [ResourceData.Get, lookup_cons_ne _ _ _ _ h]

theorem thenSet_ok (r : SetResult) (key : String) (value : Value)
    (h : (r.thenSet key value).err = none) :
    r.err = none ∧ (r.thenSet key value).d.Get key = value := by
  unfold SetResult.thenSet at h ⊢
  by_cases hr : r.err = none
  · rw [if_pos hr] at h ⊢
    exact ⟨hr, Set_get_self _ _ _ h⟩
  · rw [if_neg hr] at h
    exact absurd h hr

theorem thenSet_get_ne (r : SetResult) (key key2 : String) (value : Value) (h : key2 ≠ key) :
    (r.thenSet key value).d.Get key2 = r.d.Get key2 := by
  unfold SetResult.thenSet
  split
  · exact Set_get_ne _ _ _ _ h
  · rfl

/-- Four guarded assignments in a row that end without an error have all been
carried out. -/
theorem four_sets_ok (r : SetResult) (k1 k2 k3 k4 : String) (v1 v2 v3 v4 : Value)
    (h12 : k1 ≠ k2) (h13 : k1 ≠ k3) (h14 : k1 ≠ k4) (h23 : k2 ≠ k3) (h24 : k2 ≠ k4)
    (h34 : k3 ≠ k4)
    (h : ((((r.thenSet k1 v1).thenSet k2 v2).thenSet k3 v3).thenSet k4 v4).err = none) :
    ((((r.thenSet k1 v1).thenSet k2 v2).thenSet k3 v3).thenSet k4 v4).d.Get k1 = v1 ∧
    ((((r.thenSet k1 v1).thenSet k2 v2).thenSet k3 v3).thenSet k4 v4).d.Get k2 = v2 ∧
    ((((r.thenSet k1 v1).thenSet k2 v2).thenSet k3 v3).thenSet k4 v4).d.Get k3 = v3 ∧
    ((((r.thenSet k1 v1).thenSet k2 v2).thenSet k3 v3).thenSet k4 v4).d.Get k4 = v4 := by
  have e4 := thenSet_ok _ k4 v4 h
  have e3 := thenSet_ok _ k3 v3 e4.1
  have e2 := thenSet_ok _ k2 v2 e3.1
  have e1 := thenSet_ok _ k1 v1 e2.1
  refine ⟨?_, ?_, ?_, e4.2⟩
  · rw [thenSet_get_ne _ _ _ _ h14, thenSet_get_ne _ _ _ _ h13, thenSet_get_ne _ _ _ _ h12]
    exact e1.2
  · rw [thenSet_get_ne _ _ _ _ h24, thenSet_get_ne _ _ _ _ h23]
    exact e2.2
  · rw [thenSet_get_ne _ _ _ _ h34]
    exact e3.2

theorem Set_tracks (t0 new : List SetAttempt) (d : ResourceData) (key : String) (value : Value)
    (h : d.trace = t0 ++ new) :
    ∃ new2, (d.Set key value).d.trace = t0 ++ new2 ∧
      ((d.Set key value).err ≠ none → ∃ a ∈ new2, a.ok = false) := by
  unfold ResourceData.Set
  split
  · refine ⟨new ++ [⟨key, false⟩], ?_, ?_⟩
    · simp [h]
    · intro _
      exact ⟨⟨key, false⟩, by simp, rfl⟩
  · refine ⟨new ++ [⟨key, true⟩], ?_, ?_⟩
    · simp [h]
    · intro hne
      exact absurd rfl hne

theorem thenSet_tracks (t0 : List SetAttempt) (r : SetResult) (key : String) (value : Value)
    (h : ∃ new, r.d.trace = t0 ++ new ∧ (r.err ≠ none → ∃ a ∈ new, a.ok = false)) :
    ∃ new2, (r.thenSet key value).d.trace = t0 ++ new2 ∧
      ((r.thenSet key value).err ≠ none → ∃ a ∈ new2, a.ok = false) := by
  unfold SetResult.thenSet
  split
  · obtain ⟨new, hn, _⟩ := h
    exact Set_tracks t0 new r.d key value hn
  · exact h

theorem thenSetIf_tracks (t0 : List SetAttempt) (r : SetResult) (cond : Bool) (key : String)
    (value : Value)
    (h : ∃ new, r.d.trace = t0 ++ new ∧ (r.err ≠ none → ∃ a ∈ new, a.ok = false)) :
    ∃ new2, (r.thenSetIf cond key value).d.trace = t0 ++ new2 ∧
      ((r.thenSetIf cond key value).err ≠ none → ∃ a ∈ new2, a.ok = false) := by
  unfold SetResult.thenSetIf
  split
  · obtain ⟨new, hn, _⟩ := h
    exact Set_tracks t0 new r.d key value hn
  · exact h

theorem alwaysSetIf_tracks (t0 : List SetAttempt) (r : SetResult) (cond : Bool) (key : String)
    (value : Value)
    (h : ∃ new, r.d.trace = t0 ++ new ∧ (r.err ≠ none → ∃ a ∈ new, a.ok = false)) :
    ∃ new2, (r.alwaysSetIf cond key value).d.trace = t0 ++ new2 ∧
      ((r.alwaysSetIf cond key value).err ≠ none → ∃ a ∈ new2, a.ok = false) := by
  unfold SetResult.alwaysSetIf
  split
  · obtain ⟨new, hn, _⟩ := h
    exact Set_tracks t0 new r.d key value hn
  · exact h

/-- The phone-number decoder only appends to the trace, and an error it
returns comes with a failed attempt among those it appended. -/
theorem mapTwilioPhoneNumberToTerraform_tracks (ph : IncomingPhoneNumber) (d : ResourceData) :
    ∃ new, (mapTwilioPhoneNumberToTerraform ph d).d.trace = d.trace ++ new ∧
      ((mapTwilioPhoneNumberToTerraform ph d).err ≠ none → ∃ a ∈ new, a.ok = false) := by
  unfold mapTwilioPhoneNumberToTerraform
  dsimp only
  repeat first
    | apply thenSet_tracks
    | apply thenSetIf_tracks
    | apply alwaysSetIf_tracks
  exact Set_tracks d.trace [] d _ _ (by simp)

/-- When no assignment attempted by the phone-number decoder fails, it returns
no error. -/
theorem mapTwilioPhoneNumberToTerraform_err_none (ph : IncomingPhoneNumber) (d : ResourceData)
    (hok : ∀ a ∈ attemptsSince d (mapTwilioPhoneNumberToTerraform ph d), a.ok = true) :
    (mapTwilioPhoneNumberToTerraform ph d).err = none := by
  obtain ⟨new, htrace, hfail⟩ := mapTwilioPhoneNumberToTerraform_tracks ph d
  have hnew : attemptsSince d (mapTwilioPhoneNumberToTerraform ph d) = new := by
    unfold attemptsSince
    rw [htrace]
    exact List.drop_left _ _
  rw [hnew] at hok
  by_contra hne
  obtain ⟨a, ha, hfalse⟩ := hfail hne
  have := hok a ha
  rw [hfalse] at this
  exact Bool.false_ne_true this

/-- A phone-number decode that returns no error leaves exactly one instance in
each composite field. -/
theorem mapTwilioPhoneNumberToTerraform_composites_of_ok (ph : IncomingPhoneNumber)
    (d : ResourceData) (h : (mapTwilioPhoneNumberToTerraform ph d).err = none) :
    ((mapTwilioPhoneNumberToTerraform ph d).d.Get "voice").asSet.length = 1 ∧
    ((mapTwilioPhoneNumberToTerraform ph d).d.Get "sms").asSet.length = 1 ∧
    ((mapTwilioPhoneNumberToTerraform ph d).d.Get "status_callback").asSet.length = 1 ∧
    ((mapTwilioPhoneNumberToTerraform ph d).d.Get "emergency").asSet.length = 1 := by
  unfold mapTwilioPhoneNumberToTerraform at h ⊢
  dsimp only at h ⊢
  have e := four_sets_ok _ "voice" "sms" "status_callback" "emergency" _ _ _ _
    (by decide) (by decide) (by decide) (by decide) (by decide) (by decide) h
  rw [e.1, e.2.1, e.2.2.1, e.2.2.2]
  exact ⟨rfl, rfl, rfl, rfl⟩

/-- C9. Phone-number decode: when none of the assignments it attempts fails,
each of the composite fields `voice`, `sms`, `status_callback` and `emergency`
holds exactly one instance afterwards, whatever the record held before and
however empty the remote sub-fields are. -/
theorem mapTwilioPhoneNumberToTerraform_composites (ph : IncomingPhoneNumber)
    (d : ResourceData)
    (hok : ∀ a ∈ attemptsSince d (mapTwilioPhoneNumberToTerraform ph d), a.ok = true) :
    ((mapTwilioPhoneNumberToTerraform ph d).d.Get "voice").asSet.length = 1 ∧
    ((mapTwilioPhoneNumberToTerraform ph d).d.Get "sms").asSet.length = 1 ∧
    ((mapTwilioPhoneNumberToTerraform ph d).d.Get "status_callback").asSet.length = 1 ∧
    ((mapTwilioPhoneNumberToTerraform ph d).d.Get "emergency").asSet.length = 1 :=
  mapTwilioPhoneNumberToTerraform_composites_of_ok ph d
    (mapTwilioPhoneNumberToTerraform_err_none ph d hok)

/-- Witness for C9: a record with no composite field set and a remote number
whose sub-fields are all empty. -/
theorem mapTwilioPhoneNumberToTerraform_composites_witness :
    (∀ a ∈ attemptsSince emptyPhoneNumberRecord
      (mapTwilioPhoneNumberToTerraform bareNumber emptyPhoneNumberRecord), a.ok = true) ∧
    (emptyPhoneNumberRecord.Get "voice").asSet.length = 0 ∧
    ((mapTwilioPhoneNumberToTerraform bareNumber emptyPhoneNumberRecord).d.Get
      "voice").asSet.length = 1 ∧
    ((mapTwilioPhoneNumberToTerraform bareNumber emptyPhoneNumberRecord).d.Get
      "sms").asSet.length = 1 ∧
    ((mapTwilioPhoneNumberToTerraform bareNumber emptyPhoneNumberRecord).d.Get
      "status_callback").asSet.length = 1 ∧
    ((mapTwilioPhoneNumberToTerraform bareNumber emptyPhoneNumberRecord).d.Get
      "emergency").asSet.length = 1 :=
  ⟨by decide, by decide,
    mapTwilioPhoneNumberToTerraform_composites bareNumber emptyPhoneNumberRecord (by decide)⟩

/-- C10. The messaging-service decoder does not stop at its first failure: on
a record with the messaging-service schema, which declares no `account_sid`,
and a remote service with a valid update timestamp, the assignment of
`account_sid` fails, `date_updated` and eleven more fields are assigned after
it, and the decoder returns no error. -/
theorem mapTwilioMessagingServiceToTerraform_masks_failure :
    (mapTwilioMessagingServiceToTerraform otherService emptyServiceRecord).err = none ∧
    (mapTwilioMessagingServiceToTerraform otherService emptyServiceRecord).d.trace =
      [⟨"sid", true⟩, ⟨"account_sid", false⟩, ⟨"date_updated", true⟩,
       ⟨"inbound_method", true⟩, ⟨"fallback_url", true⟩, ⟨"fallback_method", true⟩,
       ⟨"status_callback", true⟩, ⟨"mms_converter", true⟩, ⟨"smart_encoding", true⟩,
       ⟨"sticky_sender", true⟩, ⟨"fallback_to_long_code", true⟩,
       ⟨"area_code_geomatch", true⟩, ⟨"validity_period", true⟩,
       ⟨"synchronous_validation", true⟩] ∧
    (emptyServiceRecord.Set "account_sid" (.str otherService.AccountSid)).err =
      some "Invalid address to set: account_sid" := by
  decide

/-! ## Phone-number lifecycle -/

theorem Values.get_Set (p : Values) (k k2 v : String) :
    (p.Set k v).get k2 = if k2 = k then some [v] else p.get k2 := by
  unfold Values.get
  induction p with
  | nil =>
    by_cases h : k2 = k
    · subst h; simp [Values.Set, lookup_cons_eq]
    · simp [Values.Set, lookup_cons_ne _ _ _ _ h, h]
  | cons kv rest ih =>
    obtain ⟨k1, vs⟩ := kv
    by_cases h1 : k1 = k
    · subst h1
      by_cases h : k2 = k1
      · subst h; simp [Values.Set, lookup_cons_eq]
      · simp [Values.Set, lookup_cons_ne _ _ _ _ h, h]
    · have h1b : k ≠ k1 := fun e => h1 e.symm
      by_cases h : k2 = k
      · subst h
        simp [Values.Set, h1, lookup_cons_ne _ _ _ _ h1b, ih]
      · by_cases h2 : k2 = k1
        · subst h2; simp [Values.Set, h1, lookup_cons_eq, h]
        · simp [Values.Set, h1, lookup_cons_ne _ _ _ _ h2, ih, h]

theorem length_pos_iff_ne_empty (s : String) : s.length > 0 ↔ s ≠ "" := by
  constructor
  · intro h e
    subst e
    exact absurd h (by decide)
  · intro h
    apply Nat.pos_of_ne_zero
    intro e
    apply h
    exact String.ext (List.length_eq_zero.mp e)

/-- The keys of the availability filter: `AreaCode` is there exactly when
`area_code` is non-empty, `Contains` exactly when `search` is. -/
theorem availabilitySearchParams_get (d : ResourceData) :
    (availabilitySearchParams d).get "AreaCode" =
      (if (d.Get "area_code").asString = "" then none
       else some [(d.Get "area_code").asString]) ∧
    (availabilitySearchParams d).get "Contains" =
      (if (d.Get "search").asString = "" then none
       else some [(d.Get "search").asString]) := by
  unfold availabilitySearchParams
  dsimp only
  by_cases ha : (d.Get "area_code").asString = "" <;>
    by_cases hs : (d.Get "search").asString = "" <;>
    simp [ha, hs, Values.get_Set, get_nil, length_pos_iff_ne_empty]

/-- C13. Phone-number Create, empty availability result: when the search
succeeds with zero numbers, Create returns the error
`No numbers found that match your search`, its only remote call is the search
(no purchase, no attach), and the record is left as it was: an empty id stays
empty. -/
theorem resourceTwilioPhoneNumberCreate_no_numbers (d : ResourceData) (client : Client)
    (hsearch : client.AvailableNumbersLocalGetPage (d.Get "country_code").asString
      (availabilitySearchParams d) = .ok []) :
    (resourceTwilioPhoneNumberCreate d client).err =
      some "No numbers found that match your search" ∧
    (resourceTwilioPhoneNumberCreate d client).calls =
      [.AvailableNumbersLocalGetPage (d.Get "country_code").asString
        (availabilitySearchParams d)] ∧
    (∀ c ∈ (resourceTwilioPhoneNumberCreate d client).calls,
      (∀ p, c ≠ .IncomingNumbersCreate p) ∧
      (∀ s p, c ≠ .MessageServicesCreatePhoneNumber s p)) ∧
    (resourceTwilioPhoneNumberCreate d client).d = d ∧
    (d.id = "" → (resourceTwilioPhoneNumberCreate d client).d.id = "") := by
  have hrun : resourceTwilioPhoneNumberCreate d client =
      { d := d, err := some "No numbers found that match your search",
        calls := [.AvailableNumbersLocalGetPage (d.Get "country_code").asString
          (availabilitySearchParams d)] } := by
    unfold resourceTwilioPhoneNumberCreate
    simp only [hsearch]
  rw [hrun]
  refine ⟨rfl, rfl, ?_, rfl, fun h => h⟩
  intro c hc
  simp only [List.mem_singleton] at hc
  subst hc
  exact ⟨fun p h => (by cases h), fun s p h => (by cases h)⟩

/-- Witness for C13: a new record against a client whose search finds nothing. -/
theorem resourceTwilioPhoneNumberCreate_no_numbers_witness :
    (numberClient [] boughtNumber none none).AvailableNumbersLocalGetPage
      (newNumberRecord.Get "country_code").asString
      (availabilitySearchParams newNumberRecord) = .ok [] ∧
    (resourceTwilioPhoneNumberCreate newNumberRecord
      (numberClient [] boughtNumber none none)).err =
      some "No numbers found that match your search" ∧
    (resourceTwilioPhoneNumberCreate newNumberRecord
      (numberClient [] boughtNumber none none)).calls =
      [.AvailableNumbersLocalGetPage "US" [("AreaCode", ["415"])]] ∧
    (resourceTwilioPhoneNumberCreate newNumberRecord
      (numberClient [] boughtNumber none none)).d.id = "" :=
  have h := resourceTwilioPhoneNumberCreate_no_numbers newNumberRecord
    (numberClient [] boughtNumber none none) (by rfl)
  ⟨by rfl, h.1, h.2.1, h.2.2.2.2 (by rfl)⟩

/-- C14. Phone-number Create purchases the first search result: the search is
issued with the record's `country_code` and a filter holding `AreaCode`
exactly when `area_code` is non-empty and `Contains` exactly when `search` is;
on a non-empty result the second call is the purchase, with the parameters of
`makeCreateRequestPayload` in which `PhoneNumber` is set to the number of the
first result, and no other call of the run is a purchase. -/
theorem resourceTwilioPhoneNumberCreate_buys_first (d : ResourceData) (client : Client)
    (number : AvailableNumber) (rest : List AvailableNumber)
    (hsearch : client.AvailableNumbersLocalGetPage (d.Get "country_code").asString
      (availabilitySearchParams d) = .ok (number :: rest)) :
    (resourceTwilioPhoneNumberCreate d client).calls.take 2 =
      [.AvailableNumbersLocalGetPage (d.Get "country_code").asString
         (availabilitySearchParams d),
       .IncomingNumbersCreate
         ((makeCreateRequestPayload d).Set "PhoneNumber" number.PhoneNumber)] ∧
    (∀ c ∈ (resourceTwilioPhoneNumberCreate d client).calls.drop 2,
      ∀ p, c ≠ .IncomingNumbersCreate p) ∧
    ((makeCreateRequestPayload d).Set "PhoneNumber" number.PhoneNumber).get "PhoneNumber" =
      some [number.PhoneNumber] ∧
    (∀ key, key ≠ "PhoneNumber" →
      ((makeCreateRequestPayload d).Set "PhoneNumber" number.PhoneNumber).get key =
        (makeCreateRequestPayload d).get key) ∧
    (availabilitySearchParams d).get "AreaCode" =
      (if (d.Get "area_code").asString = "" then none
       else some [(d.Get "area_code").asString]) ∧
    (availabilitySearchParams d).get "Contains" =
      (if (d.Get "search").asString = "" then none
       else some [(d.Get "search").asString]) := by
  refine ⟨?_, ?_, ?_, ?_, (availabilitySearchParams_get d).1, (availabilitySearchParams_get d).2⟩
  · unfold resourceTwilioPhoneNumberCreate
    simp only [hsearch]
    split
    · rfl
    · split
      · rfl
      · split
        · split <;> rfl
        · rfl
  · unfold resourceTwilioPhoneNumberCreate
    simp only [hsearch]
    split
    · intro c hc; cases hc
    · split
      · intro c hc; cases hc
      · split
        · split
          · intro c hc p
            simp only [List.drop_succ_cons, List.drop_zero, List.mem_singleton] at hc
            subst hc
            intro h; cases h
          · intro c hc p
            simp only [List.drop_succ_cons, List.drop_zero, List.mem_singleton] at hc
            subst hc
            intro h; cases h
        · intro c hc; cases hc
  · simp [Values.get_Set]
  · intro key hkey
    simp [Values.get_Set, hkey]

/-- Witness for C14: two numbers on offer; the first is the one purchased. -/
theorem resourceTwilioPhoneNumberCreate_buys_first_witness :
    (numberClient twoAvailable boughtNumber none none).AvailableNumbersLocalGetPage
      (newNumberRecord.Get "country_code").asString
      (availabilitySearchParams newNumberRecord) =
      .ok ({ PhoneNumber := "+14155550001" } :: [{ PhoneNumber := "+14155550002" }]) ∧
    (resourceTwilioPhoneNumberCreate newNumberRecord
      (numberClient twoAvailable boughtNumber none none)).calls =
      [.AvailableNumbersLocalGetPage "US" [("AreaCode", ["415"])],
       .IncomingNumbersCreate [("FriendlyName", ["office"]), ("PhoneNumber", ["+14155550001"])]] ∧
    (resourceTwilioPhoneNumberCreate newNumberRecord
      (numberClient twoAvailable boughtNumber none none)).calls.take 2 =
      [.AvailableNumbersLocalGetPage "US" [("AreaCode", ["415"])],
       .IncomingNumbersCreate [("FriendlyName", ["office"]), ("PhoneNumber", ["+14155550001"])]] :=
  ⟨by rfl, by decide,
    (resourceTwilioPhoneNumberCreate_buys_first newNumberRecord
      (numberClient twoAvailable boughtNumber none none)
      { PhoneNumber := "+14155550001" } [{ PhoneNumber := "+14155550002" }] (by rfl)).1⟩

theorem HasChange_of_ne (d : ResourceData) (key : String) (old new : Value)
    (h : d.GetChange key = (old, new)) (hne : old ≠ new) : d.HasChange key = true := by
  unfold ResourceData.HasChange
  rw [h]
  exact decide_eq_true hne

theorem detachBlock_ok (client : Client) (serviceId sid : String) (hne : serviceId ≠ "")
    (h : client.MessageServicesDeletePhoneNumber serviceId sid = none) :
    detachBlock client serviceId sid =
      (none, [.MessageServicesDeletePhoneNumber serviceId sid]) := by
  unfold detachBlock
  rw [if_pos ((length_pos_iff_ne_empty _).mpr hne), h]

theorem detachBlock_error (client : Client) (serviceId sid e : String) (hne : serviceId ≠ "")
    (h : client.MessageServicesDeletePhoneNumber serviceId sid = some e) :
    detachBlock client serviceId sid =
      (some ("Encountered error removing phone number with SID " ++ sid ++
        " from messaging service with SID " ++ serviceId ++ ": " ++ e),
       [.MessageServicesDeletePhoneNumber serviceId sid]) := by
  unfold detachBlock
  rw [if_pos ((length_pos_iff_ne_empty _).mpr hne), h]

theorem attachBlock_ok (client : Client) (serviceId sid : String) (hne : serviceId ≠ "")
    (h : client.MessageServicesCreatePhoneNumber serviceId sid = none) :
    attachBlock client serviceId sid =
      (none, [.MessageServicesCreatePhoneNumber serviceId sid]) := by
  unfold attachBlock
  rw [if_pos ((length_pos_iff_ne_empty _).mpr hne), h]

/-- C17. Phone-number Update ordering: when `service_sid` changed from a
non-empty `A` to a non-empty `B` and the three remote calls succeed, the calls
issued are exactly the update of the number, then the detach from `A`, then
the attach to `B`, and Update returns no error. -/
theorem resourceTwilioPhoneNumberUpdate_detach_then_attach (d : ResourceData)
    (client : Client) (A B : String) (updated : IncomingPhoneNumber)
    (hchange : d.GetChange "service_sid" = (.str A, .str B))
    (hA : A ≠ "") (hB : B ≠ "") (hAB : A ≠ B)
    (hupdate : client.IncomingNumbersUpdate d.Id (makeCreateRequestPayload d) = .ok updated)
    (hdetach : client.MessageServicesDeletePhoneNumber A d.Id = none)
    (hattach : client.MessageServicesCreatePhoneNumber B d.Id = none) :
    (resourceTwilioPhoneNumberUpdate d client).calls =
      [.IncomingNumbersUpdate d.Id (makeCreateRequestPayload d),
       .MessageServicesDeletePhoneNumber A d.Id,
       .MessageServicesCreatePhoneNumber B d.Id] ∧
    (resourceTwilioPhoneNumberUpdate d client).err = none := by
  have hhas : d.HasChange "service_sid" = true :=
    HasChange_of_ne d _ _ _ hchange (fun e => hAB (by injection e))
  have hd := detachBlock_ok client A d.Id hA hdetach
  have ha := attachBlock_ok client B d.Id hB hattach
  have hrun : resourceTwilioPhoneNumberUpdate d client =
      { d := d, err := none,
        calls := [.IncomingNumbersUpdate d.Id (makeCreateRequestPayload d),
          .MessageServicesDeletePhoneNumber A d.Id,
          .MessageServicesCreatePhoneNumber B d.Id] } := by
    unfold resourceTwilioPhoneNumberUpdate
    simp only [hupdate, hhas, hchange, castToString, hd, ha, if_true]
    rfl
  rw [hrun]
  exact ⟨rfl, rfl⟩

/-- Witness for C17: `service_sid` changes from `SVC1` to `SVC2`. -/
theorem resourceTwilioPhoneNumberUpdate_detach_then_attach_witness :
    changedServiceRecord.GetChange "service_sid" = (.str "SVC1", .str "SVC2") ∧
    (resourceTwilioPhoneNumberUpdate changedServiceRecord
      (numberClient [] boughtNumber none none)).calls =
      [.IncomingNumbersUpdate "PN9" [],
       .MessageServicesDeletePhoneNumber "SVC1" "PN9",
       .MessageServicesCreatePhoneNumber "SVC2" "PN9"] ∧
    (resourceTwilioPhoneNumberUpdate changedServiceRecord
      (numberClient [] boughtNumber none none)).err = none :=
  ⟨by rfl,
    resourceTwilioPhoneNumberUpdate_detach_then_attach changedServiceRecord
      (numberClient [] boughtNumber none none) "SVC1" "SVC2" boughtNumber
      (by rfl) (by decide) (by decide) (by decide) (by rfl) (by rfl) (by rfl)⟩

/-- C18, as the claim states it, fails: `service_sid` changes from `SVC1` to
`SVC2`, the detach from `SVC1` fails with a not-found error and the attach
would succeed; Update returns an error and the attach is not attempted. -/
theorem resourceTwilioPhoneNumberUpdate_detach_not_found :
    changedServiceRecord.GetChange "service_sid" = (.str "SVC1", .str "SVC2") ∧
    (numberClient [] boughtNumber none (some "not found")).MessageServicesCreatePhoneNumber
      "SVC2" "PN9" = none ∧
    (resourceTwilioPhoneNumberUpdate changedServiceRecord
      (numberClient [] boughtNumber none (some "not found"))).err =
      some ("Encountered error removing phone number with SID PN9 from messaging service " ++
        "with SID SVC1: not found") ∧
    (resourceTwilioPhoneNumberUpdate changedServiceRecord
      (numberClient [] boughtNumber none (some "not found"))).calls =
      [.IncomingNumbersUpdate "PN9" [], .MessageServicesDeletePhoneNumber "SVC1" "PN9"] := by
  decide

/-- C18, amended. A failed detach is fatal to Update, whatever its error says:
when `service_sid` changed from a non-empty `A` and the detach from `A` fails,
Update returns an error that names the phone number, the service `A` and the
detach error, and its calls are the update of the number and the detach only;
no attach is attempted. -/
theorem resourceTwilioPhoneNumberUpdate_detach_failure_fatal (d : ResourceData)
    (client : Client) (A B e : String) (updated : IncomingPhoneNumber)
    (hchange : d.GetChange "service_sid" = (.str A, .str B))
    (hA : A ≠ "") (hAB : A ≠ B)
    (hupdate : client.IncomingNumbersUpdate d.Id (makeCreateRequestPayload d) = .ok updated)
    (hdetach : client.MessageServicesDeletePhoneNumber A d.Id = some e) :
    (resourceTwilioPhoneNumberUpdate d client).err =
      some ("Encountered error removing phone number with SID " ++ d.Id ++
        " from messaging service with SID " ++ A ++ ": " ++ e) ∧
    (resourceTwilioPhoneNumberUpdate d client).calls =
      [.IncomingNumbersUpdate d.Id (makeCreateRequestPayload d),
       .MessageServicesDeletePhoneNumber A d.Id] ∧
    (∀ c ∈ (resourceTwilioPhoneNumberUpdate d client).calls,
      ∀ s p, c ≠ .MessageServicesCreatePhoneNumber s p) := by
  have hhas : d.HasChange "service_sid" = true :=
    HasChange_of_ne d _ _ _ hchange (fun h => hAB (by injection h))
  have hd := detachBlock_error client A d.Id e hA hdetach
  have hrun : resourceTwilioPhoneNumberUpdate d client =
      { d := d,
        err := some ("Encountered error removing phone number with SID " ++ d.Id ++
          " from messaging service with SID " ++ A ++ ": " ++ e),
        calls := [.IncomingNumbersUpdate d.Id (makeCreateRequestPayload d),
          .MessageServicesDeletePhoneNumber A d.Id] } := by
    unfold resourceTwilioPhoneNumberUpdate
    simp only [hupdate, hhas, hchange, castToString, hd, if_true]
  rw [hrun]
  refine ⟨rfl, rfl, ?_⟩
  intro c hc s p
  simp only [List.mem_cons, List.mem_singleton, List.not_mem_nil, or_false] at hc
  rcases hc with hc | hc <;> subst hc <;> intro h <;> cases h

/-- Witness for C18, amended: the detach from `SVC1` fails with `not found`. -/
theorem resourceTwilioPhoneNumberUpdate_detach_failure_fatal_witness :
    changedServiceRecord.GetChange "service_sid" = (.str "SVC1", .str "SVC2") ∧
    (numberClient [] boughtNumber none (some "not found")).MessageServicesDeletePhoneNumber
      "SVC1" changedServiceRecord.Id = some "not found" ∧
    (resourceTwilioPhoneNumberUpdate changedServiceRecord
      (numberClient [] boughtNumber none (some "not found"))).calls =
      [.IncomingNumbersUpdate "PN9" [], .MessageServicesDeletePhoneNumber "SVC1" "PN9"] :=
  ⟨by rfl, by rfl,
    (resourceTwilioPhoneNumberUpdate_detach_failure_fatal changedServiceRecord
      (numberClient [] boughtNumber none (some "not found")) "SVC1" "SVC2" "not found"
      boughtNumber (by rfl) (by decide) (by decide) (by rfl) (by rfl)).2.1⟩

/-- C19. Phone-number Delete reads the key `service_id`, which the schema does
not declare, so it never detaches: on the record whose `service_sid` is `MG1`
the only call is the release of the number, whatever the client answers. -/
theorem resourceTwilioPhoneNumberDelete_never_detaches (client : Client) :
    attachedNumberRecord.Get "service_sid" = .str "MG1" ∧
    attachedNumberRecord.Get "service_id" = .nil ∧
    (resourceTwilioPhoneNumberDelete attachedNumberRecord client).calls =
      [.IncomingNumbersRelease "PN9"] := by
  refine ⟨by decide, by decide, ?_⟩
  have hd : detachBlock client (castToString (attachedNumberRecord.Get "service_id"))
      attachedNumberRecord.Id = (none, []) := by rfl
  unfold resourceTwilioPhoneNumberDelete
  simp only [hd]
  split <;> rfl

/-- C20. Subaccount Delete is a status transition: its one remote call is
`Accounts.Update` on the record's id with the single parameter `status` set to
`closed`; it returns an error exactly when that call fails, and it leaves the
record as it was. -/
theorem resourceTwilioSubaccountDelete_closes (d : ResourceData) (client : Client) :
    (resourceTwilioSubaccountDelete d client).calls =
      [.AccountsUpdate d.Id [("status", ["closed"])]] ∧
    flattenSubaccountForDelete d = [("status", ["closed"])] ∧
    ((resourceTwilioSubaccountDelete d client).err ≠ none ↔
      ∃ e, client.AccountsUpdate d.Id [("status", ["closed"])] = .error e) ∧
    (∀ e, client.AccountsUpdate d.Id [("status", ["closed"])] = .error e →
      (resourceTwilioSubaccountDelete d client).err =
        some ("Failed to delete account: " ++ e)) ∧
    (resourceTwilioSubaccountDelete d client).d = d := by
  have hflat : flattenSubaccountForDelete d = [("status", ["closed"])] := rfl
  unfold resourceTwilioSubaccountDelete
  simp only [hflat]
  cases h : client.AccountsUpdate d.Id [("status", ["closed"])] with
  | error e => simp
  | ok a => simp

theorem Set_schema (d : ResourceData) (key : String) (value : Value) :
    (d.Set key value).d.schema = d.schema := by
  unfold ResourceData.Set
  split <;> rfl

/-- An assignment the schema `S` accepts succeeds on every record of that
schema. -/
theorem Set_good (S : List (String × ValueType)) (d : ResourceData) (key : String)
    (value : Value) (hS : d.schema = S)
    (ha : ResourceData.setError { schema := S } key value = none) :
    (d.Set key value).d.schema = S ∧ (d.Set key value).err = none := by
  refine ⟨(Set_schema d key value).trans hS, ?_⟩
  have he : d.setError key value = none := by
    unfold ResourceData.setError at ha ⊢
    rw [hS]
    exact ha
  unfold ResourceData.Set
  rw [he]

theorem thenSet_good (S : List (String × ValueType)) (r : SetResult) (key : String)
    (value : Value) (h : r.d.schema = S ∧ r.err = none)
    (ha : ResourceData.setError { schema := S } key value = none) :
    (r.thenSet key value).d.schema = S ∧ (r.thenSet key value).err = none := by
  unfold SetResult.thenSet
  rw [if_pos h.2]
  exact Set_good S r.d key value h.1 ha

theorem thenSetIf_good (S : List (String × ValueType)) (r : SetResult) (cond : Bool)
    (key : String) (value : Value) (h : r.d.schema = S ∧ r.err = none)
    (ha : ResourceData.setError { schema := S } key value = none) :
    (r.thenSetIf cond key value).d.schema = S ∧ (r.thenSetIf cond key value).err = none := by
  unfold SetResult.thenSetIf
  split
  · exact Set_good S r.d key value h.1 ha
  · exact h

theorem alwaysSetIf_good (S : List (String × ValueType)) (r : SetResult) (cond : Bool)
    (key : String) (value : Value) (h : r.d.schema = S ∧ r.err = none)
    (ha : ResourceData.setError { schema := S } key value = none) :
    (r.alwaysSetIf cond key value).d.schema = S ∧ (r.alwaysSetIf cond key value).err = none := by
  unfold SetResult.alwaysSetIf
  split
  · exact Set_good S r.d key value h.1 ha
  · exact h

/-- On a record of the phone-number schema the phone-number decoder returns no
error: the schema declares every field it assigns, with the type assigned. -/
theorem mapTwilioPhoneNumberToTerraform_good (ph : IncomingPhoneNumber) (d : ResourceData)
    (h : d.schema = phoneNumberSchema) :
    (mapTwilioPhoneNumberToTerraform ph d).d.schema = phoneNumberSchema ∧
    (mapTwilioPhoneNumberToTerraform ph d).err = none := by
  unfold mapTwilioPhoneNumberToTerraform
  dsimp only
  repeat first
    | refine thenSet_good _ _ _ _ ?_ rfl
    | refine thenSetIf_good _ _ _ _ _ ?_ rfl
    | refine alwaysSetIf_good _ _ _ _ _ ?_ rfl
  exact Set_good _ _ _ _ h rfl

/-- What Create does after a successful purchase, on a record of the
phone-number resource: with a non-empty `service_sid` it issues the attach
call as its third and last call and returns an error exactly when that call
fails; with an empty one it stops after the purchase. In both cases the id is
the purchased Sid. -/
theorem create_after_purchase (d : ResourceData) (client : Client)
    (number : AvailableNumber) (rest : List AvailableNumber) (bought : IncomingPhoneNumber)
    (hschema : d.schema = phoneNumberSchema)
    (hsearch : client.AvailableNumbersLocalGetPage (d.Get "country_code").asString
      (availabilitySearchParams d) = .ok (number :: rest))
    (hbuy : client.IncomingNumbersCreate
      ((makeCreateRequestPayload d).Set "PhoneNumber" number.PhoneNumber) = .ok bought) :
    (castToString (d.Get "service_sid") ≠ "" →
      (resourceTwilioPhoneNumberCreate d client).calls =
        [.AvailableNumbersLocalGetPage (d.Get "country_code").asString
           (availabilitySearchParams d),
         .IncomingNumbersCreate
           ((makeCreateRequestPayload d).Set "PhoneNumber" number.PhoneNumber),
         .MessageServicesCreatePhoneNumber (castToString (d.Get "service_sid")) bought.Sid] ∧
      (resourceTwilioPhoneNumberCreate d client).d.id = bought.Sid ∧
      (∀ e, client.MessageServicesCreatePhoneNumber (castToString (d.Get "service_sid"))
          bought.Sid = some e →
        (resourceTwilioPhoneNumberCreate d client).err =
          some ("Encountered error adding phone number with SID " ++ bought.Sid ++
            " to messaging service with SID " ++ castToString (d.Get "service_sid") ++
            ": " ++ e)) ∧
      (client.MessageServicesCreatePhoneNumber (castToString (d.Get "service_sid"))
          bought.Sid = none →
        (resourceTwilioPhoneNumberCreate d client).err = none)) ∧
    (castToString (d.Get "service_sid") = "" →
      (resourceTwilioPhoneNumberCreate d client).calls =
        [.AvailableNumbersLocalGetPage (d.Get "country_code").asString
           (availabilitySearchParams d),
         .IncomingNumbersCreate
           ((makeCreateRequestPayload d).Set "PhoneNumber" number.PhoneNumber)] ∧
      (resourceTwilioPhoneNumberCreate d client).d.id = bought.Sid ∧
      (resourceTwilioPhoneNumberCreate d client).err = none) := by
  have h1 : ((d.SetId bought.Sid).Set "number" (.str number.PhoneNumber)).d.schema =
      phoneNumberSchema := (Set_schema _ _ _).trans hschema
  have hgood := mapTwilioPhoneNumberToTerraform_good bought
    ((d.SetId bought.Sid).Set "number" (.str number.PhoneNumber)).d h1
  have hid : (mapTwilioPhoneNumberToTerraform bought
      ((d.SetId bought.Sid).Set "number" (.str number.PhoneNumber)).d).d.id = bought.Sid := by
    rw [mapTwilioPhoneNumberToTerraform_id, Set_id]
    rfl
  constructor
  · intro hne
    have hlen : (castToString (d.Get "service_sid")).length > 0 :=
      (length_pos_iff_ne_empty _).mpr hne
    cases hattach : client.MessageServicesCreatePhoneNumber
        (castToString (d.Get "service_sid")) bought.Sid with
    | none =>
      have hrun : resourceTwilioPhoneNumberCreate d client =
          { d := ((mapTwilioPhoneNumberToTerraform bought
              ((d.SetId bought.Sid).Set "number" (.str number.PhoneNumber)).d).d.Set
                "service_sid" (.str (castToString (d.Get "service_sid")))).d,
            err := none,
            calls := [.AvailableNumbersLocalGetPage (d.Get "country_code").asString
                (availabilitySearchParams d),
              .IncomingNumbersCreate
                ((makeCreateRequestPayload d).Set "PhoneNumber" number.PhoneNumber),
              .MessageServicesCreatePhoneNumber (castToString (d.Get "service_sid"))
                bought.Sid] } := by
        unfold resourceTwilioPhoneNumberCreate
        simp only [hsearch, hbuy, hgood.2, hlen, if_true, hattach]
      rw [hrun]
      refine ⟨rfl, ?_, ?_, fun _ => rfl⟩
      · simp only [Set_id, hid]
      · intro e he
        cases he
    | some e0 =>
      have hrun : resourceTwilioPhoneNumberCreate d client =
          { d := (mapTwilioPhoneNumberToTerraform bought
              ((d.SetId bought.Sid).Set "number" (.str number.PhoneNumber)).d).d,
            err := some ("Encountered error adding phone number with SID " ++ bought.Sid ++
              " to messaging service with SID " ++ castToString (d.Get "service_sid") ++
              ": " ++ e0),
            calls := [.AvailableNumbersLocalGetPage (d.Get "country_code").asString
                (availabilitySearchParams d),
              .IncomingNumbersCreate
                ((makeCreateRequestPayload d).Set "PhoneNumber" number.PhoneNumber),
              .MessageServicesCreatePhoneNumber (castToString (d.Get "service_sid"))
                bought.Sid] } := by
        unfold resourceTwilioPhoneNumberCreate
        simp only [hsearch, hbuy, hgood.2, hlen, if_true, hattach]
      rw [hrun]
      refine ⟨rfl, hid, ?_, ?_⟩
      · intro e he
        cases he
        rfl
      · intro he
        cases he
  · intro hempty
    have hlen : ¬ (castToString (d.Get "service_sid")).length > 0 := by
      rw [hempty]
      decide
    have hrun : resourceTwilioPhoneNumberCreate d client =
        { d := (mapTwilioPhoneNumberToTerraform bought
            ((d.SetId bought.Sid).Set "number" (.str number.PhoneNumber)).d).d,
          err := none,
          calls := [.AvailableNumbersLocalGetPage (d.Get "country_code").asString
              (availabilitySearchParams d),
            .IncomingNumbersCreate
              ((makeCreateRequestPayload d).Set "PhoneNumber" number.PhoneNumber)] } := by
      unfold resourceTwilioPhoneNumberCreate
      simp only [hsearch, hbuy, hgood.2, hlen, if_false]
    rw [hrun]
    exact ⟨rfl, hid, rfl⟩

/-- C15. Phone-number Create with a declared `service_sid`, on a record of the
phone-number resource: after a successful purchase the attach call for
`service_sid` and the purchased Sid is issued, once, as the third and last
call; if it fails Create returns an error while the record's id is the
purchased Sid. With an empty `service_sid` the search and the purchase are the
only calls. -/
theorem resourceTwilioPhoneNumberCreate_attach (d : ResourceData) (client : Client)
    (number : AvailableNumber) (rest : List AvailableNumber) (bought : IncomingPhoneNumber)
    (hschema : d.schema = phoneNumberSchema)
    (hsearch : client.AvailableNumbersLocalGetPage (d.Get "country_code").asString
      (availabilitySearchParams d) = .ok (number :: rest))
    (hbuy : client.IncomingNumbersCreate
      ((makeCreateRequestPayload d).Set "PhoneNumber" number.PhoneNumber) = .ok bought) :
    (castToString (d.Get "service_sid") ≠ "" →
      (resourceTwilioPhoneNumberCreate d client).calls =
        [.AvailableNumbersLocalGetPage (d.Get "country_code").asString
           (availabilitySearchParams d),
         .IncomingNumbersCreate
           ((makeCreateRequestPayload d).Set "PhoneNumber" number.PhoneNumber),
         .MessageServicesCreatePhoneNumber (castToString (d.Get "service_sid")) bought.Sid] ∧
      (resourceTwilioPhoneNumberCreate d client).d.id = bought.Sid ∧
      (∀ e, client.MessageServicesCreatePhoneNumber (castToString (d.Get "service_sid"))
          bought.Sid = some e →
        (resourceTwilioPhoneNumberCreate d client).err =
          some ("Encountered error adding phone number with SID " ++ bought.Sid ++
            " to messaging service with SID " ++ castToString (d.Get "service_sid") ++
            ": " ++ e)) ∧
      (client.MessageServicesCreatePhoneNumber (castToString (d.Get "service_sid"))
          bought.Sid = none →
        (resourceTwilioPhoneNumberCreate d client).err = none)) ∧
    (castToString (d.Get "service_sid") = "" →
      (resourceTwilioPhoneNumberCreate d client).calls =
        [.AvailableNumbersLocalGetPage (d.Get "country_code").asString
           (availabilitySearchParams d),
         .IncomingNumbersCreate
           ((makeCreateRequestPayload d).Set "PhoneNumber" number.PhoneNumber)] ∧
      (resourceTwilioPhoneNumberCreate d client).d.id = bought.Sid ∧
      (resourceTwilioPhoneNumberCreate d client).err = none) :=
  create_after_purchase d client number rest bought hschema hsearch hbuy

/-- Witness for C15: the record declares `MG1` and the attach call fails. -/
theorem resourceTwilioPhoneNumberCreate_attach_witness :
    newNumberWithServiceRecord.schema = phoneNumberSchema ∧
    castToString (newNumberWithServiceRecord.Get "service_sid") ≠ "" ∧
    (resourceTwilioPhoneNumberCreate newNumberWithServiceRecord
      (numberClient twoAvailable boughtNumber (some "boom") none)).calls =
      [.AvailableNumbersLocalGetPage "US" [],
       .IncomingNumbersCreate [("PhoneNumber", ["+14155550001"])],
       .MessageServicesCreatePhoneNumber "MG1" "PN9"] ∧
    (resourceTwilioPhoneNumberCreate newNumberWithServiceRecord
      (numberClient twoAvailable boughtNumber (some "boom") none)).d.id = "PN9" ∧
    (resourceTwilioPhoneNumberCreate newNumberWithServiceRecord
      (numberClient twoAvailable boughtNumber (some "boom") none)).err =
      some ("Encountered error adding phone number with SID PN9 to messaging service " ++
        "with SID MG1: boom") :=
  have h := (resourceTwilioPhoneNumberCreate_attach newNumberWithServiceRecord
    (numberClient twoAvailable boughtNumber (some "boom") none)
    { PhoneNumber := "+14155550001" } [{ PhoneNumber := "+14155550002" }] boughtNumber
    (by rfl) (by rfl) (by rfl)).1 (by decide)
  ⟨by rfl, by decide, h.1, h.2.1, h.2.2.1 "boom" (by rfl)⟩

/-- C16, as the claim states it, fails for Create: with `service_sid = MG1`
declared and an attach call answering that the number is already in the
Messaging Service, Create returns an error, while Update with the same answer
to the same attach returns none. -/
theorem resourceTwilioPhoneNumberCreate_already_associated_is_error :
    stringsContains alreadyAttachedError "already in the Messaging Service" = true ∧
    (resourceTwilioPhoneNumberCreate newNumberWithServiceRecord
      (numberClient twoAvailable boughtNumber (some alreadyAttachedError) none)).err =
      some ("Encountered error adding phone number with SID PN9 to messaging service " ++
        "with SID MG1: Phone Number or Short Code is already in the Messaging Service.") ∧
    (resourceTwilioPhoneNumberCreate newNumberWithServiceRecord
      (numberClient twoAvailable boughtNumber (some alreadyAttachedError) none)).calls =
      [.AvailableNumbersLocalGetPage "US" [],
       .IncomingNumbersCreate [("PhoneNumber", ["+14155550001"])],
       .MessageServicesCreatePhoneNumber "MG1" "PN9"] ∧
    (resourceTwilioPhoneNumberUpdate newlyAttachedRecord
      (numberClient twoAvailable boughtNumber (some alreadyAttachedError) none)).err = none ∧
    (resourceTwilioPhoneNumberUpdate newlyAttachedRecord
      (numberClient twoAvailable boughtNumber (some alreadyAttachedError) none)).calls =
      [.IncomingNumbersUpdate "PN9" [], .MessageServicesCreatePhoneNumber "MG1" "PN9"] := by
  decide

/-! ## Timestamps -/

theorem thenSetIf_false (r : SetResult) (key : String) (value : Value) :
    r.thenSetIf false key value = r := by
  simp [SetResult.thenSetIf]

theorem alwaysSetIf_false (r : SetResult) (key : String) (value : Value) :
    r.alwaysSetIf false key value = r := by
  simp [SetResult.alwaysSetIf]

theorem thenSetIf_get_ne (r : SetResult) (cond : Bool) (key key2 : String) (value : Value)
    (h : key2 ≠ key) : (r.thenSetIf cond key value).d.Get key2 = r.d.Get key2 := by
  unfold SetResult.thenSetIf
  split
  · exact Set_get_ne _ _ _ _ h
  · rfl

theorem alwaysSetIf_get_ne (r : SetResult) (cond : Bool) (key key2 : String) (value : Value)
    (h : key2 ≠ key) : (r.alwaysSetIf cond key value).d.Get key2 = r.d.Get key2 := by
  unfold SetResult.alwaysSetIf
  split
  · exact Set_get_ne _ _ _ _ h
  · rfl

theorem Set_avoids (K : String) (t0 : List SetAttempt) (d : ResourceData) (key : String)
    (value : Value) (hk : key ≠ K)
    (h : ∃ new, d.trace = t0 ++ new ∧ ∀ a ∈ new, a.key ≠ K) :
    ∃ new2, (d.Set key value).d.trace = t0 ++ new2 ∧ ∀ a ∈ new2, a.key ≠ K := by
  obtain ⟨new, hn, hall⟩ := h
  unfold ResourceData.Set
  split
  · refine ⟨new ++ [⟨key, false⟩], by simp [hn], ?_⟩
    intro a ha
    simp only [List.mem_append, List.mem_singleton] at ha
    rcases ha with ha | ha
    · exact hall a ha
    · subst ha; exact hk
  · refine ⟨new ++ [⟨key, true⟩], by simp [hn], ?_⟩
    intro a ha
    simp only [List.mem_append, List.mem_singleton] at ha
    rcases ha with ha | ha
    · exact hall a ha
    · subst ha; exact hk

theorem thenSet_avoids (K : String) (t0 : List SetAttempt) (r : SetResult) (key : String)
    (value : Value) (hk : key ≠ K)
    (h : ∃ new, r.d.trace = t0 ++ new ∧ ∀ a ∈ new, a.key ≠ K) :
    ∃ new2, (r.thenSet key value).d.trace = t0 ++ new2 ∧ ∀ a ∈ new2, a.key ≠ K := by
  unfold SetResult.thenSet
  split
  · exact Set_avoids K t0 r.d key value hk h
  · exact h

theorem thenSetIf_avoids (K : String) (t0 : List SetAttempt) (r : SetResult) (cond : Bool)
    (key : String) (value : Value) (hk : key ≠ K)
    (h : ∃ new, r.d.trace = t0 ++ new ∧ ∀ a ∈ new, a.key ≠ K) :
    ∃ new2, (r.thenSetIf cond key value).d.trace = t0 ++ new2 ∧ ∀ a ∈ new2, a.key ≠ K := by
  unfold SetResult.thenSetIf
  split
  · exact Set_avoids K t0 r.d key value hk h
  · exact h

theorem alwaysSetIf_avoids (K : String) (t0 : List SetAttempt) (r : SetResult) (cond : Bool)
    (key : String) (value : Value) (hk : key ≠ K)
    (h : ∃ new, r.d.trace = t0 ++ new ∧ ∀ a ∈ new, a.key ≠ K) :
    ∃ new2, (r.alwaysSetIf cond key value).d.trace = t0 ++ new2 ∧ ∀ a ∈ new2, a.key ≠ K := by
  unfold SetResult.alwaysSetIf
  split
  · exact Set_avoids K t0 r.d key value hk h
  · exact h

theorem attemptsSince_avoid (K : String) (d : ResourceData) (r : SetResult)
    (h : ∃ new, r.d.trace = d.trace ++ new ∧ ∀ a ∈ new, a.key ≠ K) :
    ∀ a ∈ attemptsSince d r, a.key ≠ K := by
  obtain ⟨new, hn, hall⟩ := h
  unfold attemptsSince
  rw [hn, List.drop_left]
  exact hall

/-- An invalid `DateCreated` leaves `date_created` alone (phone number). -/
theorem phone_date_created_frame (ph : IncomingPhoneNumber) (d : ResourceData)
    (hv : ph.DateCreated.Valid = false) :
    (mapTwilioPhoneNumberToTerraform ph d).d.Get "date_created" = d.Get "date_created" ∧
    ∀ a ∈ attemptsSince d (mapTwilioPhoneNumberToTerraform ph d), a.key ≠ "date_created" := by
  constructor
  · unfold mapTwilioPhoneNumberToTerraform
    dsimp only
    rw [hv]
    simp only [thenSetIf_false, thenSet_get_ne, alwaysSetIf_get_ne, Set_get_ne, ne_eq,
      String.reduceEq, not_false_eq_true]
  · apply attemptsSince_avoid
    unfold mapTwilioPhoneNumberToTerraform
    dsimp only
    rw [hv]
    simp only [thenSetIf_false]
    repeat first
      | refine thenSet_avoids _ _ _ _ _ (by decide) ?_
      | refine alwaysSetIf_avoids _ _ _ _ _ _ (by decide) ?_
    exact Set_avoids _ _ _ _ _ (by decide) ⟨[], by simp, by simp⟩


/-- An invalid `DateUpdated` leaves `date_updated` alone (phone number). -/
theorem phone_date_updated_frame (ph : IncomingPhoneNumber) (d : ResourceData)
    (hv : ph.DateUpdated.Valid = false) :
    (mapTwilioPhoneNumberToTerraform ph d).d.Get "date_updated" = d.Get "date_updated" ∧
    ∀ a ∈ attemptsSince d (mapTwilioPhoneNumberToTerraform ph d), a.key ≠ "date_updated" := by
  constructor
  · unfold mapTwilioPhoneNumberToTerraform
    dsimp only
    rw [hv]
    simp only [alwaysSetIf_false, thenSet_get_ne, thenSetIf_get_ne, Set_get_ne, ne_eq,
      String.reduceEq, not_false_eq_true]
  · apply attemptsSince_avoid
    unfold mapTwilioPhoneNumberToTerraform
    dsimp only
    rw [hv]
    simp only [alwaysSetIf_false]
    repeat first
      | refine thenSet_avoids _ _ _ _ _ (by decide) ?_
      | refine thenSetIf_avoids _ _ _ _ _ _ (by decide) ?_
    exact Set_avoids _ _ _ _ _ (by decide) ⟨[], by simp, by simp⟩

theorem thenSet_keeps (r : SetResult) (key : String) (value : Value) (k0 : String)
    (v0 : Value) (hk : k0 ≠ key) (h : r.err = none → r.d.Get k0 = v0) :
    (r.thenSet key value).err = none → (r.thenSet key value).d.Get k0 = v0 := by
  intro he
  rw [thenSet_get_ne _ _ _ _ hk]
  exact h (thenSet_ok r key value he).1

theorem thenSetIf_keeps (r : SetResult) (cond : Bool) (key : String) (value : Value)
    (k0 : String) (v0 : Value) (hk : k0 ≠ key) (h : r.err = none → r.d.Get k0 = v0) :
    (r.thenSetIf cond key value).err = none → (r.thenSetIf cond key value).d.Get k0 = v0 := by
  intro he
  rw [thenSetIf_get_ne _ _ _ _ _ hk]
  apply h
  unfold SetResult.thenSetIf at he
  by_cases hc : r.err = none ∧ cond = true
  · exact hc.1
  · rw [if_neg hc] at he
    exact he

theorem alwaysSetIf_true_ok (r : SetResult) (key : String) (value : Value) :
    (r.alwaysSetIf true key value).err = none →
      (r.alwaysSetIf true key value).d.Get key = value := by
  unfold SetResult.alwaysSetIf
  rw [if_pos rfl]
  exact Set_get_self _ _ _

theorem thenSetIf_true_ok (r : SetResult) (key : String) (value : Value) :
    (r.thenSetIf true key value).err = none →
      (r.thenSetIf true key value).d.Get key = value := by
  unfold SetResult.thenSetIf
  by_cases hr : r.err = none
  · rw [if_pos ⟨hr, rfl⟩]
    exact Set_get_self _ _ _
  · rw [if_neg (fun h => hr h.1)]
    intro he
    exact absurd he hr

/-- A valid `DateUpdated` is what `date_updated` holds after a phone-number
decode that returns no error. -/
theorem phone_date_updated_set (ph : IncomingPhoneNumber) (d : ResourceData)
    (hv : ph.DateUpdated.Valid = true) :
    (mapTwilioPhoneNumberToTerraform ph d).err = none →
      (mapTwilioPhoneNumberToTerraform ph d).d.Get "date_updated" =
        .str ph.DateUpdated.Time.Format := by
  unfold mapTwilioPhoneNumberToTerraform
  dsimp only
  rw [hv]
  repeat refine thenSet_keeps _ _ _ _ _ (by decide) ?_
  exact alwaysSetIf_true_ok _ _ _

/-- On a record of the phone-number schema a valid `DateCreated` is what
`date_created` holds after the decode, which returns no error. -/
theorem phone_date_created_set (ph : IncomingPhoneNumber) (d : ResourceData)
    (hschema : d.schema = phoneNumberSchema) (hv : ph.DateCreated.Valid = true) :
    (mapTwilioPhoneNumberToTerraform ph d).err = none ∧
    (mapTwilioPhoneNumberToTerraform ph d).d.Get "date_created" =
      .str ph.DateCreated.Time.Format := by
  refine ⟨(mapTwilioPhoneNumberToTerraform_good ph d hschema).2, ?_⟩
  have hpre : ((((d.Set "sid" (.str ph.Sid)).thenSet "number" (.str ph.PhoneNumber)).thenSet
        "friendly_name" (.str ph.FriendlyName)).thenSet "trunk_sid"
        (.str ph.TrunkSid)).d.schema = phoneNumberSchema ∧
      ((((d.Set "sid" (.str ph.Sid)).thenSet "number" (.str ph.PhoneNumber)).thenSet
        "friendly_name" (.str ph.FriendlyName)).thenSet "trunk_sid"
        (.str ph.TrunkSid)).err = none := by
    repeat refine thenSet_good _ _ _ _ ?_ rfl
    exact Set_good _ _ _ _ hschema rfl
  have hstep := thenSetIf_good phoneNumberSchema _ true "date_created"
    (.str ph.DateCreated.Time.Format) hpre rfl
  unfold mapTwilioPhoneNumberToTerraform
  dsimp only
  rw [hv]
  simp only [thenSet_get_ne, alwaysSetIf_get_ne, ne_eq, String.reduceEq, not_false_eq_true]
  exact thenSetIf_true_ok _ _ _ hstep.2

/-- An invalid `DateCreated` leaves `date_created` alone (subaccount). -/
theorem subaccount_date_created_frame (account : Account) (d : ResourceData)
    (hv : account.DateCreated.Valid = false) :
    (mapTwilioSubaccountToTerraform account d).d.Get "date_created" = d.Get "date_created" ∧
    ∀ a ∈ attemptsSince d (mapTwilioSubaccountToTerraform account d),
      a.key ≠ "date_created" := by
  constructor
  · unfold mapTwilioSubaccountToTerraform
    dsimp only
    rw [hv]
    simp only [thenSetIf_false, thenSet_get_ne, thenSetIf_get_ne, Set_get_ne, ne_eq,
      String.reduceEq, not_false_eq_true]
  · apply attemptsSince_avoid
    unfold mapTwilioSubaccountToTerraform
    dsimp only
    rw [hv]
    simp only [thenSetIf_false]
    repeat first
      | refine thenSet_avoids _ _ _ _ _ (by decide) ?_
      | refine thenSetIf_avoids _ _ _ _ _ _ (by decide) ?_
    exact Set_avoids _ _ _ _ _ (by decide) ⟨[], by simp, by simp⟩

/-- An invalid `DateUpdated` leaves `date_updated` alone (subaccount). -/
theorem subaccount_date_updated_frame (account : Account) (d : ResourceData)
    (hv : account.DateUpdated.Valid = false) :
    (mapTwilioSubaccountToTerraform account d).d.Get "date_updated" = d.Get "date_updated" ∧
    ∀ a ∈ attemptsSince d (mapTwilioSubaccountToTerraform account d),
      a.key ≠ "date_updated" := by
  constructor
  · unfold mapTwilioSubaccountToTerraform
    dsimp only
    rw [hv]
    simp only [thenSetIf_false, thenSet_get_ne, thenSetIf_get_ne, Set_get_ne, ne_eq,
      String.reduceEq, not_false_eq_true]
  · apply attemptsSince_avoid
    unfold mapTwilioSubaccountToTerraform
    dsimp only
    rw [hv]
    simp only [thenSetIf_false]
    repeat first
      | refine thenSet_avoids _ _ _ _ _ (by decide) ?_
      | refine thenSetIf_avoids _ _ _ _ _ _ (by decide) ?_
    exact Set_avoids _ _ _ _ _ (by decide) ⟨[], by simp, by simp⟩

/-- Valid timestamps are what the two fields hold after a subaccount decode
that returns no error. -/
theorem subaccount_dates_set (account : Account) (d : ResourceData) :
    (account.DateCreated.Valid = true → (mapTwilioSubaccountToTerraform account d).err = none →
      (mapTwilioSubaccountToTerraform account d).d.Get "date_created" =
        .str account.DateCreated.Time.Format) ∧
    (account.DateUpdated.Valid = true → (mapTwilioSubaccountToTerraform account d).err = none →
      (mapTwilioSubaccountToTerraform account d).d.Get "date_updated" =
        .str account.DateUpdated.Time.Format) := by
  constructor
  · intro hv
    unfold mapTwilioSubaccountToTerraform
    dsimp only
    rw [hv]
    repeat first
      | refine thenSet_keeps _ _ _ _ _ (by decide) ?_
      | refine thenSetIf_keeps _ _ _ _ _ _ (by decide) ?_
    exact thenSetIf_true_ok _ _ _
  · intro hv
    unfold mapTwilioSubaccountToTerraform
    dsimp only
    rw [hv]
    repeat first
      | refine thenSet_keeps _ _ _ _ _ (by decide) ?_
      | refine thenSetIf_keeps _ _ _ _ _ _ (by decide) ?_
    exact thenSetIf_true_ok _ _ _


/-- Timestamp decode, for the phone-number and the subaccount decoders.
An absent or invalid `DateCreated` (resp. `DateUpdated`) leaves
`date_created` (resp. `date_updated`) as it was before the decode, and no
assignment of that field is attempted. A valid timestamp is what the field
holds, rendered by `Time.Format`, after a decode that returns no error; for
`date_created` of a phone number this is stated on the records of the
phone-number schema, where the decode always returns no error. -/
theorem timestamp_decode (ph : IncomingPhoneNumber) (account : Account) (d : ResourceData) :
    (ph.DateCreated.Valid = false →
      (mapTwilioPhoneNumberToTerraform ph d).d.Get "date_created" = d.Get "date_created" ∧
      ∀ a ∈ attemptsSince d (mapTwilioPhoneNumberToTerraform ph d), a.key ≠ "date_created") ∧
    (ph.DateUpdated.Valid = false →
      (mapTwilioPhoneNumberToTerraform ph d).d.Get "date_updated" = d.Get "date_updated" ∧
      ∀ a ∈ attemptsSince d (mapTwilioPhoneNumberToTerraform ph d), a.key ≠ "date_updated") ∧
    (ph.DateUpdated.Valid = true → (mapTwilioPhoneNumberToTerraform ph d).err = none →
      (mapTwilioPhoneNumberToTerraform ph d).d.Get "date_updated" =
        .str ph.DateUpdated.Time.Format) ∧
    (d.schema = phoneNumberSchema → ph.DateCreated.Valid = true →
      (mapTwilioPhoneNumberToTerraform ph d).err = none ∧
      (mapTwilioPhoneNumberToTerraform ph d).d.Get "date_created" =
        .str ph.DateCreated.Time.Format) ∧
    (account.DateCreated.Valid = false →
      (mapTwilioSubaccountToTerraform account d).d.Get "date_created" =
        d.Get "date_created" ∧
      ∀ a ∈ attemptsSince d (mapTwilioSubaccountToTerraform account d),
        a.key ≠ "date_created") ∧
    (account.DateUpdated.Valid = false →
      (mapTwilioSubaccountToTerraform account d).d.Get "date_updated" =
        d.Get "date_updated" ∧
      ∀ a ∈ attemptsSince d (mapTwilioSubaccountToTerraform account d),
        a.key ≠ "date_updated") ∧
    (account.DateCreated.Valid = true →
      (mapTwilioSubaccountToTerraform account d).err = none →
      (mapTwilioSubaccountToTerraform account d).d.Get "date_created" =
        .str account.DateCreated.Time.Format) ∧
    (account.DateUpdated.Valid = true →
      (mapTwilioSubaccountToTerraform account d).err = none →
      (mapTwilioSubaccountToTerraform account d).d.Get "date_updated" =
        .str account.DateUpdated.Time.Format) :=
  ⟨phone_date_created_frame ph d, phone_date_updated_frame ph d, phone_date_updated_set ph d,
    phone_date_created_set ph d, subaccount_date_created_frame account d,
    subaccount_date_updated_frame account d, (subaccount_dates_set account d).1,
    (subaccount_dates_set account d).2⟩

/-- Timestamp decode at work: a phone number with a valid creation and no update
timestamp, decoded into a record that holds an update timestamp; an account
with a valid update and no creation timestamp, decoded into a record that holds
a creation timestamp. -/
theorem timestamp_decode_witness :
    (stampedNumber.DateUpdated.Valid = false ∧
      (mapTwilioPhoneNumberToTerraform stampedNumber datedNumberRecord).d.Get "date_updated" =
        .str "2019-01-01T00:00:00+00:00") ∧
    (datedNumberRecord.schema = phoneNumberSchema ∧ stampedNumber.DateCreated.Valid = true ∧
      (mapTwilioPhoneNumberToTerraform stampedNumber datedNumberRecord).d.Get "date_created" =
        .str "2020-03-04T05:06:07-07:00") ∧
    (stampedAccount.DateCreated.Valid = false ∧
      (mapTwilioSubaccountToTerraform stampedAccount datedSubaccountRecord).d.Get
        "date_created" = .str "2018-05-06T07:08:09+00:00") ∧
    (stampedAccount.DateUpdated.Valid = true ∧
      (mapTwilioSubaccountToTerraform stampedAccount datedSubaccountRecord).err = none ∧
      (mapTwilioSubaccountToTerraform stampedAccount datedSubaccountRecord).d.Get
        "date_updated" = .str "2021-12-31T23:59:59+00:00") :=
  have h := timestamp_decode stampedNumber stampedAccount datedNumberRecord
  have h2 := timestamp_decode stampedNumber stampedAccount datedSubaccountRecord
  ⟨⟨by rfl, (h.2.1 (by rfl)).1⟩,
    ⟨by rfl, by rfl, (h.2.2.2.1 (by rfl) (by rfl)).2⟩,
    ⟨by rfl, (h2.2.2.2.2.1 (by rfl)).1⟩,
    ⟨by rfl, by decide, h2.2.2.2.2.2.2.2 (by rfl) (by decide)⟩⟩

/-- C11. Timestamp decode of a messaging service and of an API key stores no
valid creation timestamp. A messaging service with both timestamps valid,
decoded into a messaging-service record with no field set: the decode returns
no error, `date_updated` holds the rendered timestamp, and `date_created` is
never assigned and stays empty. An API key with both timestamps valid:
Create and Read return no error and `date_created` and `date_updated` stay
empty, the two assignments being refused by the store. -/
theorem timestamp_decode_not_stored :
    emptyServiceRecord.schema = messagingServiceSchema ∧
    fullService.DateCreated.Valid = true ∧ fullService.DateUpdated.Valid = true ∧
    (mapTwilioMessagingServiceToTerraform fullService emptyServiceRecord).err = none ∧
    (mapTwilioMessagingServiceToTerraform fullService emptyServiceRecord).d.Get
      "date_updated" = .str "2020-03-04T05:06:07+00:00" ∧
    "date_created" ∉ assignedKeys emptyServiceRecord
      (mapTwilioMessagingServiceToTerraform fullService emptyServiceRecord) ∧
    (mapTwilioMessagingServiceToTerraform fullService emptyServiceRecord).d.Get
      "date_created" = .str "" ∧
    stampedKey.DateCreated.Valid = true ∧ stampedKey.DateUpdated.Valid = true ∧
    (resourceTwilioApiKeyCreate emptyApiKeyRecord (keyClient stampedKey none)).err = none ∧
    (resourceTwilioApiKeyCreate emptyApiKeyRecord (keyClient stampedKey none)).d.Get
      "date_created" = .str "" ∧
    (resourceTwilioApiKeyCreate emptyApiKeyRecord (keyClient stampedKey none)).d.Get
      "date_updated" = .str "" ∧
    (resourceTwilioApiKeyRead storedApiKeyRecord (keyClient stampedKey none)).err = none ∧
    (resourceTwilioApiKeyRead storedApiKeyRecord (keyClient stampedKey none)).d.Get
      "date_created" = .str "" ∧
    (resourceTwilioApiKeyRead storedApiKeyRecord (keyClient stampedKey none)).d.Get
      "date_updated" = .str "" ∧
    (resourceTwilioApiKeyRead storedApiKeyRecord (keyClient stampedKey none)).d.trace =
      [⟨"sid", true⟩, ⟨"friendly_name", true⟩, ⟨"date_created", false⟩,
       ⟨"date_updated", false⟩] := by
  decide

/-! ## Which fields the decoders assign -/

theorem Set_within (P : String → Prop) (t0 : List SetAttempt) (d : ResourceData)
    (key : String) (value : Value) (hk : P key)
    (h : ∃ new, d.trace = t0 ++ new ∧ ∀ a ∈ new, P a.key) :
    ∃ new2, (d.Set key value).d.trace = t0 ++ new2 ∧ ∀ a ∈ new2, P a.key := by
  obtain ⟨new, hn, hall⟩ := h
  unfold ResourceData.Set
  split
  · refine ⟨new ++ [⟨key, false⟩], by simp [hn], ?_⟩
    intro a ha
    simp only [List.mem_append, List.mem_singleton] at ha
    rcases ha with ha | ha
    · exact hall a ha
    · subst ha; exact hk
  · refine ⟨new ++ [⟨key, true⟩], by simp [hn], ?_⟩
    intro a ha
    simp only [List.mem_append, List.mem_singleton] at ha
    rcases ha with ha | ha
    · exact hall a ha
    · subst ha; exact hk

theorem thenSet_within (P : String → Prop) (t0 : List SetAttempt) (r : SetResult)
    (key : String) (value : Value) (hk : P key)
    (h : ∃ new, r.d.trace = t0 ++ new ∧ ∀ a ∈ new, P a.key) :
    ∃ new2, (r.thenSet key value).d.trace = t0 ++ new2 ∧ ∀ a ∈ new2, P a.key := by
  unfold SetResult.thenSet
  split
  · exact Set_within P t0 r.d key value hk h
  · exact h

theorem thenSetIf_within (P : String → Prop) (t0 : List SetAttempt) (r : SetResult)
    (cond : Bool) (key : String) (value : Value) (hk : P key)
    (h : ∃ new, r.d.trace = t0 ++ new ∧ ∀ a ∈ new, P a.key) :
    ∃ new2, (r.thenSetIf cond key value).d.trace = t0 ++ new2 ∧ ∀ a ∈ new2, P a.key := by
  unfold SetResult.thenSetIf
  split
  · exact Set_within P t0 r.d key value hk h
  · exact h

theorem alwaysSetIf_within (P : String → Prop) (t0 : List SetAttempt) (r : SetResult)
    (cond : Bool) (key : String) (value : Value) (hk : P key)
    (h : ∃ new, r.d.trace = t0 ++ new ∧ ∀ a ∈ new, P a.key) :
    ∃ new2, (r.alwaysSetIf cond key value).d.trace = t0 ++ new2 ∧ ∀ a ∈ new2, P a.key := by
  unfold SetResult.alwaysSetIf
  split
  · exact Set_within P t0 r.d key value hk h
  · exact h

theorem assignedKeys_within (P : String → Prop) (d : ResourceData) (r : SetResult)
    (h : ∃ new, r.d.trace = d.trace ++ new ∧ ∀ a ∈ new, P a.key) :
    ∀ k ∈ assignedKeys d r, P k := by
  obtain ⟨new, hn, hall⟩ := h
  unfold assignedKeys attemptsSince
  rw [hn, List.drop_left]
  intro k hk
  obtain ⟨a, ha, rfl⟩ := List.mem_map.mp hk
  exact hall a ha

/-- Every field the phone-number decoder assigns is declared, and none is one
of the six declared fields the remote object does not carry. -/
theorem mapTwilioPhoneNumberToTerraform_assigned (ph : IncomingPhoneNumber)
    (d : ResourceData) :
    ∀ k ∈ assignedKeys d (mapTwilioPhoneNumberToTerraform ph d),
      k ∈ declaredKeys phoneNumberSchema ∧
      k ∉ ["search", "area_code", "country_code", "service_sid", "address_sid",
        "identity_sid"] := by
  have h : ∀ k ∈ assignedKeys d (mapTwilioPhoneNumberToTerraform ph d),
      decodedPhoneField k := by
    apply assignedKeys_within decodedPhoneField
    unfold mapTwilioPhoneNumberToTerraform
    dsimp only
    repeat first
      | refine thenSet_within decodedPhoneField _ _ _ _ (by decide) ?_
      | refine thenSetIf_within decodedPhoneField _ _ _ _ _ (by decide) ?_
      | refine alwaysSetIf_within decodedPhoneField _ _ _ _ _ (by decide) ?_
    exact Set_within decodedPhoneField _ _ _ _ (by decide) ⟨[], by simp, by simp⟩
  exact h

/-- Every field the subaccount decoder assigns is declared. -/
theorem mapTwilioSubaccountToTerraform_assigned (account : Account) (d : ResourceData) :
    ∀ k ∈ assignedKeys d (mapTwilioSubaccountToTerraform account d),
      k ∈ declaredKeys subaccountSchema := by
  apply assignedKeys_within (fun k => k ∈ declaredKeys subaccountSchema)
  unfold mapTwilioSubaccountToTerraform
  dsimp only
  repeat first
    | refine thenSet_within _ _ _ _ _ (by decide) ?_
    | refine thenSetIf_within _ _ _ _ _ _ (by decide) ?_
  exact Set_within _ _ _ _ _ (by decide) ⟨[], by simp, by simp⟩

/-- The `voice` instance a phone-number decode leaves has no `receive_mode`. -/
theorem mapTwilioPhoneNumberToTerraform_no_receive_mode (ph : IncomingPhoneNumber)
    (d : ResourceData) (h : (mapTwilioPhoneNumberToTerraform ph d).err = none) :
    ((mapTwilioPhoneNumberToTerraform ph d).d.Get "voice").asSet.map
      (fun voice => voice.get "receive_mode") = [.nil] := by
  unfold mapTwilioPhoneNumberToTerraform at h ⊢
  dsimp only at h ⊢
  have e := four_sets_ok _ "voice" "sms" "status_callback" "emergency" _ _ _ _
    (by decide) (by decide) (by decide) (by decide) (by decide) (by decide) h
  rw [e.1]
  rfl

theorem thenSet_of_err (r : SetResult) (key : String) (value : Value) (h : r.err ≠ none) :
    r.thenSet key value = r := by
  unfold SetResult.thenSet
  rw [if_neg h]

theorem thenSetIf_of_err (r : SetResult) (cond : Bool) (key : String) (value : Value)
    (h : r.err ≠ none) : r.thenSetIf cond key value = r := by
  unfold SetResult.thenSetIf
  rw [if_neg (fun hc => h hc.1)]

/-- An assignment to a key the schema does not declare fails and is recorded as
failed. -/
theorem Set_undeclared (d : ResourceData) (key : String) (value : Value)
    (h : d.schema.lookup key = none) :
    d.Set key value =
      { d := { d with trace := d.trace ++ [⟨key, false⟩] },
        err := some ("Invalid address to set: " ++ key) } := by
  unfold ResourceData.Set ResourceData.setError
  rw [h]

theorem Set_has (a0 : SetAttempt) (t0 : List SetAttempt) (d : ResourceData) (key : String)
    (value : Value) (h : ∃ new, d.trace = t0 ++ new ∧ a0 ∈ new) :
    ∃ new2, (d.Set key value).d.trace = t0 ++ new2 ∧ a0 ∈ new2 := by
  obtain ⟨new, hn, hmem⟩ := h
  unfold ResourceData.Set
  split
  · exact ⟨new ++ [⟨key, false⟩], by simp [hn], List.mem_append_left _ hmem⟩
  · exact ⟨new ++ [⟨key, true⟩], by simp [hn], List.mem_append_left _ hmem⟩

theorem thenSet_has (a0 : SetAttempt) (t0 : List SetAttempt) (r : SetResult) (key : String)
    (value : Value) (h : ∃ new, r.d.trace = t0 ++ new ∧ a0 ∈ new) :
    ∃ new2, (r.thenSet key value).d.trace = t0 ++ new2 ∧ a0 ∈ new2 := by
  unfold SetResult.thenSet
  split
  · exact Set_has a0 t0 r.d key value h
  · exact h

theorem thenSetIf_has (a0 : SetAttempt) (t0 : List SetAttempt) (r : SetResult) (cond : Bool)
    (key : String) (value : Value) (h : ∃ new, r.d.trace = t0 ++ new ∧ a0 ∈ new) :
    ∃ new2, (r.thenSetIf cond key value).d.trace = t0 ++ new2 ∧ a0 ∈ new2 := by
  unfold SetResult.thenSetIf
  split
  · exact Set_has a0 t0 r.d key value h
  · exact h

theorem alwaysSetIf_has (a0 : SetAttempt) (t0 : List SetAttempt) (r : SetResult) (cond : Bool)
    (key : String) (value : Value) (h : ∃ new, r.d.trace = t0 ++ new ∧ a0 ∈ new) :
    ∃ new2, (r.alwaysSetIf cond key value).d.trace = t0 ++ new2 ∧ a0 ∈ new2 := by
  unfold SetResult.alwaysSetIf
  split
  · exact Set_has a0 t0 r.d key value h
  · exact h

/-- On a record of the messaging-service schema the second assignment of the
messaging-service decoder, of `account_sid`, fails. -/
theorem messagingService_account_sid_fails (ms : Service) (d : ResourceData)
    (hS : d.schema = messagingServiceSchema) :
    ((d.Set "sid" (.str ms.Sid)).thenSet "account_sid" (.str ms.AccountSid)).err ≠ none ∧
    ((d.Set "sid" (.str ms.Sid)).thenSet "account_sid" (.str ms.AccountSid)).d.trace =
      d.trace ++ [⟨"sid", true⟩, ⟨"account_sid", false⟩] := by
  have h1 : d.Set "sid" (.str ms.Sid) =
      { d := { d with state := ("sid", .str ms.Sid) :: d.state,
                      trace := d.trace ++ [⟨"sid", true⟩] },
        err := none } := by
    unfold ResourceData.Set ResourceData.setError
    rw [hS]
    rfl
  rw [h1]
  unfold SetResult.thenSet
  rw [if_pos rfl, Set_undeclared _ _ _ (by rw [hS]; rfl)]
  exact ⟨fun h => (by cases h), by simp⟩

/-- On a record of the messaging-service schema the messaging-service decoder
attempts `account_sid`, which fails, and attempts neither `friendly_name` nor
`date_created`, which keep their values. -/
theorem mapTwilioMessagingServiceToTerraform_on_schema (ms : Service) (d : ResourceData)
    (hS : d.schema = messagingServiceSchema) :
    ⟨"account_sid", false⟩ ∈ attemptsSince d (mapTwilioMessagingServiceToTerraform ms d) ∧
    (∀ a ∈ attemptsSince d (mapTwilioMessagingServiceToTerraform ms d),
      a.key ≠ "friendly_name") ∧
    (∀ a ∈ attemptsSince d (mapTwilioMessagingServiceToTerraform ms d),
      a.key ≠ "date_created") ∧
    (mapTwilioMessagingServiceToTerraform ms d).d.Get "friendly_name" =
      d.Get "friendly_name" ∧
    (mapTwilioMessagingServiceToTerraform ms d).d.Get "date_created" = d.Get "date_created" := by
  obtain ⟨herr, htrace⟩ := messagingService_account_sid_fails ms d hS
  refine ⟨?_, ?_, ?_, ?_, ?_⟩
  · have hex : ∃ new, (mapTwilioMessagingServiceToTerraform ms d).d.trace = d.trace ++ new ∧
        (⟨"account_sid", false⟩ : SetAttempt) ∈ new := by
      unfold mapTwilioMessagingServiceToTerraform
      dsimp only
      rw [thenSetIf_of_err _ _ _ _ herr, thenSetIf_of_err _ _ _ _ herr]
      generalize (d.Set "sid" (.str ms.Sid)).thenSet "account_sid" (.str ms.AccountSid) = r2
        at htrace ⊢
      repeat first
        | refine thenSet_has _ _ _ _ _ ?_
        | refine thenSetIf_has _ _ _ _ _ _ ?_
        | refine alwaysSetIf_has _ _ _ _ _ _ ?_
      exact ⟨_, htrace, by simp⟩
    obtain ⟨new, hn, hmem⟩ := hex
    unfold attemptsSince
    rw [hn, List.drop_left]
    exact hmem
  · apply attemptsSince_avoid
    unfold mapTwilioMessagingServiceToTerraform
    dsimp only
    rw [thenSetIf_of_err _ _ _ _ herr, thenSetIf_of_err _ _ _ _ herr]
    repeat first
      | refine thenSet_avoids _ _ _ _ _ (by decide) ?_
      | refine thenSetIf_avoids _ _ _ _ _ _ (by decide) ?_
      | refine alwaysSetIf_avoids _ _ _ _ _ _ (by decide) ?_
    exact Set_avoids _ _ _ _ _ (by decide) ⟨[], by simp, by simp⟩
  · apply attemptsSince_avoid
    unfold mapTwilioMessagingServiceToTerraform
    dsimp only
    rw [thenSetIf_of_err _ _ _ _ herr, thenSetIf_of_err _ _ _ _ herr]
    repeat first
      | refine thenSet_avoids _ _ _ _ _ (by decide) ?_
      | refine thenSetIf_avoids _ _ _ _ _ _ (by decide) ?_
      | refine alwaysSetIf_avoids _ _ _ _ _ _ (by decide) ?_
    exact Set_avoids _ _ _ _ _ (by decide) ⟨[], by simp, by simp⟩
  · unfold mapTwilioMessagingServiceToTerraform
    dsimp only
    rw [thenSetIf_of_err _ _ _ _ herr, thenSetIf_of_err _ _ _ _ herr]
    simp only [thenSet_get_ne, thenSetIf_get_ne, alwaysSetIf_get_ne, Set_get_ne, ne_eq,
      String.reduceEq, not_false_eq_true]
  · unfold mapTwilioMessagingServiceToTerraform
    dsimp only
    rw [thenSetIf_of_err _ _ _ _ herr, thenSetIf_of_err _ _ _ _ herr]
    simp only [thenSet_get_ne, thenSetIf_get_ne, alwaysSetIf_get_ne, Set_get_ne, ne_eq,
      String.reduceEq, not_false_eq_true]

/-- Every key the messaging-service decoder tries to assign is `account_sid`
or a declared field. -/
theorem mapTwilioMessagingServiceToTerraform_assigned (ms : Service) (d : ResourceData) :
    ∀ k ∈ assignedKeys d (mapTwilioMessagingServiceToTerraform ms d),
      k ∈ "account_sid" :: declaredKeys messagingServiceSchema := by
  apply assignedKeys_within (fun k => k ∈ "account_sid" :: declaredKeys messagingServiceSchema)
  unfold mapTwilioMessagingServiceToTerraform
  dsimp only
  repeat first
    | refine thenSet_within _ _ _ _ _ (by decide) ?_
    | refine thenSetIf_within _ _ _ _ _ _ (by decide) ?_
    | refine alwaysSetIf_within _ _ _ _ _ _ (by decide) ?_
  exact Set_within _ _ _ _ _ (by decide) ⟨[], by simp, by simp⟩

/-- On a record of the messaging-service schema, a service without a valid
`DateUpdated` gets `sid` assigned and nothing else. -/
theorem mapTwilioMessagingServiceToTerraform_only_sid (ms : Service) (d : ResourceData)
    (hS : d.schema = messagingServiceSchema) (hv : ms.DateUpdated.Valid = false) :
    assignedKeys d (mapTwilioMessagingServiceToTerraform ms d) = ["sid", "account_sid"] ∧
    (mapTwilioMessagingServiceToTerraform ms d).err ≠ none := by
  obtain ⟨herr, htrace⟩ := messagingService_account_sid_fails ms d hS
  have hrun : mapTwilioMessagingServiceToTerraform ms d =
      (d.Set "sid" (.str ms.Sid)).thenSet "account_sid" (.str ms.AccountSid) := by
    unfold mapTwilioMessagingServiceToTerraform
    dsimp only
    rw [thenSetIf_of_err _ _ _ _ herr, thenSetIf_of_err _ _ _ _ herr, hv, alwaysSetIf_false,
      thenSetIf_of_err _ _ _ _ herr]
    repeat rw [thenSet_of_err _ _ _ herr]
  rw [hrun]
  refine ⟨?_, herr⟩
  unfold assignedKeys attemptsSince
  rw [htrace, List.drop_left]
  rfl

/-- C12, as the claim states it, fails: decoding a phone number that carries
everything into a phone-number record assigns neither `address_sid`,
`identity_sid` nor `service_sid`, all three declared, and the `voice` instance
it leaves has no `receive_mode`. -/
theorem decode_skips_declared_fields :
    "address_sid" ∈ declaredKeys phoneNumberSchema ∧
    "identity_sid" ∈ declaredKeys phoneNumberSchema ∧
    "service_sid" ∈ declaredKeys phoneNumberSchema ∧
    (mapTwilioPhoneNumberToTerraform fullNumber emptyPhoneNumberRecord).err = none ∧
    "address_sid" ∉ assignedKeys emptyPhoneNumberRecord
      (mapTwilioPhoneNumberToTerraform fullNumber emptyPhoneNumberRecord) ∧
    "identity_sid" ∉ assignedKeys emptyPhoneNumberRecord
      (mapTwilioPhoneNumberToTerraform fullNumber emptyPhoneNumberRecord) ∧
    "service_sid" ∉ assignedKeys emptyPhoneNumberRecord
      (mapTwilioPhoneNumberToTerraform fullNumber emptyPhoneNumberRecord) ∧
    ((mapTwilioPhoneNumberToTerraform fullNumber emptyPhoneNumberRecord).d.Get
      "voice").asSet.map (fun voice => voice.get "receive_mode") = [.nil] := by
  decide

/-- C12, amended. The decoders have a rule for what the remote object carries.
The phone-number decoder assigns only declared fields, never one of `search`,
`area_code`, `country_code`, `service_sid`, `address_sid`, `identity_sid`, and
the `voice` instance it leaves has no `receive_mode`; on a number with both
timestamps it assigns every other declared field. The subaccount decoder
assigns only declared fields and, on an account with both timestamps, all of
them. The messaging-service decoder tries to assign `account_sid`, which its
schema does not declare, and otherwise declared fields only; on a record of
the messaging-service schema that assignment fails, the declared
`friendly_name` and `date_created` are never assigned, and when the remote
`DateUpdated` is not valid nothing but `sid` is assigned and the decode returns
an error. -/
theorem decode_rules (ph : IncomingPhoneNumber) (account : Account) (ms : Service)
    (d : ResourceData) :
    (∀ k ∈ assignedKeys d (mapTwilioPhoneNumberToTerraform ph d),
      k ∈ declaredKeys phoneNumberSchema ∧
      k ∉ ["search", "area_code", "country_code", "service_sid", "address_sid",
        "identity_sid"]) ∧
    ((mapTwilioPhoneNumberToTerraform ph d).err = none →
      ((mapTwilioPhoneNumberToTerraform ph d).d.Get "voice").asSet.map
        (fun voice => voice.get "receive_mode") = [.nil]) ∧
    (∀ k ∈ declaredKeys phoneNumberSchema,
      k ∉ ["search", "area_code", "country_code", "service_sid", "address_sid",
        "identity_sid"] →
      k ∈ assignedKeys emptyPhoneNumberRecord
        (mapTwilioPhoneNumberToTerraform fullNumber emptyPhoneNumberRecord)) ∧
    (∀ k ∈ assignedKeys d (mapTwilioSubaccountToTerraform account d),
      k ∈ declaredKeys subaccountSchema) ∧
    (∀ k ∈ declaredKeys subaccountSchema,
      k ∈ assignedKeys emptySubaccountRecord
        (mapTwilioSubaccountToTerraform fullAccount emptySubaccountRecord)) ∧
    (∀ k ∈ assignedKeys d (mapTwilioMessagingServiceToTerraform ms d),
      k ∈ "account_sid" :: declaredKeys messagingServiceSchema) ∧
    "account_sid" ∉ declaredKeys messagingServiceSchema ∧
    "friendly_name" ∈ declaredKeys messagingServiceSchema ∧
    "date_created" ∈ declaredKeys messagingServiceSchema ∧
    (d.schema = messagingServiceSchema →
      (⟨"account_sid", false⟩ : SetAttempt) ∈
        attemptsSince d (mapTwilioMessagingServiceToTerraform ms d) ∧
      "friendly_name" ∉ assignedKeys d (mapTwilioMessagingServiceToTerraform ms d) ∧
      "date_created" ∉ assignedKeys d (mapTwilioMessagingServiceToTerraform ms d) ∧
      (ms.DateUpdated.Valid = false →
        assignedKeys d (mapTwilioMessagingServiceToTerraform ms d) = ["sid", "account_sid"] ∧
        (mapTwilioMessagingServiceToTerraform ms d).err ≠ none)) := by
  refine ⟨mapTwilioPhoneNumberToTerraform_assigned ph d,
    mapTwilioPhoneNumberToTerraform_no_receive_mode ph d,
    by decide,
    mapTwilioSubaccountToTerraform_assigned account d,
    by decide,
    mapTwilioMessagingServiceToTerraform_assigned ms d,
    by decide, by decide, by decide, ?_⟩
  intro hS
  obtain ⟨hacc, hname, hdate, _, _⟩ := mapTwilioMessagingServiceToTerraform_on_schema ms d hS
  refine ⟨hacc, ?_, ?_, mapTwilioMessagingServiceToTerraform_only_sid ms d hS⟩
  · intro h
    obtain ⟨a, ha, hk⟩ := List.mem_map.mp h
    exact hname a ha hk
  · intro h
    obtain ⟨a, ha, hk⟩ := List.mem_map.mp h
    exact hdate a ha hk

/-- Witness for C12, amended: the number that carries everything, decoded into
a phone-number record with no field set; the service that carries everything,
and one without an update timestamp, decoded into a messaging-service record
with no field set. -/
theorem decode_rules_witness :
    (mapTwilioPhoneNumberToTerraform fullNumber emptyPhoneNumberRecord).err = none ∧
    ((mapTwilioPhoneNumberToTerraform fullNumber emptyPhoneNumberRecord).d.Get
      "voice").asSet.map (fun voice => voice.get "receive_mode") = [.nil] ∧
    assignedKeys emptyPhoneNumberRecord
      (mapTwilioPhoneNumberToTerraform fullNumber emptyPhoneNumberRecord) =
      ["sid", "number", "friendly_name", "trunk_sid", "date_created", "date_updated",
       "address_requirements", "is_beta", "is_mms_capable", "is_sms_capable",
       "is_voice_capable", "voice", "sms", "status_callback", "emergency"] ∧
    emptyServiceRecord.schema = messagingServiceSchema ∧
    fullService.FriendlyName = "other" ∧ fullService.DateCreated.Valid = true ∧
    "friendly_name" ∉ assignedKeys emptyServiceRecord
      (mapTwilioMessagingServiceToTerraform fullService emptyServiceRecord) ∧
    "date_created" ∉ assignedKeys emptyServiceRecord
      (mapTwilioMessagingServiceToTerraform fullService emptyServiceRecord) ∧
    undatedService.DateUpdated.Valid = false ∧
    assignedKeys emptyServiceRecord
      (mapTwilioMessagingServiceToTerraform undatedService emptyServiceRecord) =
      ["sid", "account_sid"] :=
  have h := (decode_rules fullNumber fullAccount fullService emptyServiceRecord).2.2.2.2.2.2.2.2.2
    (by rfl)
  have h2 := (decode_rules fullNumber fullAccount undatedService
    emptyServiceRecord).2.2.2.2.2.2.2.2.2 (by rfl)
  ⟨by decide,
    (decode_rules fullNumber fullAccount fullService emptyPhoneNumberRecord).2.1 (by decide),
    by decide, by rfl, by rfl, by rfl, h.2.1, h.2.2.1, by rfl, (h2.2.2.2 (by rfl)).1⟩

theorem attachBlock_already (client : Client) (serviceId sid e : String) (hne : serviceId ≠ "")
    (h : client.MessageServicesCreatePhoneNumber serviceId sid = some e)
    (hc : stringsContains e "already in the Messaging Service" = true) :
    attachBlock client serviceId sid =
      (none, [.MessageServicesCreatePhoneNumber serviceId sid]) := by
  unfold attachBlock
  rw [if_pos ((length_pos_iff_ne_empty _).mpr hne), h]
  simp [hc]

theorem detachBlock_fst_none (client : Client) (serviceId sid : String)
    (h : serviceId = "" ∨ client.MessageServicesDeletePhoneNumber serviceId sid = none) :
    (detachBlock client serviceId sid).1 = none := by
  unfold detachBlock
  rcases h with h | h
  · subst h
    rfl
  · split
    · rw [h]
    · rfl

/-- C16, amended. The already-associated error is downgraded by Update only.
In an Update whose `service_sid` changed to a non-empty `B`, once the update of
the number and the detach step have gone through, an attach call failing with
a message that contains `already in the Messaging Service` is treated as
success: Update returns no error. Create, on a record of the phone-number
resource, returns an error for every failure of its attach call, that message
included. -/
theorem attach_already_associated (d : ResourceData) (client : Client) (A B e : String)
    (updated : IncomingPhoneNumber) (number : AvailableNumber) (rest : List AvailableNumber)
    (bought : IncomingPhoneNumber) :
    (d.GetChange "service_sid" = (.str A, .str B) → A ≠ B → B ≠ "" →
      client.IncomingNumbersUpdate d.Id (makeCreateRequestPayload d) = .ok updated →
      (A = "" ∨ client.MessageServicesDeletePhoneNumber A d.Id = none) →
      client.MessageServicesCreatePhoneNumber B d.Id = some e →
      stringsContains e "already in the Messaging Service" = true →
      (resourceTwilioPhoneNumberUpdate d client).err = none ∧
      .MessageServicesCreatePhoneNumber B d.Id ∈
        (resourceTwilioPhoneNumberUpdate d client).calls) ∧
    (d.schema = phoneNumberSchema →
      client.AvailableNumbersLocalGetPage (d.Get "country_code").asString
        (availabilitySearchParams d) = .ok (number :: rest) →
      client.IncomingNumbersCreate
        ((makeCreateRequestPayload d).Set "PhoneNumber" number.PhoneNumber) = .ok bought →
      castToString (d.Get "service_sid") ≠ "" →
      client.MessageServicesCreatePhoneNumber (castToString (d.Get "service_sid"))
        bought.Sid = some e →
      (resourceTwilioPhoneNumberCreate d client).err =
        some ("Encountered error adding phone number with SID " ++ bought.Sid ++
          " to messaging service with SID " ++ castToString (d.Get "service_sid") ++
          ": " ++ e)) := by
  constructor
  · intro hchange hAB hB hupdate hdet hattach hc
    have hhas : d.HasChange "service_sid" = true :=
      HasChange_of_ne d _ _ _ hchange (fun h => hAB (by injection h))
    have hd := detachBlock_fst_none client A d.Id hdet
    have ha := attachBlock_already client B d.Id e hB hattach hc
    have hrun : resourceTwilioPhoneNumberUpdate d client =
        { d := d, err := none,
          calls := .IncomingNumbersUpdate d.Id (makeCreateRequestPayload d) ::
            ((detachBlock client A d.Id).2 ++ [.MessageServicesCreatePhoneNumber B d.Id]) } := by
      unfold resourceTwilioPhoneNumberUpdate
      simp only [hupdate, hhas, hchange, castToString, hd, ha, if_true]
    rw [hrun]
    refine ⟨rfl, ?_⟩
    simp
  · intro hschema hsearch hbuy hne hattach
    exact ((create_after_purchase d client number rest bought hschema hsearch hbuy).1
      hne).2.2.1 e hattach

/-- Witness for C16, amended: Update of a number that starts to reference
`MG1`, and Create of a number that declares `MG1`, each against an attach call
answering that the number is already in the Messaging Service. -/
theorem attach_already_associated_witness :
    (newlyAttachedRecord.GetChange "service_sid" = (.str "", .str "MG1") ∧
      stringsContains alreadyAttachedError "already in the Messaging Service" = true ∧
      (resourceTwilioPhoneNumberUpdate newlyAttachedRecord
        (numberClient twoAvailable boughtNumber (some alreadyAttachedError) none)).err = none) ∧
    (newNumberWithServiceRecord.schema = phoneNumberSchema ∧
      castToString (newNumberWithServiceRecord.Get "service_sid") ≠ "" ∧
      (resourceTwilioPhoneNumberCreate newNumberWithServiceRecord
        (numberClient twoAvailable boughtNumber (some alreadyAttachedError) none)).err =
        some ("Encountered error adding phone number with SID PN9 to messaging service " ++
          "with SID MG1: Phone Number or Short Code is already in the Messaging Service.")) :=
  ⟨⟨by rfl, by decide,
      ((attach_already_associated newlyAttachedRecord
        (numberClient twoAvailable boughtNumber (some alreadyAttachedError) none)
        "" "MG1" alreadyAttachedError boughtNumber
        { PhoneNumber := "+14155550001" } [{ PhoneNumber := "+14155550002" }] boughtNumber).1
        (by rfl) (by decide) (by decide) (by rfl) (Or.inl rfl) (by rfl) (by decide)).1⟩,
    ⟨by rfl, by decide,
      (attach_already_associated newNumberWithServiceRecord
        (numberClient twoAvailable boughtNumber (some alreadyAttachedError) none)
        "" "MG1" alreadyAttachedError boughtNumber
        { PhoneNumber := "+14155550001" } [{ PhoneNumber := "+14155550002" }] boughtNumber).2
        (by rfl) (by rfl) (by rfl) (by decide) (by rfl)⟩⟩

/-! ## Reads, unsupported updates, round trips -/

/-- C21. Unsupported Update fails fast: Update of an API key and Update of a
subaccount return the error `Not implemented` for every record and every
client, issue no remote call and leave the record as it was. -/
theorem unsupported_updates_fail_fast (d : ResourceData) (client : Client) :
    (resourceTwilioApiKeyUpdate d client).err = some "Not implemented" ∧
    (resourceTwilioApiKeyUpdate d client).calls = [] ∧
    (resourceTwilioApiKeyUpdate d client).d = d ∧
    (resourceTwilioSubaccountUpdate d client).err = some "Not implemented" ∧
    (resourceTwilioSubaccountUpdate d client).calls = [] ∧
    (resourceTwilioSubaccountUpdate d client).d = d ∧
    (resourceTwilioApiKeyUpdate d client).err ≠ none ∧
    (resourceTwilioSubaccountUpdate d client).err ≠ none := by
  refine ⟨rfl, rfl, rfl, rfl, rfl, rfl, ?_, ?_⟩
  · intro h; cases h
  · intro h; cases h

/-- C22. Read of an API key whose remote fetch fails: the fields are assigned
from the key the failed call handed back before the error is looked at. On a
record holding `sid = SK1` and `friendly_name = ci`, with a fetch that fails
with `not found` and hands back an empty key, Read returns an error and keeps
the id, but `sid` and `friendly_name` are blanked. -/
theorem resourceTwilioApiKeyRead_blanks_on_failure :
    storedApiKeyRecord.Get "sid" = .str "SK1" ∧
    storedApiKeyRecord.Get "friendly_name" = .str "ci" ∧
    (resourceTwilioApiKeyRead storedApiKeyRecord (keyClient {} (some "not found"))).err =
      some "Failed to refresh key: not found" ∧
    (resourceTwilioApiKeyRead storedApiKeyRecord (keyClient {} (some "not found"))).d.id =
      "SK1" ∧
    (resourceTwilioApiKeyRead storedApiKeyRecord (keyClient {} (some "not found"))).d.Get
      "sid" = .str "" ∧
    (resourceTwilioApiKeyRead storedApiKeyRecord (keyClient {} (some "not found"))).d.Get
      "friendly_name" = .str "" := by
  decide

theorem Set_get_of_error (d : ResourceData) (key key2 : String) (value : Value)
    (h : (d.Set key value).err ≠ none) : (d.Set key value).d.Get key2 = d.Get key2 := by
  unfold ResourceData.Set at h ⊢
  split
  · rfl
  · rename_i he
    rw [he] at h
    exact absurd rfl h

/-- An assignment keeps `d.Get k0 = v0` when it targets another field or
assigns `v0`. -/
theorem Set_keeps_value (d : ResourceData) (key : String) (value : Value) (k0 : String)
    (v0 : Value) (hv : key = k0 → value = v0) (h : d.Get k0 = v0) :
    (d.Set key value).d.Get k0 = v0 := by
  by_cases hk : k0 = key
  · subst hk
    have hval := hv rfl
    subst hval
    cases he : (d.Set k0 value).err with
    | none => exact Set_get_self d k0 value he
    | some e =>
      rw [Set_get_of_error d k0 k0 value (by rw [he]; intro h; cases h)]
      exact h
  · rw [Set_get_ne d key k0 value hk]
    exact h

theorem thenSet_keeps_value (r : SetResult) (key : String) (value : Value) (k0 : String)
    (v0 : Value) (hv : key = k0 → value = v0) (h : r.d.Get k0 = v0) :
    (r.thenSet key value).d.Get k0 = v0 := by
  unfold SetResult.thenSet
  split
  · exact Set_keeps_value _ _ _ _ _ hv h
  · exact h

theorem thenSetIf_keeps_value (r : SetResult) (cond : Bool) (key : String) (value : Value)
    (k0 : String) (v0 : Value) (hv : key = k0 → value = v0) (h : r.d.Get k0 = v0) :
    (r.thenSetIf cond key value).d.Get k0 = v0 := by
  unfold SetResult.thenSetIf
  split
  · exact Set_keeps_value _ _ _ _ _ hv h
  · exact h

theorem alwaysSetIf_keeps_value (r : SetResult) (cond : Bool) (key : String) (value : Value)
    (k0 : String) (v0 : Value) (hv : key = k0 → value = v0) (h : r.d.Get k0 = v0) :
    (r.alwaysSetIf cond key value).d.Get k0 = v0 := by
  unfold SetResult.alwaysSetIf
  split
  · exact Set_keeps_value _ _ _ _ _ hv h
  · exact h

theorem SetId_get (d : ResourceData) (v key : String) : (d.SetId v).Get key = d.Get key := rfl

/-- A record that holds the remote friendly name still holds it after a
phone-number decode, whichever assignments fail. -/
theorem mapTwilioPhoneNumberToTerraform_keeps_name (ph : IncomingPhoneNumber)
    (d : ResourceData) (X : String) (hname : ph.FriendlyName = X)
    (h : d.Get "friendly_name" = .str X) :
    (mapTwilioPhoneNumberToTerraform ph d).d.Get "friendly_name" = .str X := by
  unfold mapTwilioPhoneNumberToTerraform
  dsimp only
  repeat first
    | refine thenSet_keeps_value _ _ _ _ _
        (by first | (intro hk; exact absurd hk (by decide)) | (intro _; rw [hname])) ?_
    | refine thenSetIf_keeps_value _ _ _ _ _ _
        (by intro hk; exact absurd hk (by decide)) ?_
    | refine alwaysSetIf_keeps_value _ _ _ _ _ _
        (by intro hk; exact absurd hk (by decide)) ?_
  exact Set_keeps_value _ _ _ _ _ (by intro hk; exact absurd hk (by decide)) h

theorem mapTwilioMessagingServiceToTerraform_keeps_name (ms : Service) (d : ResourceData)
    (X : String) (hname : ms.FriendlyName = X) (h : d.Get "friendly_name" = .str X) :
    (mapTwilioMessagingServiceToTerraform ms d).d.Get "friendly_name" = .str X := by
  unfold mapTwilioMessagingServiceToTerraform
  dsimp only
  repeat first
    | refine thenSet_keeps_value _ _ _ _ _
        (by intro hk; exact absurd hk (by decide)) ?_
    | refine thenSetIf_keeps_value _ _ _ _ _ _
        (by first | (intro hk; exact absurd hk (by decide)) | (intro _; rw [hname])) ?_
    | refine alwaysSetIf_keeps_value _ _ _ _ _ _
        (by intro hk; exact absurd hk (by decide)) ?_
  exact Set_keeps_value _ _ _ _ _ (by intro hk; exact absurd hk (by decide)) h

theorem mapTwilioSubaccountToTerraform_keeps_name (account : Account) (d : ResourceData)
    (X : String) (hname : account.FriendlyName = X) (h : d.Get "friendly_name" = .str X) :
    (mapTwilioSubaccountToTerraform account d).d.Get "friendly_name" = .str X := by
  unfold mapTwilioSubaccountToTerraform
  dsimp only
  repeat first
    | refine thenSet_keeps_value _ _ _ _ _
        (by first | (intro hk; exact absurd hk (by decide)) | (intro _; rw [hname])) ?_
    | refine thenSetIf_keeps_value _ _ _ _ _ _
        (by intro hk; exact absurd hk (by decide)) ?_
  exact Set_keeps_value _ _ _ _ _ (by intro hk; exact absurd hk (by decide)) h

theorem mapTwilioMessagingServiceToTerraform_id (ms : Service) (d : ResourceData) :
    (mapTwilioMessagingServiceToTerraform ms d).d.id = d.id := by
  simp only [mapTwilioMessagingServiceToTerraform, thenSet_id, thenSetIf_id, alwaysSetIf_id,
    Set_id]

theorem mapTwilioSubaccountToTerraform_id (account : Account) (d : ResourceData) :
    (mapTwilioSubaccountToTerraform account d).d.id = d.id := by
  simp only [mapTwilioSubaccountToTerraform, thenSet_id, thenSetIf_id, Set_id]

theorem subaccount_round_trip (d : ResourceData) (client : Client) (X : String)
    (obj : Account) (hX : d.Get "friendly_name" = .str X)
    (hcreate : client.AccountsCreate (flattenSubaccountForCreate d) = .ok obj)
    (hname : obj.FriendlyName = X) (hget : client.AccountsGet obj.Sid = .ok obj) :
    (resourceTwilioSubaccountRead (resourceTwilioSubaccountCreate d client).d client).d.Get
      "friendly_name" = .str X ∧
    (resourceTwilioSubaccountRead (resourceTwilioSubaccountCreate d client).d client).d.id =
      obj.Sid := by
  have hd1 : (resourceTwilioSubaccountCreate d client).d =
      (mapTwilioSubaccountToTerraform obj (d.SetId obj.Sid)).d := by
    unfold resourceTwilioSubaccountCreate
    simp only [hcreate]
  have hid1 : (mapTwilioSubaccountToTerraform obj (d.SetId obj.Sid)).d.id = obj.Sid := by
    rw [mapTwilioSubaccountToTerraform_id]
    rfl
  have hn1 := mapTwilioSubaccountToTerraform_keeps_name obj (d.SetId obj.Sid) X hname hX
  have hread : (resourceTwilioSubaccountRead
      (mapTwilioSubaccountToTerraform obj (d.SetId obj.Sid)).d client).d =
      (mapTwilioSubaccountToTerraform obj
        (mapTwilioSubaccountToTerraform obj (d.SetId obj.Sid)).d).d := by
    unfold resourceTwilioSubaccountRead
    simp only [ResourceData.Id, hid1, hget]
    split <;> rfl
  rw [hd1, hread]
  refine ⟨mapTwilioSubaccountToTerraform_keeps_name obj _ X hname hn1, ?_⟩
  rw [mapTwilioSubaccountToTerraform_id]
  exact hid1

theorem messagingService_round_trip (d : ResourceData) (client : Client) (X : String)
    (obj : Service) (hX : d.Get "friendly_name" = .str X)
    (hcreate : client.MessageServicesCreate (makeCreateServiceRequestPayload d) = .ok obj)
    (hname : obj.FriendlyName = X) (hget : client.MessageServicesGet obj.Sid = .ok obj) :
    (resourceTwilioMessagingServiceRead
      (resourceTwilioMessagingServiceCreate d client).d client).d.Get "friendly_name" =
        .str X ∧
    (resourceTwilioMessagingServiceRead
      (resourceTwilioMessagingServiceCreate d client).d client).d.id = obj.Sid := by
  have hd1 : (resourceTwilioMessagingServiceCreate d client).d =
      (mapTwilioMessagingServiceToTerraform obj (d.SetId obj.Sid)).d := by
    unfold resourceTwilioMessagingServiceCreate
    simp only [hcreate]
    split <;> rfl
  have hid1 : (mapTwilioMessagingServiceToTerraform obj (d.SetId obj.Sid)).d.id = obj.Sid := by
    rw [mapTwilioMessagingServiceToTerraform_id]
    rfl
  have hn1 := mapTwilioMessagingServiceToTerraform_keeps_name obj (d.SetId obj.Sid) X hname hX
  have hread : (resourceTwilioMessagingServiceRead
      (mapTwilioMessagingServiceToTerraform obj (d.SetId obj.Sid)).d client).d =
      (mapTwilioMessagingServiceToTerraform obj
        (mapTwilioMessagingServiceToTerraform obj (d.SetId obj.Sid)).d).d := by
    unfold resourceTwilioMessagingServiceRead
    simp only [ResourceData.Id, hid1, hget]
    split <;> rfl
  rw [hd1, hread]
  refine ⟨mapTwilioMessagingServiceToTerraform_keeps_name obj _ X hname hn1, ?_⟩
  rw [mapTwilioMessagingServiceToTerraform_id]
  exact hid1

theorem apiKey_round_trip (d : ResourceData) (client : Client) (X : String)
    (obj : Key) (hX : d.Get "friendly_name" = .str X)
    (hcreate : client.KeysCreate (flattenKeyForCreate d) = .ok obj)
    (hname : obj.FriendlyName = X) (hget : client.KeysGet obj.Sid = (obj, none)) :
    (resourceTwilioApiKeyRead (resourceTwilioApiKeyCreate d client).d client).d.Get
      "friendly_name" = .str X ∧
    (resourceTwilioApiKeyRead (resourceTwilioApiKeyCreate d client).d client).d.id =
      obj.Sid := by
  have hd1 : (resourceTwilioApiKeyCreate d client).d =
      (((((((d.SetId obj.Sid).Set "sid" (.str obj.Sid)).d.Set "secret" (.str obj.Secret)).d.Set
        "friendly_name" (.str obj.FriendlyName)).d.Set "date_created" twilioTimeValue).d.Set
        "date_updated" twilioTimeValue).d) := by
    unfold resourceTwilioApiKeyCreate
    simp only [hcreate]
  have hid1 : (resourceTwilioApiKeyCreate d client).d.id = obj.Sid := by
    rw [hd1]
    simp only [Set_id]
    rfl
  have hn1 : (resourceTwilioApiKeyCreate d client).d.Get "friendly_name" = .str X := by
    rw [hd1]
    refine Set_keeps_value _ _ _ _ _ (by intro hk; exact absurd hk (by decide)) ?_
    refine Set_keeps_value _ _ _ _ _ (by intro hk; exact absurd hk (by decide)) ?_
    refine Set_keeps_value _ _ _ _ _ (by intro _; rw [hname]) ?_
    refine Set_keeps_value _ _ _ _ _ (by intro hk; exact absurd hk (by decide)) ?_
    refine Set_keeps_value _ _ _ _ _ (by intro hk; exact absurd hk (by decide)) ?_
    exact hX
  generalize (resourceTwilioApiKeyCreate d client).d = d1 at hid1 hn1
  have hread : (resourceTwilioApiKeyRead d1 client).d =
      ((((d1.Set "sid" (.str obj.Sid)).d.Set "friendly_name" (.str obj.FriendlyName)).d.Set
        "date_created" twilioTimeValue).d.Set "date_updated" twilioTimeValue).d := by
    unfold resourceTwilioApiKeyRead
    simp only [ResourceData.Id, hid1, hget]
  rw [hread]
  constructor
  · refine Set_keeps_value _ _ _ _ _ (by intro hk; exact absurd hk (by decide)) ?_
    refine Set_keeps_value _ _ _ _ _ (by intro hk; exact absurd hk (by decide)) ?_
    refine Set_keeps_value _ _ _ _ _ (by intro _; rw [hname]) ?_
    refine Set_keeps_value _ _ _ _ _ (by intro hk; exact absurd hk (by decide)) ?_
    exact hn1
  · simp only [Set_id]
    exact hid1

/-- What Create leaves in the record once the purchase has succeeded: the
purchased Sid as id, and the declared friendly name when the purchased number
carries it. -/
theorem phoneNumber_create_record (d : ResourceData) (client : Client) (X : String)
    (number : AvailableNumber) (rest : List AvailableNumber) (bought : IncomingPhoneNumber)
    (hX : d.Get "friendly_name" = .str X)
    (hsearch : client.AvailableNumbersLocalGetPage (d.Get "country_code").asString
      (availabilitySearchParams d) = .ok (number :: rest))
    (hbuy : client.IncomingNumbersCreate
      ((makeCreateRequestPayload d).Set "PhoneNumber" number.PhoneNumber) = .ok bought)
    (hname : bought.FriendlyName = X) :
    (resourceTwilioPhoneNumberCreate d client).d.Get "friendly_name" = .str X ∧
    (resourceTwilioPhoneNumberCreate d client).d.id = bought.Sid := by
  have hid : (mapTwilioPhoneNumberToTerraform bought
      ((d.SetId bought.Sid).Set "number" (.str number.PhoneNumber)).d).d.id = bought.Sid := by
    rw [mapTwilioPhoneNumberToTerraform_id, Set_id]
    rfl
  have hnm : (mapTwilioPhoneNumberToTerraform bought
      ((d.SetId bought.Sid).Set "number" (.str number.PhoneNumber)).d).d.Get "friendly_name" =
      .str X :=
    mapTwilioPhoneNumberToTerraform_keeps_name bought _ X hname
      (Set_keeps_value _ _ _ _ _ (by intro hk; exact absurd hk (by decide)) hX)
  unfold resourceTwilioPhoneNumberCreate
  simp only [hsearch, hbuy]
  repeat' split
  all_goals first
    | exact ⟨hnm, hid⟩
    | exact ⟨Set_keeps_value _ _ _ _ _ (by intro hk; exact absurd hk (by decide)) hnm,
        by rw [Set_id]; exact hid⟩

theorem phoneNumber_round_trip (d : ResourceData) (client : Client) (X : String)
    (number : AvailableNumber) (rest : List AvailableNumber) (bought : IncomingPhoneNumber)
    (hX : d.Get "friendly_name" = .str X)
    (hsearch : client.AvailableNumbersLocalGetPage (d.Get "country_code").asString
      (availabilitySearchParams d) = .ok (number :: rest))
    (hbuy : client.IncomingNumbersCreate
      ((makeCreateRequestPayload d).Set "PhoneNumber" number.PhoneNumber) = .ok bought)
    (hname : bought.FriendlyName = X)
    (hget : client.IncomingNumbersGet bought.Sid = .ok bought) :
    (resourceTwilioPhoneNumberRead (resourceTwilioPhoneNumberCreate d client).d client).d.Get
      "friendly_name" = .str X ∧
    (resourceTwilioPhoneNumberRead (resourceTwilioPhoneNumberCreate d client).d client).d.id =
      bought.Sid := by
  obtain ⟨hn1, hid1⟩ := phoneNumber_create_record d client X number rest bought hX hsearch
    hbuy hname
  generalize (resourceTwilioPhoneNumberCreate d client).d = d1 at hid1 hn1
  have hread : (resourceTwilioPhoneNumberRead d1 client).d =
      (mapTwilioPhoneNumberToTerraform bought d1).d := by
    unfold resourceTwilioPhoneNumberRead
    simp only [ResourceData.Id, hid1, hget]
    split <;> rfl
  rw [hread]
  refine ⟨mapTwilioPhoneNumberToTerraform_keeps_name bought d1 X hname hn1, ?_⟩
  rw [mapTwilioPhoneNumberToTerraform_id]
  exact hid1

/-- On a record of the subaccount schema the subaccount decoder returns no
error and leaves the remote name in `friendly_name`. -/
theorem mapTwilioSubaccountToTerraform_good (account : Account) (d : ResourceData)
    (h : d.schema = subaccountSchema) :
    (mapTwilioSubaccountToTerraform account d).d.schema = subaccountSchema ∧
    (mapTwilioSubaccountToTerraform account d).err = none ∧
    (mapTwilioSubaccountToTerraform account d).d.Get "friendly_name" =
      .str account.FriendlyName := by
  have hp : (((d.Set "status" (.str account.Status)).thenSet "auth_token"
      (.str account.AuthToken)).thenSet "friendly_name" (.str account.FriendlyName)).err =
      none := by
    refine (thenSet_good subaccountSchema _ "friendly_name" (.str account.FriendlyName) ?_
      rfl).2
    refine thenSet_good subaccountSchema _ "auth_token" (.str account.AuthToken) ?_ rfl
    exact Set_good subaccountSchema d "status" (.str account.Status) h rfl
  have hg : (mapTwilioSubaccountToTerraform account d).d.schema = subaccountSchema ∧
      (mapTwilioSubaccountToTerraform account d).err = none := by
    unfold mapTwilioSubaccountToTerraform
    dsimp only
    repeat first
      | refine thenSet_good _ _ _ _ ?_ rfl
      | refine thenSetIf_good _ _ _ _ _ ?_ rfl
    exact Set_good _ _ _ _ h rfl
  refine ⟨hg.1, hg.2, ?_⟩
  unfold mapTwilioSubaccountToTerraform
  dsimp only
  simp only [thenSet_get_ne, thenSetIf_get_ne, ne_eq, String.reduceEq, not_false_eq_true]
  exact (thenSet_ok _ _ _ hp).2

/-- On a record of the phone-number schema the phone-number decoder leaves the
remote name in `friendly_name`. -/
theorem mapTwilioPhoneNumberToTerraform_name (ph : IncomingPhoneNumber) (d : ResourceData)
    (h : d.schema = phoneNumberSchema) :
    (mapTwilioPhoneNumberToTerraform ph d).d.Get "friendly_name" = .str ph.FriendlyName := by
  have hp : (((d.Set "sid" (.str ph.Sid)).thenSet "number"
      (.str ph.PhoneNumber)).thenSet "friendly_name" (.str ph.FriendlyName)).err = none := by
    refine (thenSet_good phoneNumberSchema _ "friendly_name" (.str ph.FriendlyName) ?_ rfl).2
    refine thenSet_good phoneNumberSchema _ "number" (.str ph.PhoneNumber) ?_ rfl
    exact Set_good phoneNumberSchema d "sid" (.str ph.Sid) h rfl
  unfold mapTwilioPhoneNumberToTerraform
  dsimp only
  simp only [thenSet_get_ne, thenSetIf_get_ne, alwaysSetIf_get_ne, ne_eq, String.reduceEq,
    not_false_eq_true]
  exact (thenSet_ok _ _ _ hp).2

/-- Read of a subaccount, on a record of the subaccount schema whose fetch
succeeds: no error, the id is kept and `friendly_name` is the remote name. -/
theorem resourceTwilioSubaccountRead_reads (d : ResourceData) (client : Client)
    (obj : Account) (hS : d.schema = subaccountSchema)
    (hget : client.AccountsGet d.id = .ok obj) :
    (resourceTwilioSubaccountRead d client).err = none ∧
    (resourceTwilioSubaccountRead d client).d.id = d.id ∧
    (resourceTwilioSubaccountRead d client).d.Get "friendly_name" = .str obj.FriendlyName := by
  obtain ⟨_, herr, hname⟩ := mapTwilioSubaccountToTerraform_good obj d hS
  have hrun : resourceTwilioSubaccountRead d client =
      { d := (mapTwilioSubaccountToTerraform obj d).d, err := none,
        calls := [.AccountsGet d.id] } := by
    unfold resourceTwilioSubaccountRead
    simp only [ResourceData.Id, hget, herr]
  rw [hrun]
  exact ⟨rfl, mapTwilioSubaccountToTerraform_id obj d, hname⟩

/-- Create of a subaccount, on a record of the subaccount schema whose create
call succeeds: no error, the id is the Sid of the created object and
`friendly_name` is its name. -/
theorem resourceTwilioSubaccountCreate_creates (d : ResourceData) (client : Client)
    (obj : Account) (hS : d.schema = subaccountSchema)
    (hcreate : client.AccountsCreate (flattenSubaccountForCreate d) = .ok obj) :
    (resourceTwilioSubaccountCreate d client).err = none ∧
    (resourceTwilioSubaccountCreate d client).d.id = obj.Sid ∧
    (resourceTwilioSubaccountCreate d client).d.schema = subaccountSchema ∧
    (resourceTwilioSubaccountCreate d client).d.Get "friendly_name" =
      .str obj.FriendlyName := by
  obtain ⟨hsch, herr, hname⟩ := mapTwilioSubaccountToTerraform_good obj (d.SetId obj.Sid) hS
  have hrun : resourceTwilioSubaccountCreate d client =
      { d := (mapTwilioSubaccountToTerraform obj (d.SetId obj.Sid)).d, err := none,
        calls := [.AccountsCreate (flattenSubaccountForCreate d)] } := by
    unfold resourceTwilioSubaccountCreate
    simp only [hcreate, herr]
  rw [hrun]
  exact ⟨rfl, (mapTwilioSubaccountToTerraform_id obj _).trans rfl, hsch, hname⟩

/-- Read of an API key, on a record of the API-key schema whose fetch succeeds:
no error, the id is kept and `friendly_name` is the remote name. -/
theorem resourceTwilioApiKeyRead_reads (d : ResourceData) (client : Client) (obj : Key)
    (hS : d.schema = apiKeySchema) (hget : client.KeysGet d.id = (obj, none)) :
    (resourceTwilioApiKeyRead d client).err = none ∧
    (resourceTwilioApiKeyRead d client).d.id = d.id ∧
    (resourceTwilioApiKeyRead d client).d.Get "friendly_name" = .str obj.FriendlyName := by
  have hrun : resourceTwilioApiKeyRead d client =
      { d := ((((d.Set "sid" (.str obj.Sid)).d.Set "friendly_name"
          (.str obj.FriendlyName)).d.Set "date_created" twilioTimeValue).d.Set
          "date_updated" twilioTimeValue).d,
        err := none, calls := [.KeysGet d.id] } := by
    unfold resourceTwilioApiKeyRead
    simp only [ResourceData.Id, hget]
  rw [hrun]
  refine ⟨rfl, by simp only [Set_id], ?_⟩
  rw [Set_get_ne _ _ _ _ (by decide), Set_get_ne _ _ _ _ (by decide)]
  exact Set_get_self _ _ _ (Set_good apiKeySchema _ "friendly_name" (.str obj.FriendlyName)
    ((Set_schema _ _ _).trans hS) rfl).2

/-- Create of an API key, on a record of the API-key schema whose create call
succeeds: no error, the id is the Sid of the created object and
`friendly_name` is its name. -/
theorem resourceTwilioApiKeyCreate_creates (d : ResourceData) (client : Client) (obj : Key)
    (hS : d.schema = apiKeySchema)
    (hcreate : client.KeysCreate (flattenKeyForCreate d) = .ok obj) :
    (resourceTwilioApiKeyCreate d client).err = none ∧
    (resourceTwilioApiKeyCreate d client).d.id = obj.Sid ∧
    (resourceTwilioApiKeyCreate d client).d.schema = apiKeySchema ∧
    (resourceTwilioApiKeyCreate d client).d.Get "friendly_name" = .str obj.FriendlyName := by
  have hrun : resourceTwilioApiKeyCreate d client =
      { d := (((((d.SetId obj.Sid).Set "sid" (.str obj.Sid)).d.Set "secret"
          (.str obj.Secret)).d.Set "friendly_name" (.str obj.FriendlyName)).d.Set
          "date_created" twilioTimeValue).d.Set "date_updated" twilioTimeValue |>.d,
        err := none, calls := [.KeysCreate (flattenKeyForCreate d)] } := by
    unfold resourceTwilioApiKeyCreate
    simp only [hcreate]
  rw [hrun]
  refine ⟨rfl, ?_, ?_, ?_⟩
  · simp only [Set_id]
    rfl
  · simp only [Set_schema]
    exact hS
  · rw [Set_get_ne _ _ _ _ (by decide), Set_get_ne _ _ _ _ (by decide)]
    refine Set_get_self _ _ _
      (Set_good apiKeySchema _ "friendly_name" (.str obj.FriendlyName) ?_ rfl).2
    simp only [Set_schema]
    exact hS

/-- Read of a phone number, on a record of the phone-number schema whose fetch
succeeds: no error, the id is kept and `friendly_name` is the remote name. -/
theorem resourceTwilioPhoneNumberRead_reads (d : ResourceData) (client : Client)
    (obj : IncomingPhoneNumber) (hS : d.schema = phoneNumberSchema)
    (hget : client.IncomingNumbersGet d.id = .ok obj) :
    (resourceTwilioPhoneNumberRead d client).err = none ∧
    (resourceTwilioPhoneNumberRead d client).d.id = d.id ∧
    (resourceTwilioPhoneNumberRead d client).d.Get "friendly_name" =
      .str obj.FriendlyName := by
  obtain ⟨_, herr⟩ := mapTwilioPhoneNumberToTerraform_good obj d hS
  have hrun : resourceTwilioPhoneNumberRead d client =
      { d := (mapTwilioPhoneNumberToTerraform obj d).d, err := none,
        calls := [.IncomingNumbersGet d.id] } := by
    unfold resourceTwilioPhoneNumberRead
    simp only [ResourceData.Id, hget, herr]
  rw [hrun]
  exact ⟨rfl, mapTwilioPhoneNumberToTerraform_id obj d,
    mapTwilioPhoneNumberToTerraform_name obj d hS⟩

/-- Create of a phone number without a messaging service, on a record of the
phone-number schema whose search and purchase succeed: no error, the id is
the Sid of the purchased number and `friendly_name` is its name. -/
theorem resourceTwilioPhoneNumberCreate_creates (d : ResourceData) (client : Client)
    (number : AvailableNumber) (rest : List AvailableNumber) (bought : IncomingPhoneNumber)
    (hS : d.schema = phoneNumberSchema)
    (hservice : castToString (d.Get "service_sid") = "")
    (hsearch : client.AvailableNumbersLocalGetPage (d.Get "country_code").asString
      (availabilitySearchParams d) = .ok (number :: rest))
    (hbuy : client.IncomingNumbersCreate
      ((makeCreateRequestPayload d).Set "PhoneNumber" number.PhoneNumber) = .ok bought) :
    (resourceTwilioPhoneNumberCreate d client).err = none ∧
    (resourceTwilioPhoneNumberCreate d client).d.id = bought.Sid ∧
    (resourceTwilioPhoneNumberCreate d client).d.schema = phoneNumberSchema ∧
    (resourceTwilioPhoneNumberCreate d client).d.Get "friendly_name" =
      .str bought.FriendlyName := by
  have hS2 : ((d.SetId bought.Sid).Set "number" (.str number.PhoneNumber)).d.schema =
      phoneNumberSchema := (Set_schema _ _ _).trans hS
  obtain ⟨hsch, herr⟩ := mapTwilioPhoneNumberToTerraform_good bought _ hS2
  have hrun : resourceTwilioPhoneNumberCreate d client =
      { d := (mapTwilioPhoneNumberToTerraform bought
          ((d.SetId bought.Sid).Set "number" (.str number.PhoneNumber)).d).d,
        err := none,
        calls := [.AvailableNumbersLocalGetPage (d.Get "country_code").asString
            (availabilitySearchParams d),
          .IncomingNumbersCreate
            ((makeCreateRequestPayload d).Set "PhoneNumber" number.PhoneNumber)] } := by
    unfold resourceTwilioPhoneNumberCreate
    simp only [hsearch, hbuy, herr, hservice]
    rfl
  rw [hrun]
  refine ⟨rfl, ?_, hsch, mapTwilioPhoneNumberToTerraform_name bought _ hS2⟩
  simp only [mapTwilioPhoneNumberToTerraform_id, Set_id]
  rfl

/-- Create then Read for the subaccount, the API key and the phone number
without a messaging service, on a record of the resource schema, against a
client whose fetch of the created Sid answers the created object: both
functions return no error, the id is the Sid of the created object and
`friendly_name` is the name that object carries. -/
theorem round_trip_other_kinds (d : ResourceData) (client : Client) (account : Account)
    (key : Key) (number : AvailableNumber) (rest : List AvailableNumber)
    (bought : IncomingPhoneNumber) :
    (d.schema = subaccountSchema →
      client.AccountsCreate (flattenSubaccountForCreate d) = .ok account →
      client.AccountsGet account.Sid = .ok account →
      (resourceTwilioSubaccountCreate d client).err = none ∧
      (resourceTwilioSubaccountRead (resourceTwilioSubaccountCreate d client).d client).err =
        none ∧
      (resourceTwilioSubaccountRead (resourceTwilioSubaccountCreate d client).d client).d.id =
        account.Sid ∧
      (resourceTwilioSubaccountRead (resourceTwilioSubaccountCreate d client).d client).d.Get
        "friendly_name" = .str account.FriendlyName) ∧
    (d.schema = apiKeySchema →
      client.KeysCreate (flattenKeyForCreate d) = .ok key →
      client.KeysGet key.Sid = (key, none) →
      (resourceTwilioApiKeyCreate d client).err = none ∧
      (resourceTwilioApiKeyRead (resourceTwilioApiKeyCreate d client).d client).err = none ∧
      (resourceTwilioApiKeyRead (resourceTwilioApiKeyCreate d client).d client).d.id =
        key.Sid ∧
      (resourceTwilioApiKeyRead (resourceTwilioApiKeyCreate d client).d client).d.Get
        "friendly_name" = .str key.FriendlyName) ∧
    (d.schema = phoneNumberSchema → castToString (d.Get "service_sid") = "" →
      client.AvailableNumbersLocalGetPage (d.Get "country_code").asString
        (availabilitySearchParams d) = .ok (number :: rest) →
      client.IncomingNumbersCreate
        ((makeCreateRequestPayload d).Set "PhoneNumber" number.PhoneNumber) = .ok bought →
      client.IncomingNumbersGet bought.Sid = .ok bought →
      (resourceTwilioPhoneNumberCreate d client).err = none ∧
      (resourceTwilioPhoneNumberRead (resourceTwilioPhoneNumberCreate d client).d client).err =
        none ∧
      (resourceTwilioPhoneNumberRead (resourceTwilioPhoneNumberCreate d client).d client).d.id =
        bought.Sid ∧
      (resourceTwilioPhoneNumberRead (resourceTwilioPhoneNumberCreate d client).d client).d.Get
        "friendly_name" = .str bought.FriendlyName) := by
  refine ⟨?_, ?_, ?_⟩
  · intro hS hcreate hget
    obtain ⟨he, hid, hsch, _⟩ := resourceTwilioSubaccountCreate_creates d client account hS
      hcreate
    obtain ⟨he2, hid2, hn2⟩ := resourceTwilioSubaccountRead_reads
      (resourceTwilioSubaccountCreate d client).d client account hsch (by rw [hid]; exact hget)
    exact ⟨he, he2, hid2.trans hid, hn2⟩
  · intro hS hcreate hget
    obtain ⟨he, hid, hsch, _⟩ := resourceTwilioApiKeyCreate_creates d client key hS hcreate
    obtain ⟨he2, hid2, hn2⟩ := resourceTwilioApiKeyRead_reads
      (resourceTwilioApiKeyCreate d client).d client key hsch (by rw [hid]; exact hget)
    exact ⟨he, he2, hid2.trans hid, hn2⟩
  · intro hS hservice hsearch hbuy hget
    obtain ⟨he, hid, hsch, _⟩ := resourceTwilioPhoneNumberCreate_creates d client number rest
      bought hS hservice hsearch hbuy
    obtain ⟨he2, hid2, hn2⟩ := resourceTwilioPhoneNumberRead_reads
      (resourceTwilioPhoneNumberCreate d client).d client bought hsch (by rw [hid]; exact hget)
    exact ⟨he, he2, hid2.trans hid, hn2⟩

/-- The round trip of the three kinds at work: records declaring the name `X`
against a client that answers every fetch with the object it created. -/
theorem round_trip_other_kinds_example :
    (resourceTwilioSubaccountRead (resourceTwilioSubaccountCreate newSubaccountRecordX
      (roundTripClient numberX serviceX accountX keyX)).d
      (roundTripClient numberX serviceX accountX keyX)).d.Get "friendly_name" = .str "X" ∧
    (resourceTwilioApiKeyRead (resourceTwilioApiKeyCreate newApiKeyRecordX
      (roundTripClient numberX serviceX accountX keyX)).d
      (roundTripClient numberX serviceX accountX keyX)).d.Get "friendly_name" = .str "X" ∧
    (resourceTwilioPhoneNumberRead (resourceTwilioPhoneNumberCreate newNumberRecordX
      (roundTripClient numberX serviceX accountX keyX)).d
      (roundTripClient numberX serviceX accountX keyX)).d.Get "friendly_name" = .str "X" :=
  ⟨((round_trip_other_kinds newSubaccountRecordX
      (roundTripClient numberX serviceX accountX keyX) accountX keyX
      { PhoneNumber := numberX.PhoneNumber } [] numberX).1
      (by rfl) (by rfl) (by rfl)).2.2.2,
    ((round_trip_other_kinds newApiKeyRecordX
      (roundTripClient numberX serviceX accountX keyX) accountX keyX
      { PhoneNumber := numberX.PhoneNumber } [] numberX).2.1
      (by rfl) (by rfl) (by rfl)).2.2.2,
    ((round_trip_other_kinds newNumberRecordX
      (roundTripClient numberX serviceX accountX keyX) accountX keyX
      { PhoneNumber := numberX.PhoneNumber } [] numberX).2.2
      (by rfl) (by rfl) (by rfl) (by rfl) (by rfl)).2.2.2⟩

/-- C23. Create then Read of a messaging service does not round-trip. A record
of the messaging-service schema declares the name `X`; the create call answers
a service named `X` with Sid `MG1` and the fetch of `MG1` answers the same
service. When the service has no valid `DateUpdated`, Create returns an error
after the create call, and so does Read: the decode fails at `account_sid`, a
key the schema does not declare. When `DateUpdated` is valid the error is
cleared, Create and Read return no error, and Read never assigns
`friendly_name`: a record that holds the name `old` still holds it after
Read. -/
theorem resourceTwilioMessagingService_round_trip_fails :
    newServiceRecordX.schema = messagingServiceSchema ∧
    newServiceRecordX.Get "friendly_name" = .str "X" ∧
    undatedService.FriendlyName = "X" ∧ undatedService.Sid = "MG1" ∧
    (resourceTwilioMessagingServiceCreate newServiceRecordX
      (roundTripClient numberX undatedService accountX keyX)).calls =
      [.MessageServicesCreate (makeCreateServiceRequestPayload newServiceRecordX)] ∧
    (makeCreateServiceRequestPayload newServiceRecordX).get "FriendlyName" = some ["X"] ∧
    (resourceTwilioMessagingServiceCreate newServiceRecordX
      (roundTripClient numberX undatedService accountX keyX)).err =
      some ("Encountered error while reading result for create of messaging service SID " ++
        "MG1 and mapping it to TF: Invalid address to set: account_sid") ∧
    (resourceTwilioMessagingServiceRead (resourceTwilioMessagingServiceCreate newServiceRecordX
      (roundTripClient numberX undatedService accountX keyX)).d
      (roundTripClient numberX undatedService accountX keyX)).err =
      some ("Encountered an error while mapping Twilio API result to terraform: " ++
        "Invalid address to set: account_sid") ∧
    serviceX.FriendlyName = "X" ∧ serviceX.Sid = "MG1" ∧ serviceX.DateUpdated.Valid = true ∧
    staleServiceRecord.Get "friendly_name" = .str "old" ∧
    (resourceTwilioMessagingServiceRead staleServiceRecord
      (roundTripClient numberX serviceX accountX keyX)).calls = [.MessageServicesGet "MG1"] ∧
    (resourceTwilioMessagingServiceRead staleServiceRecord
      (roundTripClient numberX serviceX accountX keyX)).err = none ∧
    (resourceTwilioMessagingServiceRead staleServiceRecord
      (roundTripClient numberX serviceX accountX keyX)).d.Get "friendly_name" =
      .str "old" := by
  decide

/-- C25. Phone-number decode fills `status_callback` from the SMS fallback
fields: after a decode that returns no error the one `status_callback`
instance has the remote `SMSFallbackURL` as `url` and `SMSFallbackMethod` as
`http_method`, the pair the `sms` instance holds as `fallback_url` and
`fallback_http_method`; and the decode does not depend on the remote
`StatusCallback` and `StatusCallbackMethod`. -/
theorem status_callback_from_sms_fallback (ph : IncomingPhoneNumber) (d : ResourceData) :
    ((mapTwilioPhoneNumberToTerraform ph d).err = none →
      (mapTwilioPhoneNumberToTerraform ph d).d.Get "status_callback" =
        .set [[("url", .str ph.SMSFallbackURL), ("http_method", .str ph.SMSFallbackMethod)]] ∧
      ((mapTwilioPhoneNumberToTerraform ph d).d.Get "status_callback").asSet.map
        (fun sc => (sc.get "url", sc.get "http_method")) =
        [(.str ph.SMSFallbackURL, .str ph.SMSFallbackMethod)] ∧
      ((mapTwilioPhoneNumberToTerraform ph d).d.Get "sms").asSet.map
        (fun sms => (sms.get "fallback_url", sms.get "fallback_http_method")) =
        [(.str ph.SMSFallbackURL, .str ph.SMSFallbackMethod)]) ∧
    (∀ url method : String,
      mapTwilioPhoneNumberToTerraform
        { ph with StatusCallback := url, StatusCallbackMethod := method } d =
      mapTwilioPhoneNumberToTerraform ph d) := by
  refine ⟨?_, fun _ _ => rfl⟩
  intro h
  unfold mapTwilioPhoneNumberToTerraform at h ⊢
  dsimp only at h ⊢
  have e := four_sets_ok _ "voice" "sms" "status_callback" "emergency" _ _ _ _
    (by decide) (by decide) (by decide) (by decide) (by decide) (by decide) h
  rw [e.2.1, e.2.2.1]
  exact ⟨rfl, rfl, rfl⟩

/-- Witness for C25: a number whose status callback differs from its SMS
fallback. -/
theorem status_callback_from_sms_fallback_witness :
    (mapTwilioPhoneNumberToTerraform callbackNumber emptyPhoneNumberRecord).err = none ∧
    callbackNumber.StatusCallback = "https://example.org/status" ∧
    (mapTwilioPhoneNumberToTerraform callbackNumber emptyPhoneNumberRecord).d.Get
      "status_callback" =
      .set [[("url", .str "https://example.org/sms-fallback"), ("http_method", .str "GET")]] :=
  ⟨by decide, by rfl,
    ((status_callback_from_sms_fallback callbackNumber emptyPhoneNumberRecord).1
      (by decide)).1⟩

theorem HasChange_eq_false (d : ResourceData) (key : String) (v : Value)
    (h : d.GetChange key = (v, v)) : d.HasChange key = false := by
  unfold ResourceData.HasChange
  rw [h]
  simp

theorem attachBlock_calls (client : Client) (serviceId sid : String) (hne : serviceId ≠ "") :
    (attachBlock client serviceId sid).2 =
      [.MessageServicesCreatePhoneNumber serviceId sid] := by
  unfold attachBlock
  rw [if_pos ((length_pos_iff_ne_empty _).mpr hne)]
  split
  · split <;> rfl
  · rfl

theorem detachBlock_calls (client : Client) (serviceId sid : String) (hne : serviceId ≠ "") :
    (detachBlock client serviceId sid).2 =
      [.MessageServicesDeletePhoneNumber serviceId sid] := by
  unfold detachBlock
  rw [if_pos ((length_pos_iff_ne_empty _).mpr hne)]
  split <;> rfl

theorem detachBlock_empty (client : Client) (sid : String) :
    detachBlock client "" sid = (none, []) := rfl

theorem attachBlock_empty (client : Client) (sid : String) :
    attachBlock client "" sid = (none, []) := rfl

/-- C26. Phone-number Update touches associations only on change. When the
update of the number fails it is the only call. When it succeeds: with
`service_sid` unchanged it is still the only call; with `service_sid` changed
from empty to a non-empty `B` the only other call is the attach to `B`; with
`service_sid` changed from a non-empty `A` to empty the only other call is the
detach from `A`. -/
theorem resourceTwilioPhoneNumberUpdate_associations_on_change (d : ResourceData)
    (client : Client) (A B : String) :
    ((∃ e, client.IncomingNumbersUpdate d.Id (makeCreateRequestPayload d) = .error e) →
      (resourceTwilioPhoneNumberUpdate d client).calls =
        [.IncomingNumbersUpdate d.Id (makeCreateRequestPayload d)] ∧
      (resourceTwilioPhoneNumberUpdate d client).err ≠ none) ∧
    ((∃ u, client.IncomingNumbersUpdate d.Id (makeCreateRequestPayload d) = .ok u) →
      (d.HasChange "service_sid" = false →
        (resourceTwilioPhoneNumberUpdate d client).calls =
          [.IncomingNumbersUpdate d.Id (makeCreateRequestPayload d)] ∧
        (resourceTwilioPhoneNumberUpdate d client).err = none) ∧
      (d.GetChange "service_sid" = (.str "", .str B) → B ≠ "" →
        (resourceTwilioPhoneNumberUpdate d client).calls =
          [.IncomingNumbersUpdate d.Id (makeCreateRequestPayload d),
           .MessageServicesCreatePhoneNumber B d.Id]) ∧
      (d.GetChange "service_sid" = (.str A, .str "") → A ≠ "" →
        (resourceTwilioPhoneNumberUpdate d client).calls =
          [.IncomingNumbersUpdate d.Id (makeCreateRequestPayload d),
           .MessageServicesDeletePhoneNumber A d.Id])) := by
  constructor
  · rintro ⟨e, he⟩
    unfold resourceTwilioPhoneNumberUpdate
    simp [he]
  · rintro ⟨u, hu⟩
    refine ⟨?_, ?_, ?_⟩
    · intro hno
      unfold resourceTwilioPhoneNumberUpdate
      simp [hu, hno]
    · intro hchange hB
      have hhas : d.HasChange "service_sid" = true :=
        HasChange_of_ne d _ _ _ hchange (fun h => hB (by injection h with h1; exact h1.symm))
      have hcalls := attachBlock_calls client B d.Id hB
      unfold resourceTwilioPhoneNumberUpdate
      simp only [hu, hhas, hchange, castToString, detachBlock_empty, if_true]
      split <;> simp [hcalls]
    · intro hchange hA
      have hhas : d.HasChange "service_sid" = true :=
        HasChange_of_ne d _ _ _ hchange (fun h => hA (by injection h))
      have hcalls := detachBlock_calls client A d.Id hA
      unfold resourceTwilioPhoneNumberUpdate
      simp only [hu, hhas, hchange, castToString, attachBlock_empty, if_true]
      split <;> simp [hcalls]

/-- Witness for C26: an unchanged `service_sid`, one that changes from empty to
`MG1`, and one that changes from `MG1` to empty. -/
theorem resourceTwilioPhoneNumberUpdate_associations_on_change_witness :
    (attachedNumberRecord.HasChange "service_sid" = false ∧
      (resourceTwilioPhoneNumberUpdate attachedNumberRecord
        (numberClient [] boughtNumber none none)).calls =
        [.IncomingNumbersUpdate "PN9" []]) ∧
    (newlyAttachedRecord.GetChange "service_sid" = (.str "", .str "MG1") ∧
      (resourceTwilioPhoneNumberUpdate newlyAttachedRecord
        (numberClient [] boughtNumber none none)).calls =
        [.IncomingNumbersUpdate "PN9" [], .MessageServicesCreatePhoneNumber "MG1" "PN9"]) ∧
    (detachingRecord.GetChange "service_sid" = (.str "MG1", .str "") ∧
      (resourceTwilioPhoneNumberUpdate detachingRecord
        (numberClient [] boughtNumber none none)).calls =
        [.IncomingNumbersUpdate "PN9" [], .MessageServicesDeletePhoneNumber "MG1" "PN9"]) :=
  ⟨⟨by rfl,
      (((resourceTwilioPhoneNumberUpdate_associations_on_change attachedNumberRecord
        (numberClient [] boughtNumber none none) "" "").2 ⟨boughtNumber, by rfl⟩).1
        (by rfl)).1⟩,
    ⟨by rfl,
      ((resourceTwilioPhoneNumberUpdate_associations_on_change newlyAttachedRecord
        (numberClient [] boughtNumber none none) "" "MG1").2 ⟨boughtNumber, by rfl⟩).2.1
        (by rfl) (by decide)⟩,
    ⟨by rfl,
      ((resourceTwilioPhoneNumberUpdate_associations_on_change detachingRecord
        (numberClient [] boughtNumber none none) "MG1" "").2 ⟨boughtNumber, by rfl⟩).2.2
        (by rfl) (by decide)⟩⟩

/-! ## No retries, surfaced failures -/

theorem failFast_nil (d : ResourceData) (err : Option String) (client : Client) :
    Outcome.failFast { d := d, err := err, calls := [] } client := by
  simp [Outcome.failFast, surfaced]

theorem failFast_one (d : ResourceData) (err : Option String) (client : Client) (c : Call)
    (h : c.failed client = true → err ≠ none) :
    Outcome.failFast { d := d, err := err, calls := [c] } client := by
  unfold Outcome.failFast
  refine ⟨by simp, ?_⟩
  cases hc : c.failed client
  · simp [surfaced, hc]
  · have := h hc
    cases err
    · exact absurd rfl this
    · simp [surfaced, hc]

theorem resourceTwilioPhoneNumberRead_failFast (d : ResourceData) (client : Client) :
    (resourceTwilioPhoneNumberRead d client).failFast client := by
  unfold resourceTwilioPhoneNumberRead
  dsimp only
  split
  · exact failFast_one _ _ _ _ (fun _ h => by cases h)
  · split <;> exact failFast_one _ _ _ _ (fun h => by simp_all [Call.failed, failedAnswer])

theorem resourceTwilioMessagingServiceCreate_failFast (d : ResourceData) (client : Client) :
    (resourceTwilioMessagingServiceCreate d client).failFast client := by
  unfold resourceTwilioMessagingServiceCreate
  dsimp only
  split
  · exact failFast_one _ _ _ _ (fun _ h => by cases h)
  · split <;> exact failFast_one _ _ _ _ (fun h => by simp_all [Call.failed, failedAnswer])

theorem resourceTwilioMessagingServiceRead_failFast (d : ResourceData) (client : Client) :
    (resourceTwilioMessagingServiceRead d client).failFast client := by
  unfold resourceTwilioMessagingServiceRead
  dsimp only
  split
  · exact failFast_one _ _ _ _ (fun _ h => by cases h)
  · split <;> exact failFast_one _ _ _ _ (fun h => by simp_all [Call.failed, failedAnswer])

theorem resourceTwilioMessagingServiceUpdate_failFast (d : ResourceData) (client : Client) :
    (resourceTwilioMessagingServiceUpdate d client).failFast client := by
  unfold resourceTwilioMessagingServiceUpdate
  dsimp only
  split
  · exact failFast_one _ _ _ _ (fun _ h => by cases h)
  · exact failFast_one _ _ _ _ (fun h => by simp_all [Call.failed, failedAnswer])

theorem resourceTwilioMessagingServiceDelete_failFast (d : ResourceData) (client : Client) :
    (resourceTwilioMessagingServiceDelete d client).failFast client := by
  unfold resourceTwilioMessagingServiceDelete
  dsimp only
  split
  · exact failFast_one _ _ _ _ (fun _ h => by cases h)
  · exact failFast_one _ _ _ _ (fun h => by simp_all [Call.failed])

theorem resourceTwilioSubaccountCreate_failFast (d : ResourceData) (client : Client) :
    (resourceTwilioSubaccountCreate d client).failFast client := by
  unfold resourceTwilioSubaccountCreate
  dsimp only
  split
  · exact failFast_one _ _ _ _ (fun _ h => by cases h)
  · exact failFast_one _ _ _ _ (fun h => by simp_all [Call.failed, failedAnswer])

theorem resourceTwilioSubaccountRead_failFast (d : ResourceData) (client : Client) :
    (resourceTwilioSubaccountRead d client).failFast client := by
  unfold resourceTwilioSubaccountRead
  dsimp only
  split
  · exact failFast_one _ _ _ _ (fun _ h => by cases h)
  · split <;> exact failFast_one _ _ _ _ (fun h => by simp_all [Call.failed, failedAnswer])

theorem resourceTwilioSubaccountDelete_failFast (d : ResourceData) (client : Client) :
    (resourceTwilioSubaccountDelete d client).failFast client := by
  unfold resourceTwilioSubaccountDelete
  dsimp only
  split
  · exact failFast_one _ _ _ _ (fun _ h => by cases h)
  · exact failFast_one _ _ _ _ (fun h => by simp_all [Call.failed, failedAnswer])

theorem resourceTwilioApiKeyCreate_failFast (d : ResourceData) (client : Client) :
    (resourceTwilioApiKeyCreate d client).failFast client := by
  unfold resourceTwilioApiKeyCreate
  dsimp only
  split
  · exact failFast_one _ _ _ _ (fun _ h => by cases h)
  · exact failFast_one _ _ _ _ (fun h => by simp_all [Call.failed, failedAnswer])

theorem resourceTwilioApiKeyRead_failFast (d : ResourceData) (client : Client) :
    (resourceTwilioApiKeyRead d client).failFast client := by
  unfold resourceTwilioApiKeyRead
  dsimp only
  split
  · exact failFast_one _ _ _ _ (fun _ h => by cases h)
  · exact failFast_one _ _ _ _ (fun h => by simp_all [Call.failed])

theorem resourceTwilioApiKeyDelete_failFast (d : ResourceData) (client : Client) :
    (resourceTwilioApiKeyDelete d client).failFast client := by
  unfold resourceTwilioApiKeyDelete
  dsimp only
  split
  · exact failFast_one _ _ _ _ (fun _ h => by cases h)
  · exact failFast_one _ _ _ _ (fun h => by simp_all [Call.failed])

theorem detachBlock_cases (client : Client) (serviceId sid : String) :
    detachBlock client serviceId sid = (none, []) ∨
    ((∃ e, detachBlock client serviceId sid =
        (some e, [.MessageServicesDeletePhoneNumber serviceId sid])) ∧
      (Call.MessageServicesDeletePhoneNumber serviceId sid).failed client = true) ∨
    (detachBlock client serviceId sid =
        (none, [.MessageServicesDeletePhoneNumber serviceId sid]) ∧
      (Call.MessageServicesDeletePhoneNumber serviceId sid).failed client = false) := by
  unfold detachBlock
  split
  · split
    · rename_i e he
      exact Or.inr (Or.inl ⟨⟨_, rfl⟩, by simp [Call.failed, he]⟩)
    · rename_i he
      exact Or.inr (Or.inr ⟨rfl, by simp [Call.failed, he]⟩)
  · exact Or.inl rfl

theorem attachBlock_cases (client : Client) (serviceId sid : String) :
    attachBlock client serviceId sid = (none, []) ∨
    ((∃ e, attachBlock client serviceId sid =
        (some e, [.MessageServicesCreatePhoneNumber serviceId sid])) ∧
      (Call.MessageServicesCreatePhoneNumber serviceId sid).failed client = true) ∨
    (attachBlock client serviceId sid =
        (none, [.MessageServicesCreatePhoneNumber serviceId sid]) ∧
      (Call.MessageServicesCreatePhoneNumber serviceId sid).failed client = false) ∨
    (attachBlock client serviceId sid =
        (none, [.MessageServicesCreatePhoneNumber serviceId sid]) ∧
      (Call.MessageServicesCreatePhoneNumber serviceId sid).alreadyAssociated client = true) := by
  unfold attachBlock
  split
  · split
    · rename_i e he
      split
      · exact Or.inr (Or.inl ⟨⟨_, rfl⟩, by simp [Call.failed, he]⟩)
      · rename_i hc
        refine Or.inr (Or.inr (Or.inr ⟨rfl, ?_⟩))
        simp only [Call.alreadyAssociated, he]
        simpa using hc
    · rename_i he
      exact Or.inr (Or.inr (Or.inl ⟨rfl, by simp [Call.failed, he]⟩))
  · exact Or.inl rfl

theorem resourceTwilioPhoneNumberDelete_failFast (d : ResourceData) (client : Client) :
    (resourceTwilioPhoneNumberDelete d client).failFast client := by
  unfold resourceTwilioPhoneNumberDelete
  dsimp only
  rcases detachBlock_cases client (castToString (d.Get "service_id")) d.Id with
    h | ⟨⟨e, h⟩, hf⟩ | ⟨h, hf⟩
  · rw [h]
    dsimp only
    split
    · exact failFast_one _ _ _ _ (fun _ h => by cases h)
    · exact failFast_one _ _ _ _ (fun h => by simp_all [Call.failed])
  · rw [h]
    exact failFast_one _ _ _ _ (fun _ h => by cases h)
  · rw [h]
    dsimp only
    simp [Call.failed] at hf
    split
    · rename_i e he
      simp [Outcome.failFast, surfaced, Call.operation, hf, Call.failed, he]
    · rename_i he
      simp [Outcome.failFast, surfaced, Call.operation, hf, Call.failed, he]

theorem resourceTwilioPhoneNumberCreate_failFast (d : ResourceData) (client : Client) :
    (resourceTwilioPhoneNumberCreate d client).failFast client := by
  unfold resourceTwilioPhoneNumberCreate
  dsimp only
  split
  · exact failFast_one _ _ _ _ (fun _ h => by cases h)
  · rename_i searchResult hs
    split
    · exact failFast_one _ _ _ _ (fun _ h => by cases h)
    · rename_i number rest
      split
      · rename_i e hb
        simp [Outcome.failFast, surfaced, Call.operation, Call.failed, failedAnswer, hs, hb]
      · rename_i buyResult hb
        split
        · simp [Outcome.failFast, surfaced, Call.operation, Call.failed, failedAnswer, hs, hb]
        · split
          · split
            · rename_i e ha
              simp [Outcome.failFast, surfaced, Call.operation, Call.failed, failedAnswer, hs,
                hb, ha]
            · rename_i ha
              simp [Outcome.failFast, surfaced, Call.operation, Call.failed, failedAnswer, hs,
                hb, ha]
          · simp [Outcome.failFast, surfaced, Call.operation, Call.failed, failedAnswer, hs, hb]

theorem resourceTwilioPhoneNumberUpdate_failFastBut (d : ResourceData) (client : Client) :
    (resourceTwilioPhoneNumberUpdate d client).failFastButAlreadyAssociated client := by
  unfold resourceTwilioPhoneNumberUpdate
  dsimp only
  split
  · rename_i e hu
    simp [Outcome.failFastButAlreadyAssociated, surfaced]
  · rename_i u hu
    split
    · rcases detachBlock_cases client (castToString (d.GetChange "service_sid").1) d.Id with
        h | ⟨⟨e, h⟩, hf⟩ | ⟨h, hf⟩
      · rw [h]
        dsimp only
        rcases attachBlock_cases client (castToString (d.GetChange "service_sid").2) d.Id with
          g | ⟨⟨e, g⟩, gf⟩ | ⟨g, gf⟩ | ⟨g, gf⟩
        · rw [g]
          simp [Outcome.failFastButAlreadyAssociated, surfaced, Call.operation, Call.failed,
            failedAnswer, hu]
        · rw [g]
          simp [Outcome.failFastButAlreadyAssociated, surfaced, Call.operation, Call.failed,
            failedAnswer, hu]
        · rw [g]
          simp [Outcome.failFastButAlreadyAssociated, surfaced, Call.operation, gf,
            failedAnswer, hu, Call.failed.eq_6]
        · rw [g]
          simp [Outcome.failFastButAlreadyAssociated, surfaced, Call.operation, gf,
            failedAnswer, hu, Call.failed.eq_6]
      · rw [h]
        simp [Outcome.failFastButAlreadyAssociated, surfaced, Call.operation, hf,
          failedAnswer, hu, Call.failed.eq_6]
      · rw [h]
        dsimp only
        rcases attachBlock_cases client (castToString (d.GetChange "service_sid").2) d.Id with
          g | ⟨⟨e, g⟩, gf⟩ | ⟨g, gf⟩ | ⟨g, gf⟩
        · rw [g]
          simp [Outcome.failFastButAlreadyAssociated, surfaced, Call.operation, hf,
            failedAnswer, hu, Call.failed.eq_6]
        · rw [g]
          simp [Outcome.failFastButAlreadyAssociated, surfaced, Call.operation, hf, gf,
            failedAnswer, hu, Call.failed.eq_6]
        · rw [g]
          simp [Outcome.failFastButAlreadyAssociated, surfaced, Call.operation, hf, gf,
            failedAnswer, hu, Call.failed.eq_6]
        · rw [g]
          simp [Outcome.failFastButAlreadyAssociated, surfaced, Call.operation, hf, gf,
            failedAnswer, hu, Call.failed.eq_6]
    · simp [Outcome.failFastButAlreadyAssociated, surfaced, Call.operation, Call.failed,
        failedAnswer, hu]

/-- C24, counterexample. The update of a number whose `service_sid` changes
from empty to `MG1`, with an attach that fails with "... is already in the
Messaging Service.": the attach call is answered with an error and the update
returns no error. -/
theorem resourceTwilioPhoneNumberUpdate_swallows_already_associated :
    (resourceTwilioPhoneNumberUpdate newlyAttachedRecord
      (numberClient twoAvailable boughtNumber (some alreadyAttachedError) none)).calls =
      [.IncomingNumbersUpdate "PN9" [], .MessageServicesCreatePhoneNumber "MG1" "PN9"] ∧
    (Call.MessageServicesCreatePhoneNumber "MG1" "PN9").failed
      (numberClient twoAvailable boughtNumber (some alreadyAttachedError) none) = true ∧
    (resourceTwilioPhoneNumberUpdate newlyAttachedRecord
      (numberClient twoAvailable boughtNumber (some alreadyAttachedError) none)).err = none ∧
    ¬ (resourceTwilioPhoneNumberUpdate newlyAttachedRecord
      (numberClient twoAvailable boughtNumber (some alreadyAttachedError) none)).failFast
      (numberClient twoAvailable boughtNumber (some alreadyAttachedError) none) := by
  decide

/-- C24, amended. No retries, and failures are surfaced but for one case: in
every lifecycle function of every resource kind no remote operation is invoked
twice, a remote call that fails is the last call issued, and the function then
returns an error; the exception is the attach of the phone-number Update
answered with "already in the Messaging Service", after which the Update may
return no error. -/
theorem lifecycle_fail_fast (d : ResourceData) (client : Client) :
    (resourceTwilioPhoneNumberCreate d client).failFast client ∧
    (resourceTwilioPhoneNumberRead d client).failFast client ∧
    (resourceTwilioPhoneNumberUpdate d client).failFastButAlreadyAssociated client ∧
    (resourceTwilioPhoneNumberDelete d client).failFast client ∧
    (resourceTwilioMessagingServiceCreate d client).failFast client ∧
    (resourceTwilioMessagingServiceRead d client).failFast client ∧
    (resourceTwilioMessagingServiceUpdate d client).failFast client ∧
    (resourceTwilioMessagingServiceDelete d client).failFast client ∧
    (resourceTwilioSubaccountCreate d client).failFast client ∧
    (resourceTwilioSubaccountRead d client).failFast client ∧
    (resourceTwilioSubaccountUpdate d client).failFast client ∧
    (resourceTwilioSubaccountDelete d client).failFast client ∧
    (resourceTwilioApiKeyCreate d client).failFast client ∧
    (resourceTwilioApiKeyRead d client).failFast client ∧
    (resourceTwilioApiKeyUpdate d client).failFast client ∧
    (resourceTwilioApiKeyDelete d client).failFast client :=
  ⟨resourceTwilioPhoneNumberCreate_failFast d client,
    resourceTwilioPhoneNumberRead_failFast d client,
    resourceTwilioPhoneNumberUpdate_failFastBut d client,
    resourceTwilioPhoneNumberDelete_failFast d client,
    resourceTwilioMessagingServiceCreate_failFast d client,
    resourceTwilioMessagingServiceRead_failFast d client,
    resourceTwilioMessagingServiceUpdate_failFast d client,
    resourceTwilioMessagingServiceDelete_failFast d client,
    resourceTwilioSubaccountCreate_failFast d client,
    resourceTwilioSubaccountRead_failFast d client,
    failFast_nil d _ client,
    resourceTwilioSubaccountDelete_failFast d client,
    resourceTwilioApiKeyCreate_failFast d client,
    resourceTwilioApiKeyRead_failFast d client,
    failFast_nil d _ client,
    resourceTwilioApiKeyDelete_failFast d client⟩

/-! ## Read-only schemas -/

mutual
theorem makeComputedEntry_readOnly : ∀ p : Schema, (makeComputedEntry p).readOnly = true
  | .mk _ _ _ _ _ _ _ _ _ elem => by
    simp [makeComputedEntry, Schema.readOnly, makeComputedElem_readOnly elem]
theorem makeComputedElem_readOnly : ∀ e : Elem, (makeComputedElem e).readOnly = true
  | .none => by simp [makeComputedElem, Elem.readOnly]
  | .schema _ => by simp [makeComputedElem, Elem.readOnly]
  | .resource fields => by
    simp [makeComputedElem, Elem.readOnly, makeComputed_readOnlyMap fields]
theorem makeComputed_readOnlyMap :
    ∀ s : List (String × Schema), readOnlyMap (makeComputed s) = true
  | [] => by simp [makeComputed, readOnlyMap]
  | (_, p) :: rest => by
    simp [makeComputed, readOnlyMap, makeComputedEntry_readOnly p,
      makeComputed_readOnlyMap rest]
end

mutual
theorem makeComputedEntry_layout : ∀ p : Schema, (makeComputedEntry p).layout = p.layout
  | .mk _ _ _ _ _ _ _ _ _ elem => by
    simp [makeComputedEntry, Schema.layout, makeComputedElem_layout elem]
theorem makeComputedElem_layout : ∀ e : Elem, (makeComputedElem e).layout = e.layout
  | .none => by simp [makeComputedElem]
  | .schema _ => by simp [makeComputedElem]
  | .resource fields => by
    simp [makeComputedElem, Elem.layout, makeComputed_layoutMap fields]
theorem makeComputed_layoutMap :
    ∀ s : List (String × Schema), layoutMap (makeComputed s) = layoutMap s
  | [] => by simp [makeComputed]
  | (_, p) :: rest => by
    simp [makeComputed, layoutMap, makeComputedEntry_layout p, makeComputed_layoutMap rest]
end

theorem makeComputed_keys (s : List (String × Schema)) :
    (makeComputed s).map Prod.fst = s.map Prod.fst := by
  induction s with
  | nil => simp [makeComputed]
  | cons hd tl ih =>
    obtain ⟨key, p⟩ := hd
    simp [makeComputed, ih]

theorem makeComputed_lookup (s : List (String × Schema)) (key : String) :
    (makeComputed s).lookup key = (s.lookup key).map makeComputedEntry := by
  induction s with
  | nil => simp [makeComputed]
  | cons hd tl ih =>
    obtain ⟨k, p⟩ := hd
    simp only [makeComputed, List.lookup]
    cases key == k
    · simpa using ih
    · simp

theorem makeComputedEntry_elemFields (p : Schema) :
    (makeComputedEntry p).elemFields = makeComputed p.elemFields := by
  obtain ⟨_, _, _, _, _, _, _, _, _, elem⟩ := p
  cases elem <;>
    simp [makeComputedEntry, makeComputedElem, Schema.elemFields, Schema.Elem, makeComputed]

theorem makeComputed_entryAt (path : List String) :
    ∀ (s : List (String × Schema)) (key : String),
      entryAt (makeComputed s) key path = (entryAt s key path).map makeComputedEntry := by
  induction path with
  | nil => intro s key; simp [entryAt, makeComputed_lookup]
  | cons next path ih =>
    intro s key
    simp only [entryAt, makeComputed_lookup]
    cases s.lookup key with
    | none => simp
    | some p => simp [makeComputedEntry_elemFields, ih]

theorem makeComputedEntry_attributes (p : Schema) :
    (makeComputedEntry p).Computed = true ∧ (makeComputedEntry p).Optional = false ∧
    (makeComputedEntry p).Required = false ∧ (makeComputedEntry p).MinItems = 0 ∧
    (makeComputedEntry p).MaxItems = 0 ∧ (makeComputedEntry p).Default = .nil ∧
    (makeComputedEntry p).ValidateFunc = none ∧ (makeComputedEntry p).DefaultFunc = none ∧
    (makeComputedEntry p).type = p.type := by
  obtain ⟨_, _, _, _, _, _, _, _, _, elem⟩ := p
  simp [makeComputedEntry, Schema.Computed, Schema.Optional, Schema.Required, Schema.MinItems,
    Schema.MaxItems, Schema.Default, Schema.ValidateFunc, Schema.DefaultFunc, Schema.type]

/-- C27. `makeComputed` turns a whole schema read-only, recursively. It is a
total function; for every schema map `s` the map `makeComputed s` has the keys
of `s`; every entry of it, and every entry of every composite element (an
`Elem` that is a resource) below it at any depth, is computed, neither optional
nor required, with `MinItems = 0`, `MaxItems = 0` and no default, validator or
default function; the entry found along any path of keys is the loop body
applied to the entry found along that path in `s`, so the key sets at every
level are those of `s`; the loop body keeps the type of an entry; and the
layout (types, keys, elements, an `Elem` that is a single schema being kept
whole) is that of `s`. -/
theorem makeComputed_read_only (s : List (String × Schema)) :
    (makeComputed s).map Prod.fst = s.map Prod.fst ∧
    readOnlyMap (makeComputed s) = true ∧
    (∀ (key : String) (path : List String),
      entryAt (makeComputed s) key path = (entryAt s key path).map makeComputedEntry) ∧
    (∀ p : Schema,
      (makeComputedEntry p).Computed = true ∧ (makeComputedEntry p).Optional = false ∧
      (makeComputedEntry p).Required = false ∧ (makeComputedEntry p).MinItems = 0 ∧
      (makeComputedEntry p).MaxItems = 0 ∧ (makeComputedEntry p).Default = .nil ∧
      (makeComputedEntry p).ValidateFunc = none ∧ (makeComputedEntry p).DefaultFunc = none ∧
      (makeComputedEntry p).type = p.type) ∧
    layoutMap (makeComputed s) = layoutMap s :=
  ⟨makeComputed_keys s, makeComputed_readOnlyMap s,
    fun key path => makeComputed_entryAt path s key,
    makeComputedEntry_attributes, makeComputed_layoutMap s⟩

/-- Example for C27: four entries of the phone-number schema. The nested
`http_method` of `status_callback` loses its default and its validator and
keeps its type. -/
theorem makeComputed_read_only_witness :
    entryAt phoneNumberDeclarations "status_callback" ["http_method"] =
      some (.mk .TypeString true false true 0 0 (some "validation.StringInSlice") none
        (.str "POST") .none) ∧
    entryAt (makeComputed phoneNumberDeclarations) "status_callback" ["http_method"] =
      some (.mk .TypeString false false true 0 0 none none .nil .none) ∧
    (makeComputed phoneNumberDeclarations).map Prod.fst =
      ["sid", "country_code", "friendly_name", "status_callback"] ∧
    readOnlyMap phoneNumberDeclarations = false ∧
    readOnlyMap (makeComputed phoneNumberDeclarations) = true :=
  ⟨by rfl,
    ((makeComputed_read_only phoneNumberDeclarations).2.2.1 "status_callback"
      ["http_method"]).trans (by rfl),
    (makeComputed_read_only phoneNumberDeclarations).1.trans (by rfl),
    by rfl,
    (makeComputed_read_only phoneNumberDeclarations).2.1⟩

end Twilio
